import Mathlib

/-!
3D Solar System: orbital kinematics of `3DSS-V2`.

A shallow embedding of `src/3DSS-V2/src/planets.js` (`createPlanets`, `createPlanet`),
`src/3DSS-V2/src/main.js` (`animate`, `updateMoon`) and
`src/3DSS-V2/src/data/planetsConfig.js`.

Conventions of the embedding:

* JavaScript numbers are real numbers (`ℝ`): the statements are about exact arithmetic,
  rounding is not modelled.  `Math.sqrt`, `Math.cos`, `Math.sin` and `Math.PI` are
  `Real.sqrt`, `Real.cos`, `Real.sin` and `Real.pi`.
* A property that may be missing (`undefined`) is an `Option`.
* `Math.random()` and `clock.getDelta()` are inputs of the functions that call them.
* Mutation of the scene objects is explicit state passing: a function returns the
  object as it is after the JavaScript function has run.
* `rotateY(θ)` turns an object about its own Y axis; the embedding keeps the sum of the
  angles passed to it (`spinY`).
* Textures, geometries and shader sources belong to the rendering library and are
  left out; the kind of material chosen for a planet is kept.
-/

noncomputable section

namespace SolarSystem

set_option genInjectivity false
set_option genSizeOf false
set_option genSizeOfSpec false

/-! ## Data model -/

set_option genInjectivity true in
/-- A `THREE.Vector3`. -/
structure Vec3 where
  x : ℝ
  y : ℝ
  z : ℝ

/-- The `physical` record of a body of `planetsConfig.js`. -/
structure Physical where
  radius : ℝ
  distance : ℝ
  tilt : Option ℝ
  eccentricity : Option ℝ
  rotationPeriod : Option ℝ
  orbitPeriod : Option ℝ

/-- The `assets.rings` record. -/
structure RingConfig where
  innerRadius : ℝ
  outerRadius : ℝ

/-- The `assets` record: which assets are configured (paths are left out). `rings` is
present exactly when `hasRings` is set. -/
structure Assets where
  customShader : Bool
  emissive : Bool
  bump : Bool
  rings : Option RingConfig
  atmosphere : Bool

/-- One entry of a body's `moons` array. -/
structure MoonConfig where
  size : Option ℝ
  bump : Bool
  orbitRadius : ℝ
  orbitPeriod : Option ℝ
  modelPath : Option String
  scale : Option ℝ
  position : Option ℝ

/-- One body of the configuration table (`light` is reduced to `light?.enabled`). -/
structure Config where
  physical : Physical
  assets : Assets
  moons : Option (List MoonConfig)
  lightEnabled : Bool

/-- The configuration table as `Object.entries` lists it: names with their configs. -/
abbrev ConfigTable := List (String × Config)

/-- The material `createPlanet` chooses (planets.js 13-67). -/
inductive MaterialKind where
  | dayNightShader
  | emissive
  | bumpMapped
  | standard
  deriving DecidableEq

/-- The `ellipticalData` record of `createPlanet` (planets.js 83). -/
structure EllipticalData where
  a : ℝ
  b : ℝ
  c : ℝ
  eccentricity : ℝ

/-- The `planet.animationData` record: `\x7b angle, ...ellipticalData \x7d`. For the Sun
`ellipticalData` is empty, so `a`, `b`, `c` are missing. -/
structure AnimationData where
  angle : ℝ
  ellipse : Option EllipticalData

/-- The core mesh `planet`. `position` is `none` when a component is NaN. -/
structure PlanetMesh where
  material : MaterialKind
  position : Option Vec3
  rotationZ : ℝ
  spinY : ℝ
  animationData : AnimationData

/-- The container `planet3d`, which carries the orbital position. `position` is `none`
when a component is NaN (an orbit computed from missing `a`, `b`, `c`). -/
structure Object3D where
  position : Option Vec3

/-- The atmosphere shell, a child of the core mesh. -/
structure AtmosphereMesh where
  rotationZ : ℝ
  spinY : ℝ

/-- The ring mesh. -/
structure RingMesh where
  innerRadius : ℝ
  outerRadius : ℝ
  rotationX : ℝ
  rotationY : ℝ

/-- The mesh of a moon, in the coordinates of the parent's `planetSystem`. -/
structure MoonMesh where
  position : Option Vec3
  spinY : ℝ

set_option genInjectivity true in
/-- A moon object: `\x7b ...moonConfig, angle, mesh \x7d` (planets.js 161-165); `mesh` is
`null` until a mesh is attached. -/
structure Moon where
  config : MoonConfig
  angle : Option ℝ
  mesh : Option MoonMesh

/-- The object `createPlanet` returns (planets.js 210-220). -/
structure Body where
  name : String
  planet : PlanetMesh
  planet3d : Object3D
  Atmosphere : Option AtmosphereMesh
  moons : List Moon
  Ring : Option RingMesh
  pointLight : Bool
  config : Config

/-- The nine keys of the `planets` object that `createPlanets` returns
(planets.js 293-303). -/
inductive PlanetKey where
  | mercury | venus | earth | mars | jupiter | saturn | uranus | neptune | pluto
  deriving DecidableEq

/-- The property name of a key. -/
def PlanetKey.name : PlanetKey → String
  | .mercury => "mercury"
  | .venus => "venus"
  | .earth => "earth"
  | .mars => "mars"
  | .jupiter => "jupiter"
  | .saturn => "saturn"
  | .uranus => "uranus"
  | .neptune => "neptune"
  | .pluto => "pluto"

set_option genInjectivity true in
/-- An entry of `raycastTargets`: the core mesh or the atmosphere shell of the body
built from the table entry of that name. -/
inductive PickTarget where
  | planet (owner : String)
  | atmosphere (owner : String)
  deriving DecidableEq

/-- An asteroid of the `asteroids` array. -/
structure Asteroid where
  position : Vec3
  rotationY : ℝ

/-- The object `createPlanets` returns, as far as `animate` and the picking code read it.
`sun` is the body built for `'Sun'`: `planetsObj.sun` is its `planet` mesh, to which
`createPlanets` attaches the config. `jupiterMoons` and `marsMoons` are the very arrays
`planets.jupiter.moons` and `planets.mars.moons`, so they are not stored twice. -/
structure PlanetsObj where
  sun : Option Body
  planets : PlanetKey → Option Body
  raycastTargets : List PickTarget
  asteroids : List Asteroid

/-! ## JavaScript helpers -/

/-- The expression `x || d` for a number `x` that may be missing: `d` when `x` is
`undefined` or `0`. -/
def orElse (x : Option ℝ) (d : ℝ) : ℝ :=
  match x with
  | some v => if v = 0 then d else v
  | none => d

/-- The method `String.prototype.toLowerCase` on ASCII letters. Characters outside ASCII
are left as they are; none of them lower-cases to a letter of the nine keys of
`planets`, so the comparison with a key is not affected. -/
def toLowerCase (s : String) : String :=
  String.mk (s.data.map Char.toLower)

/-! ## planets.js -/

/-- The Kepler block of `createPlanet` (planets.js 78-83): semi-major axis `a`,
eccentricity `e`, semi-minor axis `b` and focal distance `c`. -/
def ellipticalData (physical : Physical) : EllipticalData :=
  let a := physical.distance
  let e := orElse physical.eccentricity 0
  let b := a * Real.sqrt (1 - e * e)
  let c := a * e
  { a := a, b := b, c := c, eccentricity := e }

/-- The point of the ellipse at angle `theta`: `x = a cos θ - c`, `z = b sin θ`, `y = 0`
(planets.js 96-98 and main.js 137-141). -/
def orbitPoint (a b c theta : ℝ) : Vec3 :=
  { x := a * Real.cos theta - c, y := 0, z := b * Real.sin theta }

/-- The points of the orbit guide-path (planets.js 92-99): `segments = 128`,
`i = 0, ..., 128`. -/
def ellipsePoints (d : EllipticalData) : List Vec3 :=
  (List.range 129).map fun (i : Nat) => orbitPoint d.a d.b d.c (((i : ℝ) / 128) * Real.pi * 2)

/-- The material choice of `createPlanet` (planets.js 13-67). -/
def chooseMaterial (name : String) (assets : Assets) : MaterialKind :=
  if name = "Earth" ∧ assets.customShader = true then .dayNightShader
  else if name = "Sun" ∧ assets.emissive = true then .emissive
  else if assets.bump = true then .bumpMapped
  else .standard

/-- One moon of `createPlanet` (planets.js 159-192). `r` is the value of `Math.random()`.
A moon with a `modelPath` gets no mesh here. -/
def createMoon (moonConfig : MoonConfig) (r : ℝ) : Moon :=
  let modelled : Bool :=
    match moonConfig.modelPath with
    | some p => !(p == "")
    | none => false
  { config := moonConfig
    angle := some (r * Real.pi * 2)
    mesh :=
      if modelled then none
      else some { position := some { x := moonConfig.orbitRadius, y := 0, z := 0 }, spinY := 0 } }

/-- The moons of `createPlanet`, in order; moon `i` draws `rnd (i + 1)`. -/
def createMoons (rnd : Nat → ℝ) : Nat → List MoonConfig → List Moon
  | _, [] => []
  | i, m :: ms => createMoon m (rnd (i + 1)) :: createMoons rnd (i + 1) ms

/-- The function `createPlanet(name, config)` of planets.js. `rnd 0` is the value of
`Math.random()` for the start angle, `rnd (i + 1)` the one for moon `i`. -/
def createPlanet (name : String) (config : Config) (rnd : Nat → ℝ) : Body :=
  let physical := config.physical
  let assets := config.assets
  let tilt := orElse physical.tilt 0
  { name := name
    planet :=
      { material := chooseMaterial name assets
        position := some { x := 0, y := 0, z := 0 }
        rotationZ := if name ≠ "Sun" then tilt * Real.pi / 180 else 0
        spinY := 0
        animationData :=
          { angle := rnd 0 * Real.pi * 2
            ellipse := if name ≠ "Sun" then some (ellipticalData physical) else none } }
    planet3d := { position := some { x := 0, y := 0, z := 0 } }
    Atmosphere :=
      if assets.atmosphere = true then
        some { rotationZ := tilt * Real.pi / 180, spinY := 0 }
      else none
    moons :=
      match config.moons with
      | some moonConfigs => createMoons rnd 0 moonConfigs
      | none => []
    Ring :=
      match assets.rings with
      | some ringData =>
        some { innerRadius := ringData.innerRadius
               outerRadius := ringData.outerRadius
               rotationX := -0.5 * Real.pi
               rotationY := -tilt * Real.pi / 180 }
      | none => none
    pointLight := decide (name = "Sun") && config.lightEnabled
    config := config }

/-- The orbit guide-path `createPlanet` adds to the scene (planets.js 91-111): none for
`'Sun'`, the 129 sampled points otherwise. -/
def createOrbit (name : String) (config : Config) : Option (List Vec3) :=
  if name ≠ "Sun" then some (ellipsePoints (ellipticalData config.physical)) else none

/-- The record `celestialBodies` while `createPlanets` runs over the table
(planets.js 224-241): the Sun, the bodies by lower-cased name, and the pick list. -/
structure CelestialBodies where
  sun : Option Body
  byName : String → Option Body
  raycastTargets : List PickTarget

/-- One round of the loop of planets.js 227-241 for the body built from an entry. A name
other than `'Sun'` is stored under its lower-cased form. (A name such as `'SUN'` would
also be stored under the key `sun`; `main.js` reads `planetsObj.sun` as the Sun's mesh,
and the embedding keeps the two apart.) -/
def registerBody (cb : CelestialBodies) (name : String) (body : Body) : CelestialBodies :=
  if name = "Sun" then
    { cb with sun := some body }
  else
    { cb with
      byName := fun key => if key = toLowerCase name then some body else cb.byName key
      raycastTargets :=
        cb.raycastTargets ++ [PickTarget.planet name] ++
          (match body.Atmosphere with
           | some _ => [PickTarget.atmosphere name]
           | none => []) }

/-- The loop of planets.js 227-241 from entry number `i` on; entry `i` draws its random
numbers from `rnd i`. -/
def registerAll (rnd : Nat → Nat → ℝ) : Nat → ConfigTable → CelestialBodies → CelestialBodies
  | _, [], cb => cb
  | i, (name, config) :: rest, cb =>
    registerAll rnd (i + 1) rest (registerBody cb name (createPlanet name config (rnd i)))

/-- The function `createPlanets` of planets.js, for the table `planetsConfig`. `planets`
holds the nine named keys of `celestialBodies` and nothing else (planets.js 293-303);
`asteroids` is empty until `loadAsteroids` fills it. -/
def createPlanets (rnd : Nat → Nat → ℝ) (planetsConfig : ConfigTable) : PlanetsObj :=
  let celestialBodies :=
    registerAll rnd 0 planetsConfig { sun := none, byName := fun _ => none, raycastTargets := [] }
  { sun := celestialBodies.sun
    planets := fun key => celestialBodies.byName key.name
    raycastTargets := celestialBodies.raycastTargets
    asteroids := [] }

/-! ## data/planetsConfig.js -/

/-- A moon built from a texture (`size`, `texture`, `orbitRadius`, `orbitPeriod`). -/
def sphereMoon (size orbitRadius orbitPeriod : ℝ) (bump : Bool) : MoonConfig :=
  { size := some size, bump := bump, orbitRadius := orbitRadius,
    orbitPeriod := some orbitPeriod, modelPath := none, scale := none, position := none }

/-- A moon loaded from a model (`modelPath`, `scale`, `orbitRadius`, `orbitPeriod`,
`position`). -/
def modelMoon (modelPath : String) (scale orbitRadius orbitPeriod position : ℝ) : MoonConfig :=
  { size := none, bump := false, orbitRadius := orbitRadius, orbitPeriod := some orbitPeriod,
    modelPath := some modelPath, scale := some scale, position := some position }

/-- The `physical` record of an entry of `planetsConfig.js`, all six fields given. -/
def physicalOf (radius distance tilt eccentricity rotationPeriod orbitPeriod : ℝ) : Physical :=
  { radius := radius, distance := distance, tilt := some tilt,
    eccentricity := some eccentricity, rotationPeriod := some rotationPeriod,
    orbitPeriod := some orbitPeriod }

/-- The entry `Sun` of `planetsConfig.js` (3-38). -/
def sunConfig : Config :=
  { physical := physicalOf (697 / 40) 0 0 0 27 0
    assets := { customShader := false, emissive := true, bump := false, rings := none,
                atmosphere := false }
    moons := none
    lightEnabled := true }

/-- The entry `Mercury` (40-66). -/
def mercuryConfig : Config :=
  { physical := physicalOf 2.4 40 0 0.205 58.6 88
    assets := { customShader := false, emissive := false, bump := true, rings := none,
                atmosphere := false }
    moons := none
    lightEnabled := false }

/-- The entry `Venus` (68-95). -/
def venusConfig : Config :=
  { physical := physicalOf 6.1 65 3 0.007 (-243) 224.7
    assets := { customShader := false, emissive := false, bump := true, rings := none,
                atmosphere := true }
    moons := none
    lightEnabled := false }

/-- The entry `Earth` (97-135). -/
def earthConfig : Config :=
  { physical := physicalOf 6.4 90 23 0.017 1 365.25
    assets := { customShader := true, emissive := false, bump := false, rings := none,
                atmosphere := true }
    moons := some [sphereMoon 1.6 10 27.3 true]
    lightEnabled := false }

/-- The entry `Mars` (137-179). -/
def marsConfig : Config :=
  { physical := physicalOf 3.4 115 25 0.094 1.03 687
    assets := { customShader := false, emissive := false, bump := true, rings := none,
                atmosphere := false }
    moons := some [modelMoon "/images/mars/phobos.glb" 0.1 5 0.32 100,
                   modelMoon "/images/mars/deimos.glb" 0.1 9 1.26 120]
    lightEnabled := false }

/-- The entry `Jupiter` (181-212). -/
def jupiterConfig : Config :=
  { physical := physicalOf (69 / 4) 200 3 0.049 0.41 4333
    assets := { customShader := false, emissive := false, bump := false, rings := none,
                atmosphere := false }
    moons := some [sphereMoon 1.6 20 1.77 false, sphereMoon 1.4 24 3.55 false,
                   sphereMoon 2 28 7.15 false, sphereMoon 1.7 32 16.69 false]
    lightEnabled := false }

/-- The entry `Saturn` (214-245). -/
def saturnConfig : Config :=
  { physical := physicalOf (58 / 4) 270 26 0.057 0.45 10759
    assets := { customShader := false, emissive := false, bump := false,
                rings := some { innerRadius := 18, outerRadius := 29 }, atmosphere := false }
    moons := none
    lightEnabled := false }

/-- The entry `Uranus` (247-278). -/
def uranusConfig : Config :=
  { physical := physicalOf (25 / 4) 320 82 0.046 (-0.72) 3068
    assets := { customShader := false, emissive := false, bump := false,
                rings := some { innerRadius := 6, outerRadius := 8 }, atmosphere := false }
    moons := none
    lightEnabled := false }

/-- The entry `Neptune` (280-305). -/
def neptuneConfig : Config :=
  { physical := physicalOf (24 / 4) 340 28 0.011 0.67 60190
    assets := { customShader := false, emissive := false, bump := false, rings := none,
                atmosphere := false }
    moons := none
    lightEnabled := false }

/-- The entry `Pluto` (307-332). -/
def plutoConfig : Config :=
  { physical := physicalOf 3 440 57 0.244 (-6.39) 90560
    assets := { customShader := false, emissive := false, bump := false, rings := none,
                atmosphere := false }
    moons := none
    lightEnabled := false }

/-- The table `planetsConfig` of `data/planetsConfig.js`, in the order of its keys. -/
def planetsConfig : ConfigTable :=
  [("Sun", sunConfig), ("Mercury", mercuryConfig), ("Venus", venusConfig),
   ("Earth", earthConfig), ("Mars", marsConfig), ("Jupiter", jupiterConfig),
   ("Saturn", saturnConfig), ("Uranus", uranusConfig), ("Neptune", neptuneConfig),
   ("Pluto", plutoConfig)]

/-! ## main.js -/

/-- Step B of `animate` (main.js 110-114): the Sun turns with period
`rotationPeriod || 27`. -/
def rotateSun (simulatedDays : ℝ) (sun : Body) : Body :=
  let period := orElse sun.config.physical.rotationPeriod 27
  { sun with
    planet := { sun.planet with
      spinY := sun.planet.spinY + (simulatedDays / period) * 2 * Real.pi } }

/-- Step C.1 of `animate` (main.js 127-129): the planet turns about its axis when
`rotationPeriod` is present and not zero. -/
def spinPlanet (simulatedDays : ℝ) (config : Physical) (planet : PlanetMesh) : PlanetMesh :=
  match config.rotationPeriod with
  | some rotationPeriod =>
    if rotationPeriod ≠ 0 then
      { planet with spinY := planet.spinY + (simulatedDays / rotationPeriod) * 2 * Real.pi }
    else planet
  | none => planet

/-- The position written by main.js 137-141; with `a`, `b`, `c` missing the components
are NaN. -/
def keplerPosition (animData : AnimationData) : Option Vec3 :=
  match animData.ellipse with
  | some d => some (orbitPoint d.a d.b d.c animData.angle)
  | none => none

/-- Step C.3 of `animate` (main.js 145-148): the atmosphere turns with period
`rotationPeriod * 1.1`, or `100` when `rotationPeriod` is missing or zero. -/
def spinAtmosphere (simulatedDays : ℝ) (config : Physical) (atmosphere : AtmosphereMesh) :
    AtmosphereMesh :=
  let atmosSpeed :=
    match config.rotationPeriod with
    | some rotationPeriod => if rotationPeriod ≠ 0 then rotationPeriod * 1.1 else 100
    | none => 100
  { atmosphere with spinY := atmosphere.spinY + (simulatedDays / atmosSpeed) * 2 * Real.pi }

/-- Step C.2 of `animate` (main.js 132-142): with a positive `orbitPeriod` the angle
advances and `planet3d` is placed on the ellipse at the new angle. -/
def advanceOrbit (simulatedDays : ℝ) (config : Physical) (planetObj : Body) : Body :=
  match config.orbitPeriod with
  | some orbitPeriod =>
    if orbitPeriod ≠ 0 ∧ orbitPeriod > 0 then
      let animData : AnimationData :=
        { planetObj.planet.animationData with
          angle := planetObj.planet.animationData.angle +
            (simulatedDays / orbitPeriod) * 2 * Real.pi }
      { planetObj with
        planet := { planetObj.planet with animationData := animData }
        planet3d := { planetObj.planet3d with position := keplerPosition animData } }
    else planetObj
  | none => planetObj

/-- Step C.1 on the entry: `planet.rotateY(...)`. -/
def spinBody (simulatedDays : ℝ) (config : Physical) (planetObj : Body) : Body :=
  { planetObj with planet := spinPlanet simulatedDays config planetObj.planet }

/-- Step C.3 on the entry: `planetObj.Atmosphere.rotateY(...)` when there is a shell. -/
def spinShell (simulatedDays : ℝ) (config : Physical) (planetObj : Body) : Body :=
  { planetObj with
    Atmosphere := planetObj.Atmosphere.map (spinAtmosphere simulatedDays config) }

/-- Step C of `animate` for one entry of `planets` (main.js 118-150): `config` is read
once, then the planet spins, moves along its orbit, and its atmosphere spins. -/
def animatePlanet (simulatedDays : ℝ) (planetObj : Body) : Body :=
  let config := planetObj.config.physical
  spinShell simulatedDays config
    (advanceOrbit simulatedDays config (spinBody simulatedDays config planetObj))

/-- The function `updateMoon` of `animate` (main.js 153-176). `r` is the value of
`Math.random()`, drawn only when the moon has no angle yet. A moon without a mesh is
left as it is. -/
def updateMoon (simulatedDays : ℝ) (r : ℝ) (moon : Moon) : Moon :=
  match moon.mesh with
  | none => moon
  | some mesh =>
    let angle0 : ℝ :=
      match moon.angle with
      | some angle => angle
      | none => r * Real.pi * 2
    let period := orElse moon.config.orbitPeriod 27
    let angle := angle0 + (simulatedDays / period) * 2 * Real.pi
    let x := moon.config.orbitRadius * Real.cos angle
    let z := moon.config.orbitRadius * Real.sin angle
    { moon with
      angle := some angle
      mesh := some
        { position := some { x := x, y := 0, z := z }
          spinY := mesh.spinY + (simulatedDays / period) * 2 * Real.pi } }

/-- The call `moons.forEach(updateMoon)`; moon `i` of the array draws `rnd i`. -/
def updateMoons (simulatedDays : ℝ) (rnd : Nat → ℝ) : Nat → List Moon → List Moon
  | _, [] => []
  | i, moon :: rest =>
    updateMoon simulatedDays (rnd i) moon :: updateMoons simulatedDays rnd (i + 1) rest

/-- Whether `animate` runs `updateMoon` over the moons of a key (main.js 178-189):
`planets.earth.moons`, `marsMoons` and `jupiterMoons`. -/
def moonsAnimated : PlanetKey → Bool
  | .earth => true
  | .mars => true
  | .jupiter => true
  | _ => false

/-- Step E of `animate` for one asteroid (main.js 193-205). -/
def updateAsteroid (timeScale : ℝ) (asteroid : Asteroid) : Asteroid :=
  let orbitSpeed := 0.0001 * timeScale
  let x := asteroid.position.x
  let z := asteroid.position.z
  { position :=
      { x := x * Real.cos orbitSpeed - z * Real.sin orbitSpeed
        y := asteroid.position.y
        z := x * Real.sin orbitSpeed + z * Real.cos orbitSpeed }
    rotationY := asteroid.rotationY + 0.01 * timeScale }

/-- Steps C and D of `animate` for the entry `key` of `planets`: the planet is animated,
and its moons are updated when `key` is one of the three keys whose moons `animate`
walks. `rnd i` is the value of `Math.random()` for moon `i`. -/
def animateEntry (rnd : Nat → ℝ) (simulatedDays : ℝ) (key : PlanetKey) (planetObj : Body) :
    Body :=
  let animated := animatePlanet simulatedDays planetObj
  if moonsAnimated key = true then
    { animated with moons := updateMoons simulatedDays rnd 0 animated.moons }
  else animated

/-- One call of `animate` (main.js 104-214) on the objects of `planetsObj`: `dt` is the
value of `clock.getDelta()`, `timeScale` is `settings.timeScale`, and `rnd key i` is the
value of `Math.random()` for moon `i` of `key`. Steps B to E; the picking, camera and
render calls of step F do not write to these objects. -/
def animate (rnd : PlanetKey → Nat → ℝ) (dt timeScale : ℝ) (planetsObj : PlanetsObj) :
    PlanetsObj :=
  let simulatedDays := dt * timeScale
  { sun := planetsObj.sun.map (rotateSun simulatedDays)
    planets := fun key =>
      (planetsObj.planets key).map (animateEntry (rnd key) simulatedDays key)
    raycastTargets := planetsObj.raycastTargets
    asteroids := planetsObj.asteroids.map (updateAsteroid timeScale) }

/-- A run of `animate` calls, one per frame: each frame has its own `dt`, `timeScale`
and random draws. -/
def animateFrames : List ((PlanetKey → Nat → ℝ) × ℝ × ℝ) → PlanetsObj → PlanetsObj
  | [], planetsObj => planetsObj
  | (rnd, dt, timeScale) :: rest, planetsObj =>
    animateFrames rest (animate rnd dt timeScale planetsObj)

/-! ## Concrete inputs -/

/-- Every call of `Math.random()` in `createPlanets` returns `r`. -/
def constDraws (r : ℝ) : Nat → Nat → ℝ := fun _ _ => r

/-- Every call of `Math.random()` in `animate` returns `r`. -/
def constMoonDraws (r : ℝ) : PlanetKey → Nat → ℝ := fun _ _ => r

/-- The sum of the simulated days `dt * timeScale` of a run of frames. -/
def simulatedDaysOf (frames : List ((PlanetKey → Nat → ℝ) × ℝ × ℝ)) : ℝ :=
  (frames.map fun frame => frame.2.1 * frame.2.2).sum

/-- A table with the Sun and a body registered as `pluto` that does not orbit: it has
the Sun's `physical` record, with `orbitPeriod = 0`. -/
def stillTable : ConfigTable :=
  [("Sun", sunConfig), ("Pluto", sunConfig)]

/-- The Sun's config with `rotationPeriod = 0`. -/
def sunNoSpinConfig : Config :=
  { sunConfig with physical := { sunConfig.physical with rotationPeriod := some 0 } }

/-- Saturn's config with one textured moon (`orbitRadius = 40`, `orbitPeriod = 10`). -/
def saturnWithMoonConfig : Config :=
  { saturnConfig with moons := some [sphereMoon 1 40 10 false] }

/-! ## Objects that sit on their orbits -/

/-- The mesh of the moon, if it has one, sits at the position of the moon's angle:
`(orbitRadius cos angle, 0, orbitRadius sin angle)`. -/
def Moon.onOrbit (moon : Moon) : Prop :=
  ∀ mesh, moon.mesh = some mesh →
    ∃ angle, moon.angle = some angle ∧
      mesh.position = some { x := moon.config.orbitRadius * Real.cos angle
                             y := 0
                             z := moon.config.orbitRadius * Real.sin angle }

/-- The container `planet3d` of a body with a positive `orbitPeriod` sits at the orbit
position of the body's phase angle. -/
def Body.onOrbit (planetObj : Body) : Prop :=
  ∀ orbitPeriod, planetObj.config.physical.orbitPeriod = some orbitPeriod → 0 < orbitPeriod →
    planetObj.planet3d.position = keplerPosition planetObj.planet.animationData

/-- Every entry of `planets` sits on its orbit, and so does every moon that `animate`
walks. -/
def PlanetsObj.onOrbit (planetsObj : PlanetsObj) : Prop :=
  ∀ key planetObj, planetsObj.planets key = some planetObj →
    planetObj.onOrbit ∧
      (moonsAnimated key = true → ∀ moon ∈ planetObj.moons, moon.onOrbit)

/-! ## interactions.js

Objects are told apart by identity in JavaScript. Here a pickable object is named by its
kind and its owner (`PickTarget`), an orbit line by its `uuid`. Every core mesh, every
atmosphere shell and every orbit line has a material of its own, created by its own
`new` expression, so two objects have the same material exactly when they are the same
object. -/

set_option genInjectivity true in
/-- The outcome of `identifyPlanet`: a `TypeError` (a key of `planets` that the chain of
tests reads is `undefined`), `null`, or an entry of `planets` together with the value
written to `offset`. -/
inductive Identified where
  | typeError
  | null
  | planet (body : Body) (offset : ℝ)

/-- The test `clickedObject.material === planetObj.planet.material`: the clicked object
is the core mesh of `planetObj`. -/
def sameMaterial (clickedObject : PickTarget) (planetObj : Body) : Bool :=
  clickedObject == PickTarget.planet planetObj.name

/-- The test `clickedObject === planetObj.Atmosphere`. -/
def isAtmosphereOf (clickedObject : PickTarget) (planetObj : Body) : Bool :=
  planetObj.Atmosphere.isSome && clickedObject == PickTarget.atmosphere planetObj.name

/-- The chain of tests of `identifyPlanet` (interactions.js 30-48), in order: the key,
whether the test is on the atmosphere shell (else on the material of the core mesh), and
the value written to `offset`. -/
def identifyChain : List (PlanetKey × Bool × ℝ) :=
  [(.mercury, false, 10), (.venus, true, 25), (.earth, true, 25), (.mars, false, 15),
   (.jupiter, false, 50), (.saturn, false, 50), (.uranus, false, 25),
   (.neptune, false, 20), (.pluto, false, 10)]

/-- The `if ... else if ...` chain of `identifyPlanet` from a given test on. Reading
`.planet` or `.Atmosphere` of a key that is `undefined` throws. -/
def identifyFrom (planetsObj : PlanetsObj) (clickedObject : PickTarget) :
    List (PlanetKey × Bool × ℝ) → Identified
  | [] => .null
  | (key, onShell, offset) :: rest =>
    match planetsObj.planets key with
    | none => .typeError
    | some planetObj =>
      if (if onShell then isAtmosphereOf clickedObject planetObj
          else sameMaterial clickedObject planetObj) = true then
        .planet planetObj offset
      else identifyFrom planetsObj clickedObject rest

/-- The function `identifyPlanet` (interactions.js 26-50). -/
def identifyPlanet (planetsObj : PlanetsObj) (clickedObject : Option PickTarget) : Identified :=
  match clickedObject with
  | none => .null
  | some object => identifyFrom planetsObj object identifyChain

/-- A `THREE.Color`: three components. The conversion between a hex value and the
working colour space, which `getHex` undoes, is left out. -/
structure Color where
  r : ℝ
  g : ℝ
  b : ℝ

/-- The call `color.set(hex)`. -/
def Color.ofHex (hex : Nat) : Color :=
  { r := ((hex / 65536 % 256 : Nat) : ℝ) / 255
    g := ((hex / 256 % 256 : Nat) : ℝ) / 255
    b := ((hex % 256 : Nat) : ℝ) / 255 }

/-- The function `THREE.MathUtils.clamp`. -/
def clamp (value lo hi : ℝ) : ℝ := max lo (min hi value)

/-- The method `color.getHex()`: each component times 255, clamped and rounded. -/
def Color.getHex (color : Color) : Nat :=
  ⌊clamp (color.r * 255) 0 255 + 1 / 2⌋₊ * 65536 +
    ⌊clamp (color.g * 255) 0 255 + 1 / 2⌋₊ * 256 +
    ⌊clamp (color.b * 255) 0 255 + 1 / 2⌋₊

/-- The method `lerpColors(color1, color2, alpha)`. -/
def Color.lerpColors (color1 color2 : Color) (alpha : ℝ) : Color :=
  { r := color1.r + (color2.r - color1.r) * alpha
    g := color1.g + (color2.g - color1.g) * alpha
    b := color1.b + (color2.b - color1.b) * alpha }

/-- The blending modes the selection code writes. -/
inductive Blending where
  | normal
  | additive
  deriving DecidableEq

/-- The style of the material of an orbit line. -/
structure LineMaterial where
  color : Color
  opacity : ℝ
  transparent : Bool
  blending : Blending

/-- An entry of the map `orbitOriginalStyles` (interactions.js 92-96). -/
structure SavedStyle where
  color : Nat
  opacity : ℝ
  transparent : Bool

/-- A child of a `planetSystem` group: its `type` and its `uuid`. -/
structure SceneChild where
  type : String
  uuid : Nat

/-- What the selection code of `initInteractions` reads and writes: for each key of
`planets` the children of `planet.parent`, the material of each orbit line (by `uuid`),
and the variables `selectedPlanet`, `offset`, `highlightedOrbit` and
`orbitOriginalStyles` of the closure. -/
structure Interactions where
  planetSystem : PlanetKey → List SceneChild
  material : Nat → LineMaterial
  selectedPlanet : Option PlanetKey
  offset : ℝ
  highlightedOrbit : Option Nat
  orbitOriginalStyles : Nat → Option SavedStyle

/-- The keys of `planets` in the order `for (const key in planetsObj.planets)` visits
them. -/
def PlanetKey.all : List PlanetKey :=
  [.mercury, .venus, .earth, .mars, .jupiter, .saturn, .uranus, .neptune, .pluto]

/-- The function `findOrbitForPlanet` (interactions.js 57-68), applied to the entry of a
key: the first child of `planet.parent` of type `'Line'` or `'LineLoop'`, by `uuid`. -/
def findOrbitForPlanet (planetsObj : PlanetsObj) (state : Interactions) (key : PlanetKey) :
    Option Nat :=
  match planetsObj.planets key with
  | none => none
  | some _ =>
    ((state.planetSystem key).find? fun child =>
      child.type == "Line" || child.type == "LineLoop").map fun child => child.uuid

/-- The body of the restore loop of `highlightOrbitFor` (interactions.js 76-84) for one
orbit: colour, opacity and the transparent flag go back to the saved style, if there is
one. -/
def restoreStyle (state : Interactions) (uuid : Nat) : Interactions :=
  match state.orbitOriginalStyles uuid with
  | none => state
  | some orig =>
    { state with
      material := Function.update state.material uuid
        { state.material uuid with
          color := Color.ofHex orig.color
          opacity := orig.opacity
          transparent := orig.transparent } }

/-- The restore loop of `highlightOrbitFor` (interactions.js 73-85) over a list of keys. -/
def restoreOrbits (planetsObj : PlanetsObj) : List PlanetKey → Interactions → Interactions
  | [], state => state
  | key :: rest, state =>
    restoreOrbits planetsObj rest
      (match findOrbitForPlanet planetsObj state key with
       | none => state
       | some uuid => restoreStyle state uuid)

/-- The function `highlightOrbitFor` (interactions.js 71-106), called with the entry of
`planets` under `key`, as `onDocumentMouseDown` calls it with what `identifyPlanet`
returns. -/
def highlightOrbitFor (planetsObj : PlanetsObj) (state : Interactions) (key : PlanetKey) :
    Interactions :=
  let restored := restoreOrbits planetsObj PlanetKey.all state
  match findOrbitForPlanet planetsObj restored key with
  | none => restored
  | some uuid =>
    let saved : Interactions :=
      match restored.orbitOriginalStyles uuid with
      | some _ => restored
      | none =>
        { restored with
          orbitOriginalStyles := Function.update restored.orbitOriginalStyles uuid
            (some { color := (restored.material uuid).color.getHex
                    opacity := (restored.material uuid).opacity
                    transparent := (restored.material uuid).transparent }) }
    { saved with
      material := Function.update saved.material uuid
        { color := Color.ofHex 0x66aaff
          opacity := max (orElse (some (saved.material uuid).opacity) 0.05) 0.25
          transparent := true
          blending := .additive }
      highlightedOrbit := some uuid }

/-- The pulse of `updateOnFrame` (interactions.js 301-316) at time
`t = performance.now() * 0.001`: opacity and colour of the highlighted orbit. -/
def pulseHighlight (t : ℝ) (state : Interactions) : Interactions :=
  match state.highlightedOrbit with
  | none => state
  | some uuid =>
    let orig : SavedStyle :=
      match state.orbitOriginalStyles uuid with
      | some style => style
      | none => { color := 0xffffff, opacity := 0.03, transparent := false }
    let base := orig.opacity
    let pulse := base + 0.15 * (0.5 + 0.5 * Real.sin (t * 3))
    let mix := 0.4 + 0.4 * Real.sin (t * 2)
    { state with
      material := Function.update state.material uuid
        { state.material uuid with
          opacity := clamp pulse 0.05 1
          color := Color.lerpColors (Color.ofHex orig.color) (Color.ofHex 0x66aaff)
            (clamp mix 0 1) } }

/-- A run of pulses, one per frame. -/
def pulseFrames : List ℝ → Interactions → Interactions
  | [], state => state
  | t :: rest, state => pulseFrames rest (pulseHighlight t state)

/-- The material of an orbit after the restore loop has visited it. -/
def restoredMaterial (state : Interactions) (uuid : Nat) : LineMaterial :=
  match state.orbitOriginalStyles uuid with
  | none => state.material uuid
  | some orig =>
    { state.material uuid with
      color := Color.ofHex orig.color
      opacity := orig.opacity
      transparent := orig.transparent }

/-- Two states are the same but for the material of the orbit `uuid`. -/
def Interactions.agreeOff (uuid : Nat) (state1 state2 : Interactions) : Prop :=
  state1.planetSystem = state2.planetSystem ∧
  (∀ other, other ≠ uuid → state1.material other = state2.material other) ∧
  state1.selectedPlanet = state2.selectedPlanet ∧
  state1.offset = state2.offset ∧
  state1.highlightedOrbit = state2.highlightedOrbit ∧
  state1.orbitOriginalStyles = state2.orbitOriginalStyles

/-- A scene in which the group of the Earth holds the Earth's mesh and an orbit line with
`uuid` 7, white and at opacity `0.15`, as `createPlanet` styles a guide-path. -/
def sceneWithEarthOrbit : Interactions :=
  { planetSystem := fun key =>
      if key = .earth then [{ type := "Mesh", uuid := 1 }, { type := "LineLoop", uuid := 7 }]
      else []
    material := fun _ =>
      { color := Color.ofHex 0xFFFFFF, opacity := 0.15, transparent := true,
        blending := .normal }
    selectedPlanet := none
    offset := 50
    highlightedOrbit := none
    orbitOriginalStyles := fun _ => none }

/-- What `closeInfo` writes outside the closure of `initInteractions`:
`settings.accelerationOrbit`, `controls.target`, and whether the info panel and the
follow panel are displayed. -/
structure Page where
  accelerationOrbit : ℝ
  controlsTarget : Vec3
  infoShown : Bool
  followPanelShown : Bool

/-- The body of the restore loop of `closeInfo` (interactions.js 216-225) for one orbit:
colour, opacity and the transparent flag go back to the saved style, if there is one, and
the blending is set to `NormalBlending`. -/
def resetStyle (state : Interactions) (uuid : Nat) : Interactions :=
  match state.orbitOriginalStyles uuid with
  | none => state
  | some orig =>
    { state with
      material := Function.update state.material uuid
        { color := Color.ofHex orig.color
          opacity := orig.opacity
          transparent := orig.transparent
          blending := .normal } }

/-- The restore loop of `closeInfo` (interactions.js 213-226) over a list of keys. -/
def resetOrbits (planetsObj : PlanetsObj) : List PlanetKey → Interactions → Interactions
  | [], state => state
  | key :: rest, state =>
    resetOrbits planetsObj rest
      (match findOrbitForPlanet planetsObj state key with
       | none => state
       | some uuid => resetStyle state uuid)

/-- The function `closeInfo` (interactions.js 205-228): the panels are hidden,
`settings.accelerationOrbit` is `1`, the camera target is the origin, the orbits go back
to their saved styles and `highlightedOrbit` is `null`. The variable `selectedPlanet` is
not written. -/
def closeInfo (planetsObj : PlanetsObj) (page : Page) (state : Interactions) :
    Page × Interactions :=
  ({ accelerationOrbit := 1
     controlsTarget := { x := 0, y := 0, z := 0 }
     infoShown := false
     followPanelShown := false },
   { resetOrbits planetsObj PlanetKey.all state with highlightedOrbit := none })

/-- The body for which `updateOnFrame` calls `updateFollowPanel`
(interactions.js 319-321): the selected one, if any. -/
def followed (state : Interactions) : Option PlanetKey := state.selectedPlanet

/-- The material of an orbit after the restore loop of `closeInfo` has visited it. -/
def resetMaterial (state : Interactions) (uuid : Nat) : LineMaterial :=
  match state.orbitOriginalStyles uuid with
  | none => state.material uuid
  | some orig =>
    { color := Color.ofHex orig.color
      opacity := orig.opacity
      transparent := orig.transparent
      blending := .normal }

/-- The key of `planets` under which a body that `identifyPlanet` returned is stored;
objects are told apart by name. -/
def keyOf (planetsObj : PlanetsObj) (body : Body) : Option PlanetKey :=
  PlanetKey.all.find? fun key =>
    match planetsObj.planets key with
    | some entry => entry.name == body.name
    | none => false

/-- The handler `onDocumentMouseDown` (interactions.js 261-281) for the first object the
ray meets, if any: when `identifyPlanet` returns a body, the body is selected and its
orbit highlighted. `identifyPlanet` writes `offset`. -/
def onDocumentMouseDown (planetsObj : PlanetsObj) (state : Interactions)
    (clickedObject : Option PickTarget) : Interactions :=
  match clickedObject with
  | none => state
  | some object =>
    match identifyPlanet planetsObj (some object) with
    | .planet body offset =>
      match keyOf planetsObj body with
      | some key =>
        highlightOrbitFor planetsObj { state with offset := offset, selectedPlanet := some key }
          key
      | none => state
    | _ => state

/-- The children of the group `planetSystem` of a body that `createPlanet` returns, in
the order they are added: the core mesh (planets.js 122), the ring (137) and the meshes
of the moons (188). All of them are of type `'Mesh'`; the orbit line is added to the
scene (planets.js 111), not to the group. `uuid i` is the `uuid` of child `i`. -/
def planetSystemChildren (uuid : Nat → Nat) (body : Body) : List SceneChild :=
  let meshes :=
    1 + (if body.Ring.isSome then 1 else 0) +
      (body.moons.filter fun moon => moon.mesh.isSome).length
  (List.range meshes).map fun i => { type := "Mesh", uuid := uuid i }

/-- The state of `initInteractions` (interactions.js 20-23 and 54) over the scene that
`createPlanets` has built: nothing is selected, `offset` is `50`, no style is saved, and
the material of an orbit line is as `createPlanet` makes it (planets.js 102-106: white,
opacity `0.15`, transparent, the default blending). -/
def initInteractions (planetsObj : PlanetsObj) (uuid : PlanetKey → Nat → Nat) : Interactions :=
  { planetSystem := fun key =>
      match planetsObj.planets key with
      | some body => planetSystemChildren (uuid key) body
      | none => []
    material := fun _ =>
      { color := Color.ofHex 0xFFFFFF, opacity := 0.15, transparent := true,
        blending := .normal }
    selectedPlanet := none
    offset := 50
    highlightedOrbit := none
    orbitOriginalStyles := fun _ => none }

/-- A scene in which the groups of the Earth and of Mars each hold an orbit line (`uuid`
7 and 9), white and at opacity `0.15`, as `createPlanet` styles a guide-path. -/
def sceneWithTwoOrbits : Interactions :=
  { sceneWithEarthOrbit with
    planetSystem := fun key =>
      if key = .earth then [{ type := "Mesh", uuid := 1 }, { type := "LineLoop", uuid := 7 }]
      else if key = .mars then [{ type := "Mesh", uuid := 2 }, { type := "LineLoop", uuid := 9 }]
      else [] }

/-- The function `THREE.MathUtils.randFloat(low, high)`; `r` is the value of
`Math.random()`. -/
def randFloat (low high r : ℝ) : ℝ := low + r * (high - low)

/-- One asteroid of `loadAsteroids` (planets.js 274-282): `r1`, `r2` and `r3` are the
values of `Math.random()` for the orbit radius, the angle and the rotation (the draw for
the scale, which the position does not depend on, is left out). -/
def placeAsteroid (minOrbitRadius maxOrbitRadius r1 r2 r3 : ℝ) : Asteroid :=
  let orbitRadius := randFloat minOrbitRadius maxOrbitRadius r1
  let angle := r2 * Real.pi * 2
  { position := { x := orbitRadius * Real.cos angle, y := 0, z := orbitRadius * Real.sin angle }
    rotationY := r3 * Real.pi }

/-! ## Lemmas -/

/-- A conjunction is proved left to right, the left part being at hand for the right. -/
theorem and_of_left {a b : Prop} (ha : a) (hb : a → b) : a ∧ b := ⟨ha, hb ha⟩

theorem Interactions.eq_of_fields (state1 state2 : Interactions)
    (h1 : state1.planetSystem = state2.planetSystem) (h2 : state1.material = state2.material)
    (h3 : state1.selectedPlanet = state2.selectedPlanet) (h4 : state1.offset = state2.offset)
    (h5 : state1.highlightedOrbit = state2.highlightedOrbit)
    (h6 : state1.orbitOriginalStyles = state2.orbitOriginalStyles) : state1 = state2 := by
  cases state1
  cases state2
  simp_all

theorem PlanetKey.mem_all (key : PlanetKey) : key ∈ PlanetKey.all := by
  cases key <;> simp [PlanetKey.all]

set_option maxHeartbeats 4000000 in
set_option linter.unusedVariables false in
/-- The definitions of the embedding, unfolded once. -/
theorem unfold_lemmas :
    -- orbitPoint_def
    (∀ (a b c theta : ℝ),
      orbitPoint a b c theta =
      ({ x := a * Real.cos theta - c, y := 0, z := b * Real.sin theta })) ∧
    -- ellipticalData_def
    (∀ (physical : Physical),
      ellipticalData physical =
      (let a := physical.distance
       let e := orElse physical.eccentricity 0
       let b := a * Real.sqrt (1 - e * e)
       let c := a * e
       { a := a, b := b, c := c, eccentricity := e })) ∧
    -- ellipsePoints_def
    (∀ (d : EllipticalData),
      ellipsePoints d =
      ((List.range 129).map fun (i : Nat) => orbitPoint d.a d.b d.c (((i : ℝ) / 128) * Real.pi * 2))) ∧
    -- createMoon_def
    (∀ (moonConfig : MoonConfig) (r : ℝ),
      createMoon moonConfig r =
      (let modelled : Bool :=
         match moonConfig.modelPath with
         | some p => !(p == "")
         | none => false
       { config := moonConfig
         angle := some (r * Real.pi * 2)
         mesh :=
           if modelled then none
           else some { position := some { x := moonConfig.orbitRadius, y := 0, z := 0 }, spinY := 0 } })) ∧
    -- createPlanet_def
    (∀ (name : String) (config : Config) (rnd : Nat → ℝ),
      createPlanet name config rnd =
      (let physical := config.physical
       let assets := config.assets
       let tilt := orElse physical.tilt 0
       { name := name
         planet :=
           { material := chooseMaterial name assets
             position := some { x := 0, y := 0, z := 0 }
             rotationZ := if name ≠ "Sun" then tilt * Real.pi / 180 else 0
             spinY := 0
             animationData :=
               { angle := rnd 0 * Real.pi * 2
                 ellipse := if name ≠ "Sun" then some (ellipticalData physical) else none } }
         planet3d := { position := some { x := 0, y := 0, z := 0 } }
         Atmosphere :=
           if assets.atmosphere = true then
             some { rotationZ := tilt * Real.pi / 180, spinY := 0 }
           else none
         moons :=
           match config.moons with
           | some moonConfigs => createMoons rnd 0 moonConfigs
           | none => []
         Ring :=
           match assets.rings with
           | some ringData =>
             some { innerRadius := ringData.innerRadius
                    outerRadius := ringData.outerRadius
                    rotationX := -0.5 * Real.pi
                    rotationY := -tilt * Real.pi / 180 }
           | none => none
         pointLight := decide (name = "Sun") && config.lightEnabled
         config := config })) ∧
    -- createPlanets_def
    (∀ (rnd : Nat → Nat → ℝ) (planetsConfig : ConfigTable),
      createPlanets rnd planetsConfig =
      (let celestialBodies :=
         registerAll rnd 0 planetsConfig { sun := none, byName := fun _ => none, raycastTargets := [] }
       { sun := celestialBodies.sun
         planets := fun key => celestialBodies.byName key.name
         raycastTargets := celestialBodies.raycastTargets
         asteroids := [] })) ∧
    -- rotateSun_def
    (∀ (simulatedDays : ℝ) (sun : Body),
      rotateSun simulatedDays sun =
      (let period := orElse sun.config.physical.rotationPeriod 27
       { sun with
         planet := { sun.planet with
           spinY := sun.planet.spinY + (simulatedDays / period) * 2 * Real.pi } })) ∧
    -- spinPlanet_def
    (∀ (simulatedDays : ℝ) (config : Physical) (planet : PlanetMesh),
      spinPlanet simulatedDays config planet =
      (match config.rotationPeriod with
       | some rotationPeriod =>
         if rotationPeriod ≠ 0 then
           { planet with spinY := planet.spinY + (simulatedDays / rotationPeriod) * 2 * Real.pi }
         else planet
       | none => planet)) ∧
    -- keplerPosition_def
    (∀ (animData : AnimationData),
      keplerPosition animData =
      (match animData.ellipse with
       | some d => some (orbitPoint d.a d.b d.c animData.angle)
       | none => none)) ∧
    -- spinAtmosphere_def
    (∀ (simulatedDays : ℝ) (config : Physical) (atmosphere : AtmosphereMesh),
      spinAtmosphere simulatedDays config atmosphere =
      (let atmosSpeed :=
         match config.rotationPeriod with
         | some rotationPeriod => if rotationPeriod ≠ 0 then rotationPeriod * 1.1 else 100
         | none => 100
       { atmosphere with spinY := atmosphere.spinY + (simulatedDays / atmosSpeed) * 2 * Real.pi })) ∧
    -- advanceOrbit_def
    (∀ (simulatedDays : ℝ) (config : Physical) (planetObj : Body),
      advanceOrbit simulatedDays config planetObj =
      (match config.orbitPeriod with
       | some orbitPeriod =>
         if orbitPeriod ≠ 0 ∧ orbitPeriod > 0 then
           let animData : AnimationData :=
             { planetObj.planet.animationData with
               angle := planetObj.planet.animationData.angle +
                 (simulatedDays / orbitPeriod) * 2 * Real.pi }
           { planetObj with
             planet := { planetObj.planet with animationData := animData }
             planet3d := { planetObj.planet3d with position := keplerPosition animData } }
         else planetObj
       | none => planetObj)) ∧
    -- spinBody_def
    (∀ (simulatedDays : ℝ) (config : Physical) (planetObj : Body),
      spinBody simulatedDays config planetObj =
      ({ planetObj with planet := spinPlanet simulatedDays config planetObj.planet })) ∧
    -- spinShell_def
    (∀ (simulatedDays : ℝ) (config : Physical) (planetObj : Body),
      spinShell simulatedDays config planetObj =
      ({ planetObj with
         Atmosphere := planetObj.Atmosphere.map (spinAtmosphere simulatedDays config) })) ∧
    -- animatePlanet_def
    (∀ (simulatedDays : ℝ) (planetObj : Body),
      animatePlanet simulatedDays planetObj =
      (let config := planetObj.config.physical
       spinShell simulatedDays config
         (advanceOrbit simulatedDays config (spinBody simulatedDays config planetObj)))) ∧
    -- updateMoon_def
    (∀ (simulatedDays : ℝ) (r : ℝ) (moon : Moon),
      updateMoon simulatedDays r moon =
      (match moon.mesh with
       | none => moon
       | some mesh =>
         let angle0 : ℝ :=
           match moon.angle with
           | some angle => angle
           | none => r * Real.pi * 2
         let period := orElse moon.config.orbitPeriod 27
         let angle := angle0 + (simulatedDays / period) * 2 * Real.pi
         let x := moon.config.orbitRadius * Real.cos angle
         let z := moon.config.orbitRadius * Real.sin angle
         { moon with
           angle := some angle
           mesh := some
             { position := some { x := x, y := 0, z := z }
               spinY := mesh.spinY + (simulatedDays / period) * 2 * Real.pi } })) ∧
    -- animateEntry_def
    (∀ (rnd : Nat → ℝ) (simulatedDays : ℝ) (key : PlanetKey) (planetObj : Body),
      animateEntry rnd simulatedDays key planetObj =
      (let animated := animatePlanet simulatedDays planetObj
       if moonsAnimated key = true then
         { animated with moons := updateMoons simulatedDays rnd 0 animated.moons }
       else animated)) ∧
    -- animate_def
    (∀ (rnd : PlanetKey → Nat → ℝ) (dt timeScale : ℝ) (planetsObj : PlanetsObj),
      animate rnd dt timeScale planetsObj =
      (let simulatedDays := dt * timeScale
       { sun := planetsObj.sun.map (rotateSun simulatedDays)
         planets := fun key =>
           (planetsObj.planets key).map (animateEntry (rnd key) simulatedDays key)
         raycastTargets := planetsObj.raycastTargets
         asteroids := planetsObj.asteroids.map (updateAsteroid timeScale) })) ∧
    -- pulseHighlight_def
    (∀ (t : ℝ) (state : Interactions),
      pulseHighlight t state =
      (match state.highlightedOrbit with
       | none => state
       | some uuid =>
         let orig : SavedStyle :=
           match state.orbitOriginalStyles uuid with
           | some style => style
           | none => { color := 0xffffff, opacity := 0.03, transparent := false }
         let base := orig.opacity
         let pulse := base + 0.15 * (0.5 + 0.5 * Real.sin (t * 3))
         let mix := 0.4 + 0.4 * Real.sin (t * 2)
         { state with
           material := Function.update state.material uuid
             { state.material uuid with
               opacity := clamp pulse 0.05 1
               color := Color.lerpColors (Color.ofHex orig.color) (Color.ofHex 0x66aaff)
                 (clamp mix 0 1) } })) ∧
    -- createMoons_nil
    (∀ (rnd : Nat → ℝ) (i : Nat),
      createMoons rnd i [] = []) ∧
    -- createMoons_cons
    (∀ (rnd : Nat → ℝ) (i : Nat) (m : MoonConfig) (ms : List MoonConfig),
      createMoons rnd i (m :: ms) = createMoon m (rnd (i + 1)) :: createMoons rnd (i + 1) ms) ∧
    -- registerAll_nil
    (∀ (rnd : Nat → Nat → ℝ) (i : Nat) (cb : CelestialBodies),
      registerAll rnd i [] cb = cb) ∧
    -- registerAll_cons
    (∀ (rnd : Nat → Nat → ℝ) (i : Nat) (name : String) (config : Config) (rest : ConfigTable)
        (cb : CelestialBodies),
      registerAll rnd i ((name, config) :: rest) cb =
        registerAll rnd (i + 1) rest (registerBody cb name (createPlanet name config (rnd i)))) ∧
    -- updateMoons_nil
    (∀ (simulatedDays : ℝ) (rnd : Nat → ℝ) (i : Nat),
      updateMoons simulatedDays rnd i [] = []) ∧
    -- updateMoons_cons
    (∀ (simulatedDays : ℝ) (rnd : Nat → ℝ) (i : Nat) (moon : Moon) (rest : List Moon),
      updateMoons simulatedDays rnd i (moon :: rest) =
        updateMoon simulatedDays (rnd i) moon :: updateMoons simulatedDays rnd (i + 1) rest) ∧
    -- animateFrames_nil
    (∀ (planetsObj : PlanetsObj),
      animateFrames [] planetsObj = planetsObj) ∧
    -- animateFrames_cons
    (∀ (rnd : PlanetKey → Nat → ℝ) (dt timeScale : ℝ) (rest : List ((PlanetKey → Nat → ℝ) × ℝ × ℝ))
        (planetsObj : PlanetsObj),
      animateFrames ((rnd, dt, timeScale) :: rest) planetsObj =
        animateFrames rest (animate rnd dt timeScale planetsObj)) := by
  refine and_of_left ?_ fun orbitPoint_def => ?_
  · intro a b c theta
    exact rfl
  refine and_of_left ?_ fun ellipticalData_def => ?_
  · intro physical
    exact rfl
  refine and_of_left ?_ fun ellipsePoints_def => ?_
  · intro d
    exact rfl
  refine and_of_left ?_ fun createMoon_def => ?_
  · intro moonConfig r
    exact rfl
  refine and_of_left ?_ fun createPlanet_def => ?_
  · intro name config rnd
    exact rfl
  refine and_of_left ?_ fun createPlanets_def => ?_
  · intro rnd planetsConfig
    exact rfl
  refine and_of_left ?_ fun rotateSun_def => ?_
  · intro simulatedDays sun
    exact rfl
  refine and_of_left ?_ fun spinPlanet_def => ?_
  · intro simulatedDays config planet
    exact rfl
  refine and_of_left ?_ fun keplerPosition_def => ?_
  · intro animData
    exact rfl
  refine and_of_left ?_ fun spinAtmosphere_def => ?_
  · intro simulatedDays config atmosphere
    exact rfl
  refine and_of_left ?_ fun advanceOrbit_def => ?_
  · intro simulatedDays config planetObj
    exact rfl
  refine and_of_left ?_ fun spinBody_def => ?_
  · intro simulatedDays config planetObj
    exact rfl
  refine and_of_left ?_ fun spinShell_def => ?_
  · intro simulatedDays config planetObj
    exact rfl
  refine and_of_left ?_ fun animatePlanet_def => ?_
  · intro simulatedDays planetObj
    exact rfl
  refine and_of_left ?_ fun updateMoon_def => ?_
  · intro simulatedDays r moon
    exact rfl
  refine and_of_left ?_ fun animateEntry_def => ?_
  · intro rnd simulatedDays key planetObj
    exact rfl
  refine and_of_left ?_ fun animate_def => ?_
  · intro rnd dt timeScale planetsObj
    exact rfl
  refine and_of_left ?_ fun pulseHighlight_def => ?_
  · intro t state
    exact rfl
  refine and_of_left ?_ fun createMoons_nil => ?_
  · intro rnd i
    exact rfl
  refine and_of_left ?_ fun createMoons_cons => ?_
  · intro rnd i m ms
    exact rfl
  refine and_of_left ?_ fun registerAll_nil => ?_
  · intro rnd i cb
    exact rfl
  refine and_of_left ?_ fun registerAll_cons => ?_
  · intro rnd i name config rest cb
    exact rfl
  refine and_of_left ?_ fun updateMoons_nil => ?_
  · intro simulatedDays rnd i
    exact rfl
  refine and_of_left ?_ fun updateMoons_cons => ?_
  · intro simulatedDays rnd i moon rest
    exact rfl
  refine and_of_left ?_ fun animateFrames_nil => ?_
  · intro planetsObj
    exact rfl
  intro rnd dt timeScale rest planetsObj
  exact rfl

set_option maxHeartbeats 4000000 in
set_option linter.unusedVariables false in
/-- The value of `x || 0`, and the distance of an orbit point from the origin. -/
theorem orbit_geometry :
    -- orElse_zero
    (∀ (x : Option ℝ),
      orElse x 0 = x.getD 0) ∧
    -- orElse_of_ne_zero
    (∀ (v d : ℝ) (h : v ≠ 0),
      orElse (some v) d = v) ∧
    -- orbitPoint_dist_sq
    -- The squared distance of an orbit point from the origin.
    (∀ (a e theta : ℝ) (he : e * e ≤ 1),
      (orbitPoint a (a * Real.sqrt (1 - e * e)) (a * e) theta).x ^ 2 +
        (orbitPoint a (a * Real.sqrt (1 - e * e)) (a * e) theta).z ^ 2 =
        (a * (1 - e * Real.cos theta)) ^ 2) ∧
    -- orbitPoint_dist
    (∀ (a e theta : ℝ) (ha : 0 < a) (he0 : 0 ≤ e) (he1 : e < 1),
      Real.sqrt ((orbitPoint a (a * Real.sqrt (1 - e * e)) (a * e) theta).x ^ 2 +
        (orbitPoint a (a * Real.sqrt (1 - e * e)) (a * e) theta).z ^ 2) =
        a * (1 - e * Real.cos theta)) := by
  obtain ⟨orbitPoint_def, -, -, -, -, -, -, -, -, -, -, -, -, -, -, -, -, -, -, -, -, -, -, -, -,
      -⟩ := unfold_lemmas
  refine and_of_left ?_ fun orElse_zero => ?_
  · intro x
    cases x with
    | none => rfl
    | some v =>
      by_cases h : v = 0
      · simp [orElse, h]
      · simp [orElse, h]
  refine and_of_left ?_ fun orElse_of_ne_zero => ?_
  · intro v d h
    simp [orElse, h]
  refine and_of_left ?_ fun orbitPoint_dist_sq => ?_
  · intro a e theta he
    have hs : Real.sqrt (1 - e * e) ^ 2 = 1 - e * e := Real.sq_sqrt (by linarith)
    have hsin : Real.sin theta ^ 2 = 1 - Real.cos theta ^ 2 := by
      have := Real.sin_sq_add_cos_sq theta
      linarith
    simp only [orbitPoint_def]
    have : (a * Real.sqrt (1 - e * e) * Real.sin theta) ^ 2 =
        a ^ 2 * (Real.sqrt (1 - e * e) ^ 2) * (Real.sin theta ^ 2) := by ring
    rw [this, hs, hsin]
    ring
  intro a e theta ha he0 he1
  have hee : e * e ≤ 1 := by nlinarith
  rw [orbitPoint_dist_sq a e theta hee]
  apply Real.sqrt_sq
  have hc : Real.cos theta ≤ 1 := Real.cos_le_one theta
  have : e * Real.cos theta ≤ 1 := by nlinarith
  have : 0 ≤ 1 - e * Real.cos theta := by linarith
  positivity

set_option maxHeartbeats 4000000 in
set_option linter.unusedVariables false in
/-- What one `animate` call does to an entry of `planets`: the fields each step writes, and the additivity of the steps in the simulated time. -/
theorem step_lemmas :
    -- animate_planets
    (∀ (rnd : PlanetKey → Nat → ℝ) (dt timeScale : ℝ) (planetsObj : PlanetsObj) (key : PlanetKey),
      (animate rnd dt timeScale planetsObj).planets key =
        (planetsObj.planets key).map (animateEntry (rnd key) (dt * timeScale) key)) ∧
    -- animateEntry_planet
    (∀ (rnd : Nat → ℝ) (simulatedDays : ℝ) (key : PlanetKey) (planetObj : Body),
      (animateEntry rnd simulatedDays key planetObj).planet =
        (animatePlanet simulatedDays planetObj).planet) ∧
    -- animateEntry_planet3d
    (∀ (rnd : Nat → ℝ) (simulatedDays : ℝ) (key : PlanetKey) (planetObj : Body),
      (animateEntry rnd simulatedDays key planetObj).planet3d =
        (animatePlanet simulatedDays planetObj).planet3d) ∧
    -- advanceOrbit_of_pos
    (∀ (simulatedDays : ℝ) (config : Physical) (planetObj : Body) (orbitPeriod : ℝ)
        (hperiod : config.orbitPeriod = some orbitPeriod) (hpos : 0 < orbitPeriod),
      advanceOrbit simulatedDays config planetObj =
        { planetObj with
          planet := { planetObj.planet with
            animationData := { planetObj.planet.animationData with
              angle := planetObj.planet.animationData.angle +
                (simulatedDays / orbitPeriod) * 2 * Real.pi } }
          planet3d := { position := keplerPosition { planetObj.planet.animationData with
              angle := planetObj.planet.animationData.angle +
                (simulatedDays / orbitPeriod) * 2 * Real.pi } } }) ∧
    -- advanceOrbit_of_not_pos
    (∀ (simulatedDays : ℝ) (config : Physical) (planetObj : Body)
        (h : ∀ orbitPeriod, config.orbitPeriod = some orbitPeriod → orbitPeriod ≤ 0),
      advanceOrbit simulatedDays config planetObj = planetObj) ∧
    -- spinPlanet_animationData
    (∀ (simulatedDays : ℝ) (config : Physical) (planet : PlanetMesh),
      (spinPlanet simulatedDays config planet).animationData = planet.animationData) ∧
    -- lower_names
    (toLowerCase "Mercury" = "mercury" ∧ toLowerCase "Venus" = "venus" ∧
      toLowerCase "Earth" = "earth" ∧ toLowerCase "Mars" = "mars" ∧
      toLowerCase "Jupiter" = "jupiter" ∧ toLowerCase "Saturn" = "saturn" ∧
      toLowerCase "Uranus" = "uranus" ∧ toLowerCase "Neptune" = "neptune" ∧
      toLowerCase "Pluto" = "pluto") ∧
    -- createPlanets_shipped_earth
    -- The entry `earth` of the registry built from the shipped table.
    (∀ (rnd : Nat → Nat → ℝ),
      (createPlanets rnd planetsConfig).planets .earth =
        some (createPlanet "Earth" earthConfig (rnd 3))) ∧
    -- spinPlanet_add
    (∀ (d1 d2 : ℝ) (config : Physical) (planet : PlanetMesh),
      spinPlanet d2 config (spinPlanet d1 config planet) = spinPlanet (d1 + d2) config planet) ∧
    -- spinAtmosphere_add
    (∀ (d1 d2 : ℝ) (config : Physical) (atmosphere : AtmosphereMesh),
      spinAtmosphere d2 config (spinAtmosphere d1 config atmosphere) =
        spinAtmosphere (d1 + d2) config atmosphere) ∧
    -- rotateSun_add
    (∀ (d1 d2 : ℝ) (sun : Body),
      rotateSun d2 (rotateSun d1 sun) = rotateSun (d1 + d2) sun) ∧
    -- advanceOrbit_add
    (∀ (d1 d2 : ℝ) (config : Physical) (planetObj : Body),
      advanceOrbit d2 config (advanceOrbit d1 config planetObj) =
        advanceOrbit (d1 + d2) config planetObj) ∧
    -- advanceOrbit_config
    (∀ (d : ℝ) (config : Physical) (planetObj : Body),
      (advanceOrbit d config planetObj).config = planetObj.config) ∧
    -- advanceOrbit_moons
    (∀ (d : ℝ) (config : Physical) (planetObj : Body),
      (advanceOrbit d config planetObj).moons = planetObj.moons) ∧
    -- animatePlanet_config
    (∀ (d : ℝ) (planetObj : Body),
      (animatePlanet d planetObj).config = planetObj.config) ∧
    -- animatePlanet_moons
    (∀ (d : ℝ) (planetObj : Body),
      (animatePlanet d planetObj).moons = planetObj.moons) ∧
    -- advanceOrbit_spinBody
    -- The steps of `animatePlanet` write to different fields, so they can be done in any
    -- order.
    (∀ (d d' : ℝ) (config config' : Physical) (planetObj : Body),
      advanceOrbit d config (spinBody d' config' planetObj) =
        spinBody d' config' (advanceOrbit d config planetObj)) ∧
    -- advanceOrbit_spinShell
    (∀ (d d' : ℝ) (config config' : Physical) (planetObj : Body),
      advanceOrbit d config (spinShell d' config' planetObj) =
        spinShell d' config' (advanceOrbit d config planetObj)) ∧
    -- spinBody_spinShell
    (∀ (d d' : ℝ) (config config' : Physical) (planetObj : Body),
      spinBody d config (spinShell d' config' planetObj) =
        spinShell d' config' (spinBody d config planetObj)) ∧
    -- spinBody_add
    (∀ (d1 d2 : ℝ) (config : Physical) (planetObj : Body),
      spinBody d2 config (spinBody d1 config planetObj) = spinBody (d1 + d2) config planetObj) ∧
    -- spinShell_add
    (∀ (d1 d2 : ℝ) (config : Physical) (planetObj : Body),
      spinShell d2 config (spinShell d1 config planetObj) =
        spinShell (d1 + d2) config planetObj) ∧
    -- animatePlanet_add
    (∀ (d1 d2 : ℝ) (planetObj : Body),
      animatePlanet d2 (animatePlanet d1 planetObj) = animatePlanet (d1 + d2) planetObj) ∧
    -- updateMoon_add
    (∀ (d1 d2 r1 r2 : ℝ) (moon : Moon),
      updateMoon d2 r2 (updateMoon d1 r1 moon) = updateMoon (d1 + d2) r1 moon) ∧
    -- updateMoons_add
    (∀ (d1 d2 : ℝ) (rnd1 rnd2 : Nat → ℝ) (i : Nat) (moons : List Moon),
      updateMoons d2 rnd2 i (updateMoons d1 rnd1 i moons) = updateMoons (d1 + d2) rnd1 i moons) ∧
    -- animateEntry_of_animated
    (∀ (rnd : Nat → ℝ) (d : ℝ) (key : PlanetKey) (planetObj : Body) (hk : moonsAnimated key = true)
        ,
      animateEntry rnd d key planetObj =
        { animatePlanet d planetObj with
          moons := updateMoons d rnd 0 (animatePlanet d planetObj).moons }) ∧
    -- animateEntry_of_not_animated
    (∀ (rnd : Nat → ℝ) (d : ℝ) (key : PlanetKey) (planetObj : Body)
        (hk : moonsAnimated key = false),
      animateEntry rnd d key planetObj = animatePlanet d planetObj) ∧
    -- animatePlanet_with_moons
    -- The planet step does not read the moons.
    (∀ (d : ℝ) (planetObj : Body) (moons : List Moon),
      animatePlanet d { planetObj with moons := moons } =
        { animatePlanet d planetObj with moons := moons }) ∧
    -- animateEntry_add
    (∀ (rnd1 rnd2 : Nat → ℝ) (d1 d2 : ℝ) (key : PlanetKey) (planetObj : Body),
      animateEntry rnd2 d2 key (animateEntry rnd1 d1 key planetObj) =
        animateEntry rnd1 (d1 + d2) key planetObj) := by
  obtain ⟨-, -, -, -, -, createPlanets_def, -, -, -, -, advanceOrbit_def, spinBody_def, spinShell_def,
      animatePlanet_def, -, animateEntry_def, -, -, -, -, registerAll_nil, registerAll_cons,
      updateMoons_nil, updateMoons_cons, -, -⟩ := unfold_lemmas
  refine and_of_left ?_ fun animate_planets => ?_
  · intro rnd dt timeScale planetsObj key
    rfl
  refine and_of_left ?_ fun animateEntry_planet => ?_
  · intro rnd simulatedDays key planetObj
    unfold animateEntry
    split <;> rfl
  refine and_of_left ?_ fun animateEntry_planet3d => ?_
  · intro rnd simulatedDays key planetObj
    unfold animateEntry
    split <;> rfl
  refine and_of_left ?_ fun advanceOrbit_of_pos => ?_
  · intro simulatedDays config planetObj orbitPeriod hperiod hpos
    have hne : orbitPeriod ≠ 0 := ne_of_gt hpos
    simp [advanceOrbit_def, hperiod, hne, hpos]
  refine and_of_left ?_ fun advanceOrbit_of_not_pos => ?_
  · intro simulatedDays config planetObj h
    unfold advanceOrbit
    cases hp : config.orbitPeriod with
    | none => rfl
    | some orbitPeriod =>
      have := h orbitPeriod hp
      have hn : ¬ (orbitPeriod > 0) := not_lt.2 this
      simp [hn]
  refine and_of_left ?_ fun spinPlanet_animationData => ?_
  · intro simulatedDays config planet
    unfold spinPlanet
    split
    · split <;> rfl
    · rfl
  refine and_of_left ?_ fun lower_names => ?_
  · decide
  refine and_of_left ?_ fun createPlanets_shipped_earth => ?_
  · intro rnd
    obtain ⟨h1, h2, h3, h4, h5, h6, h7, h8, h9⟩ := lower_names
    simp [createPlanets_def, planetsConfig, registerAll_nil, registerAll_cons, registerBody, PlanetKey.name,
      h1, h2, h3, h4, h5, h6, h7, h8, h9]
  refine and_of_left ?_ fun spinPlanet_add => ?_
  · intro d1 d2 config planet
    unfold spinPlanet
    cases config.rotationPeriod with
    | none => rfl
    | some R =>
      by_cases hR : R = 0
      · simp [hR]
      · simp only [ne_eq, hR, not_false_eq_true, if_true]
        congr 1
        ring
  refine and_of_left ?_ fun spinAtmosphere_add => ?_
  · intro d1 d2 config atmosphere
    unfold spinAtmosphere
    simp only
    congr 1
    ring
  refine and_of_left ?_ fun rotateSun_add => ?_
  · intro d1 d2 sun
    unfold rotateSun
    simp only
    congr 2
    ring
  refine and_of_left ?_ fun advanceOrbit_add => ?_
  · intro d1 d2 config planetObj
    cases hp : config.orbitPeriod with
    | none => simp [advanceOrbit_def, hp]
    | some P =>
      by_cases hpos : 0 < P
      · rw [advanceOrbit_of_pos d1 config planetObj P hp hpos,
          advanceOrbit_of_pos d2 config _ P hp hpos,
          advanceOrbit_of_pos (d1 + d2) config planetObj P hp hpos]
        have hang : planetObj.planet.animationData.angle + d1 / P * 2 * Real.pi +
            d2 / P * 2 * Real.pi =
            planetObj.planet.animationData.angle + (d1 + d2) / P * 2 * Real.pi := by ring
        simp only [hang]
      · have hle : ∀ Q, config.orbitPeriod = some Q → Q ≤ 0 := by
          intro Q hQ
          rw [hp] at hQ
          cases hQ
          exact not_lt.1 hpos
        simp only [advanceOrbit_of_not_pos _ config _ hle]
  refine and_of_left ?_ fun advanceOrbit_config => ?_
  · intro d config planetObj
    unfold advanceOrbit
    split
    · split <;> rfl
    · rfl
  refine and_of_left ?_ fun advanceOrbit_moons => ?_
  · intro d config planetObj
    unfold advanceOrbit
    split
    · split <;> rfl
    · rfl
  refine and_of_left ?_ fun animatePlanet_config => ?_
  · intro d planetObj
    simp only [animatePlanet_def, spinShell_def, spinBody_def, advanceOrbit_config]
  refine and_of_left ?_ fun animatePlanet_moons => ?_
  · intro d planetObj
    simp only [animatePlanet_def, spinShell_def, spinBody_def, advanceOrbit_moons]
  refine and_of_left ?_ fun advanceOrbit_spinBody => ?_
  · intro d d' config config' planetObj
    unfold advanceOrbit
    cases config.orbitPeriod with
    | none => rfl
    | some P =>
      by_cases hP : P ≠ 0 ∧ P > 0
      · simp only [hP, and_self, if_true, ne_eq, not_false_eq_true, gt_iff_lt]
        unfold spinBody spinPlanet
        cases config'.rotationPeriod with
        | none => rfl
        | some R =>
          by_cases hR : R = 0
          · simp [hR]
          · simp [hR]
      · simp only [hP, if_false]
  refine and_of_left ?_ fun advanceOrbit_spinShell => ?_
  · intro d d' config config' planetObj
    unfold advanceOrbit
    cases config.orbitPeriod with
    | none => rfl
    | some P =>
      by_cases hP : P ≠ 0 ∧ P > 0
      · simp only [hP, and_self, if_true, ne_eq, not_false_eq_true, gt_iff_lt]
        rfl
      · simp only [hP, if_false]
  refine and_of_left ?_ fun spinBody_spinShell => ?_
  · intro d d' config config' planetObj
    exact rfl
  refine and_of_left ?_ fun spinBody_add => ?_
  · intro d1 d2 config planetObj
    simp only [spinBody_def, spinPlanet_add]
  refine and_of_left ?_ fun spinShell_add => ?_
  · intro d1 d2 config planetObj
    unfold spinShell
    cases planetObj.Atmosphere with
    | none => rfl
    | some a => simp [spinAtmosphere_add]
  refine and_of_left ?_ fun animatePlanet_add => ?_
  · intro d1 d2 planetObj
    have hc := animatePlanet_config d1 planetObj
    unfold animatePlanet at hc ⊢
    simp only [hc]
    rw [spinBody_spinShell, advanceOrbit_spinShell, spinShell_add, ← advanceOrbit_spinBody,
      spinBody_add, advanceOrbit_add]
  refine and_of_left ?_ fun updateMoon_add => ?_
  · intro d1 d2 r1 r2 moon
    unfold updateMoon
    cases hm : moon.mesh with
    | none => simp [hm]
    | some mesh =>
      simp only
      have h1 : ∀ a0 k : ℝ, a0 + d1 / k * 2 * Real.pi + d2 / k * 2 * Real.pi =
          a0 + (d1 + d2) / k * 2 * Real.pi := by
        intro a0 k
        ring
      simp only [h1]
  refine and_of_left ?_ fun updateMoons_add => ?_
  · intro d1 d2 rnd1 rnd2 i moons
    induction moons generalizing i with
    | nil => rfl
    | cons moon rest ih =>
      simp only [updateMoons_nil, updateMoons_cons, updateMoon_add, ih]
  refine and_of_left ?_ fun animateEntry_of_animated => ?_
  · intro rnd d key planetObj hk
    simp only [animateEntry_def, hk, if_true]
  refine and_of_left ?_ fun animateEntry_of_not_animated => ?_
  · intro rnd d key planetObj hk
    simp [animateEntry_def, hk]
  refine and_of_left ?_ fun animatePlanet_with_moons => ?_
  · intro d planetObj moons
    simp only [animatePlanet_def, spinShell_def, spinBody_def]
    unfold advanceOrbit
    simp only
    split
    · split <;> rfl
    · rfl
  intro rnd1 rnd2 d1 d2 key planetObj
  cases hk : moonsAnimated key with
  | true =>
    rw [animateEntry_of_animated _ _ _ _ hk, animateEntry_of_animated _ _ _ _ hk,
      animateEntry_of_animated _ _ _ _ hk, animatePlanet_with_moons, animatePlanet_add]
    simp only [animatePlanet_moons, updateMoons_add]
  | false =>
    simp only [animateEntry_of_not_animated _ _ _ _ hk, animatePlanet_add]

set_option maxHeartbeats 4000000 in
set_option linter.unusedVariables false in
/-- A step with no simulated time, and the objects that sit on their orbits. -/
theorem zero_step_lemmas :
    -- rotateSun_zero
    (∀ (sun : Body),
      rotateSun 0 sun = sun) ∧
    -- spinPlanet_zero
    (∀ (config : Physical) (planet : PlanetMesh),
      spinPlanet 0 config planet = planet) ∧
    -- spinBody_zero
    (∀ (config : Physical) (planetObj : Body),
      spinBody 0 config planetObj = planetObj) ∧
    -- spinShell_zero
    (∀ (config : Physical) (planetObj : Body),
      spinShell 0 config planetObj = planetObj) ∧
    -- advanceOrbit_planet_zero
    (∀ (config : Physical) (planetObj : Body),
      (advanceOrbit 0 config planetObj).planet = planetObj.planet) ∧
    -- advanceOrbit_Atmosphere
    (∀ (d : ℝ) (config : Physical) (planetObj : Body),
      (advanceOrbit d config planetObj).Atmosphere = planetObj.Atmosphere) ∧
    -- animatePlanet_zero_planet
    (∀ (planetObj : Body),
      (animatePlanet 0 planetObj).planet = planetObj.planet) ∧
    -- animatePlanet_zero_Atmosphere
    (∀ (planetObj : Body),
      (animatePlanet 0 planetObj).Atmosphere = planetObj.Atmosphere) ∧
    -- animatePlanet_zero_of_onOrbit
    (∀ (planetObj : Body) (h : planetObj.onOrbit),
      animatePlanet 0 planetObj = planetObj) ∧
    -- updateMoons_getElem?
    (∀ (d : ℝ) (rnd : Nat → ℝ) (k : Nat) (moons : List Moon) (i : Nat),
      (updateMoons d rnd k moons)[i]? = (moons[i]?).map (updateMoon d (rnd (k + i)))) ∧
    -- updateMoons_length
    (∀ (d : ℝ) (rnd : Nat → ℝ) (k : Nat) (moons : List Moon),
      (updateMoons d rnd k moons).length = moons.length) ∧
    -- updateMoon_config
    (∀ (d r : ℝ) (moon : Moon),
      (updateMoon d r moon).config = moon.config) ∧
    -- updateMoon_onOrbit
    (∀ (d r : ℝ) (moon : Moon),
      (updateMoon d r moon).onOrbit) ∧
    -- updateMoons_onOrbit
    (∀ (d : ℝ) (rnd : Nat → ℝ) (k : Nat) (moons : List Moon),
      ∀ moon ∈ updateMoons d rnd k moons, moon.onOrbit) ∧
    -- updateMoon_zero_angle
    (∀ (r : ℝ) (moon : Moon) (angle : ℝ) (h : moon.angle = some angle),
      (updateMoon 0 r moon).angle = some angle) ∧
    -- updateMoon_zero_spin
    (∀ (r : ℝ) (moon : Moon),
      (updateMoon 0 r moon).mesh.map (fun mesh => mesh.spinY) =
        moon.mesh.map (fun mesh => mesh.spinY)) ∧
    -- updateMoon_zero_of_onOrbit
    (∀ (r : ℝ) (moon : Moon) (h : moon.onOrbit),
      updateMoon 0 r moon = moon) ∧
    -- updateMoons_zero_of_onOrbit
    (∀ (rnd : Nat → ℝ) (k : Nat) (moons : List Moon) (h : ∀ moon ∈ moons, moon.onOrbit),
      updateMoons 0 rnd k moons = moons) ∧
    -- animatePlanet_onOrbit
    (∀ (d : ℝ) (planetObj : Body),
      (animatePlanet d planetObj).onOrbit) ∧
    -- animateEntry_onOrbit
    (∀ (rnd : Nat → ℝ) (d : ℝ) (key : PlanetKey) (planetObj : Body),
      (animateEntry rnd d key planetObj).onOrbit ∧
        (moonsAnimated key = true → ∀ moon ∈ (animateEntry rnd d key planetObj).moons, moon.onOrbit)) ∧
    -- animate_onOrbit
    -- After any `animate` call every entry of `planets` and every moon that `animate`
    -- walks sits on its orbit.
    (∀ (rnd : PlanetKey → Nat → ℝ) (dt timeScale : ℝ) (planetsObj : PlanetsObj),
      (animate rnd dt timeScale planetsObj).onOrbit) ∧
    -- animateEntry_position_of_pos
    -- What `animatePlanet` leaves in `planet3d` of a body with a positive `orbitPeriod`.
    (∀ (rnd : Nat → ℝ) (d : ℝ) (key : PlanetKey) (planetObj : Body) (orbitPeriod : ℝ)
        (hperiod : planetObj.config.physical.orbitPeriod = some orbitPeriod)
        (hpos : 0 < orbitPeriod),
      (animateEntry rnd d key planetObj).planet3d.position =
        keplerPosition { planetObj.planet.animationData with
          angle := planetObj.planet.animationData.angle + (d / orbitPeriod) * 2 * Real.pi } ∧
      (animateEntry rnd d key planetObj).planet.animationData =
        { planetObj.planet.animationData with
          angle := planetObj.planet.animationData.angle + (d / orbitPeriod) * 2 * Real.pi }) := by
  obtain ⟨-, -, -, -, -, -, rotateSun_def, -, -, spinAtmosphere_def, advanceOrbit_def, spinBody_def,
      spinShell_def, animatePlanet_def, -, -, -, -, -, -, -, -, updateMoons_nil, updateMoons_cons, -,
      -⟩ := unfold_lemmas
  obtain ⟨animate_planets, animateEntry_planet, animateEntry_planet3d, advanceOrbit_of_pos,
      advanceOrbit_of_not_pos, spinPlanet_animationData, -, -, -, -, -, -, -, -, animatePlanet_config,
      -, -, -, -, -, -, -, -, -, animateEntry_of_animated, animateEntry_of_not_animated, -,
      -⟩ := step_lemmas
  refine and_of_left ?_ fun rotateSun_zero => ?_
  · intro sun
    simp [rotateSun_def]
  refine and_of_left ?_ fun spinPlanet_zero => ?_
  · intro config planet
    unfold spinPlanet
    split
    · split
      · simp
      · rfl
    · rfl
  refine and_of_left ?_ fun spinBody_zero => ?_
  · intro config planetObj
    simp [spinBody_def, spinPlanet_zero]
  refine and_of_left ?_ fun spinShell_zero => ?_
  · intro config planetObj
    unfold spinShell
    cases h : planetObj.Atmosphere with
    | none =>
      cases planetObj
      simp_all
    | some a =>
      cases planetObj
      simp_all [spinAtmosphere_def]
  refine and_of_left ?_ fun advanceOrbit_planet_zero => ?_
  · intro config planetObj
    unfold advanceOrbit
    split
    · split
      · simp
      · rfl
    · rfl
  refine and_of_left ?_ fun advanceOrbit_Atmosphere => ?_
  · intro d config planetObj
    unfold advanceOrbit
    split
    · split <;> rfl
    · rfl
  refine and_of_left ?_ fun animatePlanet_zero_planet => ?_
  · intro planetObj
    simp [animatePlanet_def, spinShell_zero, spinBody_zero, advanceOrbit_planet_zero]
  refine and_of_left ?_ fun animatePlanet_zero_Atmosphere => ?_
  · intro planetObj
    simp [animatePlanet_def, spinShell_zero, spinBody_zero, advanceOrbit_Atmosphere]
  refine and_of_left ?_ fun animatePlanet_zero_of_onOrbit => ?_
  · intro planetObj h
    simp only [animatePlanet_def, spinShell_zero, spinBody_zero]
    cases hp : planetObj.config.physical.orbitPeriod with
    | none => simp [advanceOrbit_def, hp]
    | some P =>
      by_cases hpos : 0 < P
      · rw [advanceOrbit_of_pos 0 _ planetObj P hp hpos]
        have := h P hp hpos
        cases planetObj with
        | mk name planet planet3d atm moons ring pl config =>
          cases planet3d
          simp_all
      · apply advanceOrbit_of_not_pos
        intro Q hQ
        rw [hp] at hQ
        cases hQ
        exact not_lt.1 hpos
  refine and_of_left ?_ fun updateMoons_getElem? => ?_
  · intro d rnd k moons i
    induction moons generalizing k i with
    | nil => simp [updateMoons_nil, updateMoons_cons]
    | cons moon rest ih =>
      cases i with
      | zero => simp [updateMoons_nil, updateMoons_cons]
      | succ j =>
        simp only [updateMoons_nil, updateMoons_cons, List.getElem?_cons_succ, ih]
        have hk : k + 1 + j = k + (j + 1) := by omega
        rw [hk]
  refine and_of_left ?_ fun updateMoons_length => ?_
  · intro d rnd k moons
    induction moons generalizing k with
    | nil => rfl
    | cons moon rest ih => simp [updateMoons_nil, updateMoons_cons, ih]
  refine and_of_left ?_ fun updateMoon_config => ?_
  · intro d r moon
    unfold updateMoon
    split <;> rfl
  refine and_of_left ?_ fun updateMoon_onOrbit => ?_
  · intro d r moon
    unfold updateMoon
    cases hm : moon.mesh with
    | none =>
      intro mesh hmesh
      simp [hm] at hmesh
    | some mesh0 =>
      intro mesh hmesh
      simp only [Option.some.injEq] at hmesh
      subst hmesh
      exact ⟨_, rfl, rfl⟩
  refine and_of_left ?_ fun updateMoons_onOrbit => ?_
  · intro d rnd k moons
    induction moons generalizing k with
    | nil => simp [updateMoons_nil, updateMoons_cons]
    | cons moon rest ih =>
      intro m hm
      simp only [updateMoons_nil, updateMoons_cons, List.mem_cons] at hm
      rcases hm with rfl | hm
      · exact updateMoon_onOrbit d _ moon
      · exact ih (k + 1) m hm
  refine and_of_left ?_ fun updateMoon_zero_angle => ?_
  · intro r moon angle h
    unfold updateMoon
    cases hm : moon.mesh with
    | none => simpa using h
    | some mesh => simp [h]
  refine and_of_left ?_ fun updateMoon_zero_spin => ?_
  · intro r moon
    unfold updateMoon
    cases hm : moon.mesh with
    | none => simp [hm]
    | some mesh => simp
  refine and_of_left ?_ fun updateMoon_zero_of_onOrbit => ?_
  · intro r moon h
    unfold updateMoon
    cases hm : moon.mesh with
    | none => rfl
    | some mesh =>
      obtain ⟨angle, hangle, hpos⟩ := h mesh hm
      cases moon with
      | mk config a m =>
        cases mesh with
        | mk position spinY =>
          simp only at hm hangle hpos
          subst hm hangle hpos
          simp
  refine and_of_left ?_ fun updateMoons_zero_of_onOrbit => ?_
  · intro rnd k moons h
    induction moons generalizing k with
    | nil => rfl
    | cons moon rest ih =>
      simp only [updateMoons_nil, updateMoons_cons]
      rw [updateMoon_zero_of_onOrbit _ moon (h moon (List.mem_cons_self _ _)),
        ih (k + 1) (fun m hm => h m (List.mem_cons_of_mem _ hm))]
  refine and_of_left ?_ fun animatePlanet_onOrbit => ?_
  · intro d planetObj
    intro P hP hpos
    rw [animatePlanet_config] at hP
    simp only [animatePlanet_def, spinShell_def]
    rw [advanceOrbit_of_pos _ _ _ P hP hpos]
  refine and_of_left ?_ fun animateEntry_onOrbit => ?_
  · intro rnd d key planetObj
    cases hk : moonsAnimated key with
    | true =>
      rw [animateEntry_of_animated _ _ _ _ hk]
      refine ⟨?_, fun _ => updateMoons_onOrbit _ _ _ _⟩
      exact animatePlanet_onOrbit d planetObj
    | false =>
      rw [animateEntry_of_not_animated _ _ _ _ hk]
      exact ⟨animatePlanet_onOrbit d planetObj, fun h => by cases h⟩
  refine and_of_left ?_ fun animate_onOrbit => ?_
  · intro rnd dt timeScale planetsObj
    intro key after hafter
    rw [animate_planets] at hafter
    cases hb : planetsObj.planets key with
    | none => simp [hb] at hafter
    | some planetObj =>
      simp only [hb, Option.map_some', Option.some.injEq] at hafter
      subst hafter
      exact animateEntry_onOrbit _ _ _ _
  intro rnd d key planetObj orbitPeriod hperiod hpos
  rw [animateEntry_planet3d, animateEntry_planet]
  simp only [animatePlanet_def, spinShell_def, spinBody_def]
  rw [advanceOrbit_of_pos _ _ _ orbitPeriod hperiod hpos]
  simp only [spinPlanet_animationData, and_self]

set_option maxHeartbeats 4000000 in
set_option linter.unusedVariables false in
/-- Runs of frames, the Sun, and the entries of the registry the statements are tried on. -/
theorem frames_lemmas :
    -- advanceOrbit_spinY
    (∀ (d : ℝ) (config : Physical) (planetObj : Body),
      (advanceOrbit d config planetObj).planet.spinY = planetObj.planet.spinY) ∧
    -- animateEntry_config
    (∀ (rnd : Nat → ℝ) (d : ℝ) (key : PlanetKey) (planetObj : Body),
      (animateEntry rnd d key planetObj).config = planetObj.config) ∧
    -- animateEntry_spinY_of_ne
    (∀ (rnd : Nat → ℝ) (d : ℝ) (key : PlanetKey) (planetObj : Body) (R : ℝ)
        (hR : planetObj.config.physical.rotationPeriod = some R) (hne : R ≠ 0),
      (animateEntry rnd d key planetObj).planet.spinY =
        planetObj.planet.spinY + (d / R) * 2 * Real.pi) ∧
    -- animateEntry_spinY_of_zero
    (∀ (rnd : Nat → ℝ) (d : ℝ) (key : PlanetKey) (planetObj : Body)
        (h : ∀ R, planetObj.config.physical.rotationPeriod = some R → R = 0),
      (animateEntry rnd d key planetObj).planet.spinY = planetObj.planet.spinY) ∧
    -- animateFrames_entry
    -- The entry `key` after a run of frames, for a body with a positive `orbitPeriod`.
    (∀ (key : PlanetKey) (orbitPeriod : ℝ) (hpos : 0 < orbitPeriod)
        (frames : List ((PlanetKey → Nat → ℝ) × ℝ × ℝ)),
      ∀ (planetsObj : PlanetsObj) (planetObj : Body),
        planetsObj.planets key = some planetObj →
        planetObj.config.physical.orbitPeriod = some orbitPeriod →
        ∃ after : Body,
          (animateFrames frames planetsObj).planets key = some after ∧
          after.config = planetObj.config ∧
          after.planet.animationData.ellipse = planetObj.planet.animationData.ellipse ∧
          after.planet.animationData.angle =
            planetObj.planet.animationData.angle +
              (simulatedDaysOf frames / orbitPeriod) * (2 * Real.pi) ∧
          (∀ R, planetObj.config.physical.rotationPeriod = some R → R ≠ 0 →
            after.planet.spinY =
              planetObj.planet.spinY + (simulatedDaysOf frames / R) * (2 * Real.pi)) ∧
          (frames ≠ [] →
            after.planet3d.position = keplerPosition after.planet.animationData)) ∧
    -- createPlanet_at_origin
    (∀ (name : String) (config : Config) (rnd : Nat → ℝ),
      (createPlanet name config rnd).planet3d.position = some { x := 0, y := 0, z := 0 } ∧
      (createPlanet name config rnd).planet.position = some { x := 0, y := 0, z := 0 }) ∧
    -- registerAll_sun
    -- The Sun of `celestialBodies` is at the origin, and there is one when the table has an
    -- entry `'Sun'`.
    (∀ (rnd : Nat → Nat → ℝ) (table : ConfigTable),
      ∀ (i : Nat) (cb : CelestialBodies),
        (∀ sun, cb.sun = some sun →
          sun.planet3d.position = some { x := 0, y := 0, z := 0 } ∧
          sun.planet.position = some { x := 0, y := 0, z := 0 }) →
        (∀ sun, (registerAll rnd i table cb).sun = some sun →
          sun.planet3d.position = some { x := 0, y := 0, z := 0 } ∧
          sun.planet.position = some { x := 0, y := 0, z := 0 }) ∧
        ((cb.sun.isSome = true ∨ ∃ config, ("Sun", config) ∈ table) →
          (registerAll rnd i table cb).sun.isSome = true)) ∧
    -- animateFrames_sun
    -- A run of frames leaves the Sun's containers and its phase angle as they are.
    (∀ (frames : List ((PlanetKey → Nat → ℝ) × ℝ × ℝ)),
      ∀ (planetsObj : PlanetsObj),
        (animateFrames frames planetsObj).sun.isSome = planetsObj.sun.isSome ∧
        ∀ sun, (animateFrames frames planetsObj).sun = some sun →
          ∃ sun0, planetsObj.sun = some sun0 ∧ sun.planet3d = sun0.planet3d ∧
            sun.planet.position = sun0.planet.position ∧
            sun.planet.animationData = sun0.planet.animationData) ∧
    -- createPlanets_stillTable_pluto
    -- The entry `pluto` of the registry built from `stillTable`.
    (∀ (rnd : Nat → Nat → ℝ),
      (createPlanets rnd stillTable).planets .pluto =
        some (createPlanet "Pluto" sunConfig (rnd 1))) ∧
    -- createPlanets_shipped_venus
    (∀ (rnd : Nat → Nat → ℝ),
      (createPlanets rnd planetsConfig).planets .venus =
        some (createPlanet "Venus" venusConfig (rnd 2))) ∧
    -- spin_increment_neg_iff
    -- The sign of a spin increment for a positive number of simulated days.
    (∀ (days R : ℝ) (hdays : 0 < days) (hR : R ≠ 0),
      (days / R) * (2 * Real.pi) < 0 ↔ R < 0) ∧
    -- updateMoon_of_mesh
    -- What `updateMoon` does to a moon with a mesh, an angle and a nonzero `orbitPeriod`.
    (∀ (d r : ℝ) (moon : Moon) (mesh : MoonMesh) (angle P : ℝ) (hmesh : moon.mesh = some mesh)
        (hangle : moon.angle = some angle) (hP : moon.config.orbitPeriod = some P)
        (hne : P ≠ 0),
      updateMoon d r moon =
        { moon with
          angle := some (angle + (d / P) * 2 * Real.pi)
          mesh := some
            { position := some
                { x := moon.config.orbitRadius * Real.cos (angle + (d / P) * 2 * Real.pi)
                  y := 0
                  z := moon.config.orbitRadius * Real.sin (angle + (d / P) * 2 * Real.pi) }
              spinY := mesh.spinY + (d / P) * 2 * Real.pi } }) ∧
    -- createPlanet_earth_moons
    (∀ (rnd : Nat → ℝ),
      (createPlanet "Earth" earthConfig rnd).moons =
        [createMoon (sphereMoon 1.6 10 27.3 true) (rnd 1)]) ∧
    -- createPlanets_saturn_only
    (∀ (rnd : Nat → Nat → ℝ) (config : Config),
      (createPlanets rnd [("Saturn", config)]).planets .saturn =
        some (createPlanet "Saturn" config (rnd 0))) ∧
    -- updateMoon_of_no_mesh
    (∀ (d r : ℝ) (moon : Moon) (hmesh : moon.mesh = none),
      updateMoon d r moon = moon) ∧
    -- createMoon_modelled
    (∀ (moonConfig : MoonConfig) (r : ℝ) (path : String) (hpath : moonConfig.modelPath = some path)
        (hne : path ≠ ""),
      (createMoon moonConfig r).mesh = none) ∧
    -- createPlanets_shipped_mars
    (∀ (rnd : Nat → Nat → ℝ),
      (createPlanets rnd planetsConfig).planets .mars =
        some (createPlanet "Mars" marsConfig (rnd 4))) ∧
    -- createPlanet_mars_moons
    (∀ (rnd : Nat → ℝ),
      (createPlanet "Mars" marsConfig rnd).moons =
        [createMoon (modelMoon "/images/mars/phobos.glb" 0.1 5 0.32 100) (rnd 1),
         createMoon (modelMoon "/images/mars/deimos.glb" 0.1 9 1.26 120) (rnd 2)]) ∧
    -- animateEntry_angle_mono
    (∀ (rnd : Nat → ℝ) (d : ℝ) (key : PlanetKey) (planetObj : Body) (hd : 0 ≤ d),
      planetObj.planet.animationData.angle ≤
        (animateEntry rnd d key planetObj).planet.animationData.angle) ∧
    -- animateFrames_angle_mono
    -- The phase angle of an entry never decreases over a run of frames with `dt ≥ 0` and
    -- `timeScale ≥ 0`.
    (∀ (key : PlanetKey) (frames : List ((PlanetKey → Nat → ℝ) × ℝ × ℝ)),
      (∀ frame ∈ frames, 0 ≤ frame.2.1 ∧ 0 ≤ frame.2.2) →
      ∀ (planetsObj : PlanetsObj) (planetObj : Body),
        planetsObj.planets key = some planetObj →
        ∃ after : Body,
          (animateFrames frames planetsObj).planets key = some after ∧
          planetObj.planet.animationData.angle ≤ after.planet.animationData.angle) ∧
    -- ellipticalData_focal
    -- The focal distance is the square root of `a² - b²`.
    (∀ (physical : Physical) (ha : 0 < physical.distance) (he0 : 0 ≤ physical.eccentricity.getD 0)
        (he1 : physical.eccentricity.getD 0 < 1),
      Real.sqrt ((ellipticalData physical).a ^ 2 - (ellipticalData physical).b ^ 2) =
        (ellipticalData physical).c) := by
  obtain ⟨-, ellipticalData_def, -, createMoon_def, createPlanet_def, createPlanets_def, -,
      spinPlanet_def, -, -, -, spinBody_def, spinShell_def, animatePlanet_def, updateMoon_def, -,
      animate_def, -, createMoons_nil, createMoons_cons, registerAll_nil, registerAll_cons, -, -,
      animateFrames_nil, animateFrames_cons⟩ := unfold_lemmas
  obtain ⟨orElse_zero, orElse_of_ne_zero, -, -⟩ := orbit_geometry
  obtain ⟨animate_planets, animateEntry_planet, -, -, advanceOrbit_of_not_pos,
      spinPlanet_animationData, lower_names, -, -, -, -, -, -, -, animatePlanet_config, -, -, -, -, -,
      -, -, -, -, -, -, -, -⟩ := step_lemmas
  obtain ⟨-, -, -, -, -, -, -, -, -, -, -, -, -, -, -, -, -, -, -, -, -,
      animateEntry_position_of_pos⟩ := zero_step_lemmas
  refine and_of_left ?_ fun advanceOrbit_spinY => ?_
  · intro d config planetObj
    unfold advanceOrbit
    split
    · split <;> rfl
    · rfl
  refine and_of_left ?_ fun animateEntry_config => ?_
  · intro rnd d key planetObj
    unfold animateEntry
    split
    · exact animatePlanet_config d planetObj
    · exact animatePlanet_config d planetObj
  refine and_of_left ?_ fun animateEntry_spinY_of_ne => ?_
  · intro rnd d key planetObj R hR hne
    rw [animateEntry_planet]
    simp only [animatePlanet_def, spinShell_def, advanceOrbit_spinY, spinBody_def, spinPlanet_def, hR, ne_eq, hne,
      not_false_eq_true, if_true]
  refine and_of_left ?_ fun animateEntry_spinY_of_zero => ?_
  · intro rnd d key planetObj h
    rw [animateEntry_planet]
    simp only [animatePlanet_def, spinShell_def, advanceOrbit_spinY, spinBody_def, spinPlanet_def]
    cases hR : planetObj.config.physical.rotationPeriod with
    | none => rfl
    | some R => simp [h R hR]
  refine and_of_left ?_ fun animateFrames_entry => ?_
  · intro key orbitPeriod hpos frames
    induction frames with
    | nil =>
      intro planetsObj planetObj hkey _
      refine ⟨planetObj, hkey, rfl, rfl, ?_, ?_, fun h => absurd rfl h⟩
      · simp [simulatedDaysOf]
      · intro R _ _
        simp [simulatedDaysOf]
    | cons frame rest ih =>
      intro planetsObj planetObj hkey hperiod
      obtain ⟨rnd, dt, timeScale⟩ := frame
      have hstep : (animate rnd dt timeScale planetsObj).planets key =
          some (animateEntry (rnd key) (dt * timeScale) key planetObj) := by
        rw [animate_planets, hkey]
        rfl
      have hcfg := animateEntry_config (rnd key) (dt * timeScale) key planetObj
      obtain ⟨hposn, hdata⟩ :=
        animateEntry_position_of_pos (rnd key) (dt * timeScale) key planetObj orbitPeriod hperiod hpos
      obtain ⟨after, hafter, hc, he, ha, hs, hp⟩ :=
        ih (animate rnd dt timeScale planetsObj) _ hstep (by rw [hcfg]; exact hperiod)
      refine ⟨after, hafter, hc.trans hcfg, ?_, ?_, ?_, ?_⟩
      · rw [he, hdata]
      · rw [ha, hdata]
        simp only [simulatedDaysOf, List.map_cons, List.sum_cons]
        ring
      · intro R hR hne
        rw [hs R (by rw [hcfg]; exact hR) hne,
          animateEntry_spinY_of_ne _ _ _ _ R hR hne]
        simp only [simulatedDaysOf, List.map_cons, List.sum_cons]
        ring
      · intro _
        cases rest with
        | nil =>
          simp only [animateFrames_nil, animateFrames_cons] at hafter
          rw [hstep] at hafter
          cases hafter
          rw [hposn, hdata]
        | cons f fs => exact hp (List.cons_ne_nil f fs)
  refine and_of_left ?_ fun createPlanet_at_origin => ?_
  · intro name config rnd
    exact
      ⟨rfl, rfl⟩
  refine and_of_left ?_ fun registerAll_sun => ?_
  · intro rnd table
    induction table with
    | nil =>
      intro i cb h
      refine ⟨h, ?_⟩
      intro hs
      rcases hs with hs | ⟨config, hc⟩
      · exact hs
      · cases hc
    | cons entry rest ih =>
      intro i cb h
      obtain ⟨name, config⟩ := entry
      simp only [registerAll_nil, registerAll_cons]
      have hinv : ∀ sun, (registerBody cb name (createPlanet name config (rnd i))).sun = some sun →
          sun.planet3d.position = some { x := 0, y := 0, z := 0 } ∧
          sun.planet.position = some { x := 0, y := 0, z := 0 } := by
        intro sun hsun
        unfold registerBody at hsun
        by_cases hn : name = "Sun"
        · simp only [hn, if_true, Option.some.injEq] at hsun
          rw [← hsun]
          exact createPlanet_at_origin _ _ _
        · simp only [hn, if_false] at hsun
          exact h sun hsun
      obtain ⟨h1, h2⟩ := ih (i + 1) _ hinv
      refine ⟨h1, ?_⟩
      intro hs
      apply h2
      unfold registerBody
      by_cases hn : name = "Sun"
      · left
        simp [hn]
      · simp only [hn, if_false]
        rcases hs with hs | ⟨c, hc⟩
        · exact Or.inl hs
        · right
          simp only [List.mem_cons, Prod.mk.injEq] at hc
          rcases hc with ⟨hname, _⟩ | hc
          · exact absurd hname.symm hn
          · exact ⟨c, hc⟩
  refine and_of_left ?_ fun animateFrames_sun => ?_
  · intro frames
    induction frames with
    | nil =>
      intro planetsObj
      exact ⟨rfl, fun sun hsun => ⟨sun, hsun, rfl, rfl, rfl⟩⟩
    | cons frame rest ih =>
      intro planetsObj
      obtain ⟨rnd, dt, timeScale⟩ := frame
      simp only [animateFrames_nil, animateFrames_cons]
      obtain ⟨h1, h2⟩ := ih (animate rnd dt timeScale planetsObj)
      constructor
      · rw [h1]
        simp [animate_def]
      · intro sun hsun
        obtain ⟨sun1, hsun1, ha, hb, hc⟩ := h2 sun hsun
        simp only [animate_def] at hsun1
        cases hs : planetsObj.sun with
        | none => simp [hs] at hsun1
        | some sun0 =>
          simp only [hs, Option.map_some', Option.some.injEq] at hsun1
          subst hsun1
          exact ⟨sun0, rfl, ha, hb, hc⟩
  refine and_of_left ?_ fun createPlanets_stillTable_pluto => ?_
  · intro rnd
    obtain ⟨h1, h2, h3, h4, h5, h6, h7, h8, h9⟩ := lower_names
    simp [createPlanets_def, stillTable, registerAll_nil, registerAll_cons, registerBody, PlanetKey.name, h9]
  refine and_of_left ?_ fun createPlanets_shipped_venus => ?_
  · intro rnd
    obtain ⟨h1, h2, h3, h4, h5, h6, h7, h8, h9⟩ := lower_names
    simp [createPlanets_def, planetsConfig, registerAll_nil, registerAll_cons, registerBody, PlanetKey.name,
      h1, h2, h3, h4, h5, h6, h7, h8, h9]
  refine and_of_left ?_ fun spin_increment_neg_iff => ?_
  · intro days R hdays hR
    have hpi : 0 < 2 * Real.pi := by positivity
    constructor
    · intro h
      by_contra hneg
      have hRpos : 0 < R := lt_of_le_of_ne (not_lt.1 hneg) (Ne.symm hR)
      have : 0 < (days / R) * (2 * Real.pi) := mul_pos (div_pos hdays hRpos) hpi
      linarith
    · intro h
      exact mul_neg_of_neg_of_pos (div_neg_of_pos_of_neg hdays h) hpi
  refine and_of_left ?_ fun updateMoon_of_mesh => ?_
  · intro d r moon mesh angle P hmesh hangle hP hne
    simp only [updateMoon_def, hmesh, hangle, hP, orElse_of_ne_zero P 27 hne]
  refine and_of_left ?_ fun createPlanet_earth_moons => ?_
  · intro rnd
    simp [createPlanet_def, earthConfig, createMoons_nil, createMoons_cons]
  refine and_of_left ?_ fun createPlanets_saturn_only => ?_
  · intro rnd config
    obtain ⟨h1, h2, h3, h4, h5, h6, h7, h8, h9⟩ := lower_names
    simp [createPlanets_def, registerAll_nil, registerAll_cons, registerBody, PlanetKey.name, h6]
  refine and_of_left ?_ fun updateMoon_of_no_mesh => ?_
  · intro d r moon hmesh
    simp only [updateMoon_def, hmesh]
  refine and_of_left ?_ fun createMoon_modelled => ?_
  · intro moonConfig r path hpath hne
    simp [createMoon_def, hpath, hne]
  refine and_of_left ?_ fun createPlanets_shipped_mars => ?_
  · intro rnd
    obtain ⟨h1, h2, h3, h4, h5, h6, h7, h8, h9⟩ := lower_names
    simp [createPlanets_def, planetsConfig, registerAll_nil, registerAll_cons, registerBody, PlanetKey.name,
      h1, h2, h3, h4, h5, h6, h7, h8, h9]
  refine and_of_left ?_ fun createPlanet_mars_moons => ?_
  · intro rnd
    simp [createPlanet_def, marsConfig, createMoons_nil, createMoons_cons]
  refine and_of_left ?_ fun animateEntry_angle_mono => ?_
  · intro rnd d key planetObj hd
    cases hp : planetObj.config.physical.orbitPeriod with
    | none =>
      rw [animateEntry_planet]
      simp only [animatePlanet_def, spinShell_def, spinBody_def]
      rw [advanceOrbit_of_not_pos _ _ _ (fun Q hQ => by rw [hp] at hQ; cases hQ)]
      simp only [spinPlanet_animationData, le_refl]
    | some P =>
      by_cases hpos : 0 < P
      · rw [(animateEntry_position_of_pos rnd d key planetObj P hp hpos).2]
        have hpi : 0 ≤ 2 * Real.pi := by positivity
        have : 0 ≤ d / P * 2 * Real.pi := by
          have := mul_nonneg (div_nonneg hd hpos.le) hpi
          linarith
        simp only
        linarith
      · rw [animateEntry_planet]
        simp only [animatePlanet_def, spinShell_def, spinBody_def]
        rw [advanceOrbit_of_not_pos _ _ _ (fun Q hQ => by
          rw [hp] at hQ
          cases hQ
          exact not_lt.1 hpos)]
        simp only [spinPlanet_animationData, le_refl]
  refine and_of_left ?_ fun animateFrames_angle_mono => ?_
  · intro key frames
    induction frames with
    | nil =>
      intro _ planetsObj planetObj hkey
      exact ⟨planetObj, hkey, le_refl _⟩
    | cons frame rest ih =>
      intro hall planetsObj planetObj hkey
      obtain ⟨rnd, dt, timeScale⟩ := frame
      have hframe := hall (rnd, dt, timeScale) (List.mem_cons_self _ _)
      have hstep : (animate rnd dt timeScale planetsObj).planets key =
          some (animateEntry (rnd key) (dt * timeScale) key planetObj) := by
        rw [animate_planets, hkey]
        rfl
      obtain ⟨after, hafter, hle⟩ :=
        ih (fun f hf => hall f (List.mem_cons_of_mem _ hf)) _ _ hstep
      exact ⟨after, hafter,
        le_trans (animateEntry_angle_mono _ _ _ _ (mul_nonneg hframe.1 hframe.2)) hle⟩
  intro physical ha he0 he1
  simp only [ellipticalData_def, orElse_zero]
  set a := physical.distance
  set e := physical.eccentricity.getD 0
  have hee : 0 ≤ 1 - e * e := by nlinarith
  have hs : Real.sqrt (1 - e * e) ^ 2 = 1 - e * e := Real.sq_sqrt hee
  have h : a ^ 2 - (a * Real.sqrt (1 - e * e)) ^ 2 = (a * e) ^ 2 := by
    have : (a * Real.sqrt (1 - e * e)) ^ 2 = a ^ 2 * Real.sqrt (1 - e * e) ^ 2 := by ring
    rw [this, hs]
    ring
  rw [h]
  exact Real.sqrt_sq (mul_nonneg ha.le he0)

set_option maxHeartbeats 4000000 in
set_option linter.unusedVariables false in
/-- The pick list and the registry that the loop of `createPlanets` builds, and the chain of `identifyPlanet`. -/
theorem registry_lemmas :
    -- registerBody_raycastTargets
    -- The pick-list entries `createPlanets` pushes for one table entry (planets.js 236-240):
    -- nothing for `'Sun'`, else the core mesh and, if configured, the atmosphere shell.
    (∀ (cb : CelestialBodies) (name : String) (config : Config) (rnd : Nat → ℝ),
      (registerBody cb name (createPlanet name config rnd)).raycastTargets =
        cb.raycastTargets ++
          (if name = "Sun" then []
           else [PickTarget.planet name] ++
             (if config.assets.atmosphere = true then [PickTarget.atmosphere name] else []))) ∧
    -- registerAll_raycastTargets
    (∀ (rnd : Nat → Nat → ℝ) (table : ConfigTable),
      ∀ (i : Nat) (cb : CelestialBodies),
        (registerAll rnd i table cb).raycastTargets =
          cb.raycastTargets ++
            table.flatMap (fun entry =>
              if entry.1 = "Sun" then []
              else [PickTarget.planet entry.1] ++
                (if entry.2.assets.atmosphere = true then [PickTarget.atmosphere entry.1]
                 else []))) ∧
    -- registerBody_byName
    -- What `registerBody` leaves under a key.
    (∀ (cb : CelestialBodies) (name : String) (body : Body) (key : String),
      (registerBody cb name body).byName key =
        if name ≠ "Sun" ∧ key = toLowerCase name then some body else cb.byName key) ∧
    -- registerAll_byName_of_no_match
    -- Entries that are the Sun or have another lower-cased name leave a key as it is.
    (∀ (rnd : Nat → Nat → ℝ) (key : String) (table : ConfigTable),
      ∀ (i0 : Nat) (cb : CelestialBodies),
        (∀ (j : Nat) (n : String) (c : Config), table[j]? = some (n, c) →
          n = "Sun" ∨ toLowerCase n ≠ key) →
        (registerAll rnd i0 table cb).byName key = cb.byName key) ∧
    -- registerAll_byName_of_last
    -- The last entry with a given lower-cased name, other than the Sun, is the one found
    -- under that key.
    (∀ (rnd : Nat → Nat → ℝ) (key : String) (table : ConfigTable),
      ∀ (i0 : Nat) (cb : CelestialBodies) (i : Nat) (name : String) (config : Config),
        table[i]? = some (name, config) → name ≠ "Sun" → toLowerCase name = key →
        (∀ (j : Nat) (n : String) (c : Config), i < j → table[j]? = some (n, c) →
          n = "Sun" ∨ toLowerCase n ≠ key) →
        (registerAll rnd i0 table cb).byName key =
          some (createPlanet name config (rnd (i0 + i)))) ∧
    -- registerAll_byName_sound
    -- Whatever is found under a key was there before, or was built from the last entry
    -- with that lower-cased name.
    (∀ (rnd : Nat → Nat → ℝ) (key : String) (table : ConfigTable),
      ∀ (i0 : Nat) (cb : CelestialBodies) (b : Body),
        (registerAll rnd i0 table cb).byName key = some b →
        (cb.byName key = some b ∧
          ∀ (j : Nat) (n : String) (c : Config), table[j]? = some (n, c) →
            n = "Sun" ∨ toLowerCase n ≠ key) ∨
        ∃ (i : Nat) (name : String) (config : Config),
          table[i]? = some (name, config) ∧ name ≠ "Sun" ∧ toLowerCase name = key ∧
          b = createPlanet name config (rnd (i0 + i)) ∧
          ∀ (j : Nat) (n : String) (c : Config), i < j → table[j]? = some (n, c) →
            n = "Sun" ∨ toLowerCase n ≠ key) ∧
    -- createPlanet_name
    (∀ (name : String) (config : Config) (rnd : Nat → ℝ),
      (createPlanet name config rnd).name = name) ∧
    -- identifyFrom_registered
    -- Whatever `identifyFrom` returns as a planet is an entry of `planets`.
    (∀ (planetsObj : PlanetsObj) (clickedObject : PickTarget) (chain : List (PlanetKey × Bool × ℝ))
        (body : Body) (offset : ℝ)
        (h : identifyFrom planetsObj clickedObject chain = .planet body offset),
      ∃ key : PlanetKey, planetsObj.planets key = some body) ∧
    -- createPlanets_names_differ
    -- The names of two bodies that `createPlanets` registers under different keys
    -- differ.
    (∀ (rnd : Nat → Nat → ℝ) (table : ConfigTable) (key1 key2 : PlanetKey) (body1 body2 : Body)
        (hne : key1.name ≠ key2.name)
        (h1 : (createPlanets rnd table).planets key1 = some body1)
        (h2 : (createPlanets rnd table).planets key2 = some body2),
      body1.name ≠ body2.name) := by
  obtain ⟨-, -, -, -, createPlanet_def, createPlanets_def, -, -, -, -, -, -, -, -, -, -, -, -, -, -,
      registerAll_nil, registerAll_cons, -, -, -, -⟩ := unfold_lemmas
  refine and_of_left ?_ fun registerBody_raycastTargets => ?_
  · intro cb name config rnd
    unfold registerBody
    by_cases hn : name = "Sun"
    · simp [hn]
    · by_cases ha : config.assets.atmosphere = true
      · simp [hn, ha, createPlanet_def]
      · simp [hn, ha, createPlanet_def]
  refine and_of_left ?_ fun registerAll_raycastTargets => ?_
  · intro rnd table
    induction table with
    | nil =>
      intro i cb
      simp [registerAll_nil, registerAll_cons]
    | cons entry rest ih =>
      intro i cb
      obtain ⟨name, config⟩ := entry
      simp only [registerAll_nil, registerAll_cons, ih, registerBody_raycastTargets, List.flatMap_cons,
        List.append_assoc]
  refine and_of_left ?_ fun registerBody_byName => ?_
  · intro cb name body key
    unfold registerBody
    by_cases hn : name = "Sun"
    · simp [hn]
    · by_cases hk : key = toLowerCase name
      · simp [hn, hk]
      · simp [hn, hk]
  refine and_of_left ?_ fun registerAll_byName_of_no_match => ?_
  · intro rnd key table
    induction table with
    | nil =>
      intro i0 cb _
      rfl
    | cons entry rest ih =>
      intro i0 cb hno
      obtain ⟨name, config⟩ := entry
      simp only [registerAll_nil, registerAll_cons]
      rw [ih (i0 + 1) _ (fun j n c hj => hno (j + 1) n c (by simpa using hj)),
        registerBody_byName]
      have h0 := hno 0 name config (by simp)
      have : ¬ (name ≠ "Sun" ∧ key = toLowerCase name) := by
        rintro ⟨h1, h2⟩
        rcases h0 with h0 | h0
        · exact h1 h0
        · exact h0 h2.symm
      simp only [this, if_false]
  refine and_of_left ?_ fun registerAll_byName_of_last => ?_
  · intro rnd key table
    induction table with
    | nil =>
      intro i0 cb i name config hi
      simp at hi
    | cons entry rest ih =>
      intro i0 cb i name config hi hn hk hlast
      obtain ⟨name0, config0⟩ := entry
      simp only [registerAll_nil, registerAll_cons]
      cases i with
      | zero =>
        simp only [List.getElem?_cons_zero, Option.some.injEq, Prod.mk.injEq] at hi
        obtain ⟨rfl, rfl⟩ := hi
        rw [registerAll_byName_of_no_match rnd key rest (i0 + 1) _
          (fun j n c hj => hlast (j + 1) n c (Nat.succ_pos j) (by simpa using hj)),
          registerBody_byName]
        simp [hn, hk]
      | succ k =>
        have hk' : rest[k]? = some (name, config) := by simpa using hi
        rw [ih (i0 + 1) _ k name config hk' hn hk
          (fun j n c hj hjc => hlast (j + 1) n c (Nat.succ_lt_succ hj) (by simpa using hjc))]
        have : i0 + 1 + k = i0 + (k + 1) := by omega
        rw [this]
  refine and_of_left ?_ fun registerAll_byName_sound => ?_
  · intro rnd key table
    induction table with
    | nil =>
      intro i0 cb b hb
      left
      refine ⟨hb, ?_⟩
      intro j n c hj
      simp at hj
    | cons entry rest ih =>
      intro i0 cb b hb
      obtain ⟨name0, config0⟩ := entry
      simp only [registerAll_nil, registerAll_cons] at hb
      rcases ih (i0 + 1) _ b hb with ⟨hcb, hno⟩ | ⟨i, name, config, hi, hn, hk, hbody, hlast⟩
      · rw [registerBody_byName] at hcb
        by_cases hm : name0 ≠ "Sun" ∧ key = toLowerCase name0
        · right
          rw [if_pos hm] at hcb
          refine ⟨0, name0, config0, by simp, hm.1, hm.2.symm, ?_, ?_⟩
          · exact (Option.some.inj hcb).symm
          · intro j n c hj hjc
            cases j with
            | zero => exact absurd hj (lt_irrefl 0)
            | succ k => exact hno k n c (by simpa using hjc)
        · left
          rw [if_neg hm] at hcb
          refine ⟨hcb, ?_⟩
          intro j n c hjc
          cases j with
          | zero =>
            simp only [List.getElem?_cons_zero, Option.some.injEq, Prod.mk.injEq] at hjc
            obtain ⟨rfl, rfl⟩ := hjc
            by_cases hs : name0 = "Sun"
            · exact Or.inl hs
            · right
              intro hlow
              exact hm ⟨hs, hlow.symm⟩
          | succ k => exact hno k n c (by simpa using hjc)
      · right
        refine ⟨i + 1, name, config, by simpa using hi, hn, hk, ?_, ?_⟩
        · rw [hbody]
          have : i0 + 1 + i = i0 + (i + 1) := by omega
          rw [this]
        · intro j n c hj hjc
          cases j with
          | zero => exact absurd hj (Nat.not_lt_zero _)
          | succ k => exact hlast k n c (Nat.lt_of_succ_lt_succ hj) (by simpa using hjc)
  refine and_of_left ?_ fun createPlanet_name => ?_
  · intro name config rnd
    exact rfl
  refine and_of_left ?_ fun identifyFrom_registered => ?_
  · intro planetsObj clickedObject chain body offset h
    induction chain with
    | nil => simp [identifyFrom] at h
    | cons test rest ih =>
      obtain ⟨key, onShell, off⟩ := test
      simp only [identifyFrom] at h
      cases hk : planetsObj.planets key with
      | none => simp [hk] at h
      | some planetObj =>
        simp only [hk] at h
        by_cases htest : (if onShell then isAtmosphereOf clickedObject planetObj
            else sameMaterial clickedObject planetObj) = true
        · rw [if_pos htest] at h
          simp only [Identified.planet.injEq] at h
          exact ⟨key, by rw [hk, h.1]⟩
        · rw [if_neg htest] at h
          exact ih h
  intro rnd table key1 key2 body1 body2 hne h1 h2
  simp only [createPlanets_def] at h1 h2
  rcases registerAll_byName_sound rnd key1.name table 0 _ body1 h1 with
    ⟨h, _⟩ | ⟨_, name1, _, _, _, hk1, hb1, _⟩
  · simp at h
  rcases registerAll_byName_sound rnd key2.name table 0 _ body2 h2 with
    ⟨h, _⟩ | ⟨_, name2, _, _, _, hk2, hb2, _⟩
  · simp at h
  rw [hb1, hb2, createPlanet_name, createPlanet_name]
  intro heq
  apply hne
  rw [← hk1, ← hk2, heq]

set_option maxHeartbeats 4000000 in
set_option linter.unusedVariables false in
/-- The restore loop and the highlight of an orbit line. -/
theorem highlight_lemmas :
    -- findOrbitForPlanet_congr
    (∀ (planetsObj : PlanetsObj) (state1 state2 : Interactions)
        (h : state1.planetSystem = state2.planetSystem) (key : PlanetKey),
      findOrbitForPlanet planetsObj state1 key = findOrbitForPlanet planetsObj state2 key) ∧
    -- restoreStyle_eq
    (∀ (state : Interactions) (uuid : Nat),
      restoreStyle state uuid =
        { state with material := Function.update state.material uuid (restoredMaterial state uuid) }) ∧
    -- restoreOrbits_spec
    -- The restore loop writes to materials only, and an orbit it visits ends with its
    -- restored material.
    (∀ (planetsObj : PlanetsObj) (keys : List PlanetKey),
      ∀ state : Interactions,
        (restoreOrbits planetsObj keys state).planetSystem = state.planetSystem ∧
        (restoreOrbits planetsObj keys state).selectedPlanet = state.selectedPlanet ∧
        (restoreOrbits planetsObj keys state).offset = state.offset ∧
        (restoreOrbits planetsObj keys state).highlightedOrbit = state.highlightedOrbit ∧
        (restoreOrbits planetsObj keys state).orbitOriginalStyles = state.orbitOriginalStyles ∧
        ∀ uuid : Nat,
          ((∃ key ∈ keys, findOrbitForPlanet planetsObj state key = some uuid) →
            (restoreOrbits planetsObj keys state).material uuid = restoredMaterial state uuid) ∧
          ((¬ ∃ key ∈ keys, findOrbitForPlanet planetsObj state key = some uuid) →
            (restoreOrbits planetsObj keys state).material uuid = state.material uuid)) ∧
    -- highlightOrbitFor_found
    -- The state `highlightOrbitFor` leaves when the orbit of the body is found.
    (∀ (planetsObj : PlanetsObj) (state : Interactions) (key : PlanetKey) (uuid : Nat)
        (hfound : findOrbitForPlanet planetsObj state key = some uuid),
      highlightOrbitFor planetsObj state key =
        { planetSystem := state.planetSystem
          material := Function.update (restoreOrbits planetsObj PlanetKey.all state).material uuid
            { color := Color.ofHex 0x66aaff
              opacity := max (orElse
                (some ((restoreOrbits planetsObj PlanetKey.all state).material uuid).opacity)
                0.05) 0.25
              transparent := true
              blending := .additive }
          selectedPlanet := state.selectedPlanet
          offset := state.offset
          highlightedOrbit := some uuid
          orbitOriginalStyles :=
            match state.orbitOriginalStyles uuid with
            | some _ => state.orbitOriginalStyles
            | none =>
              Function.update state.orbitOriginalStyles uuid
                (some
                  { color :=
                      ((restoreOrbits planetsObj PlanetKey.all state).material uuid).color.getHex
                    opacity := ((restoreOrbits planetsObj PlanetKey.all state).material uuid).opacity
                    transparent :=
                      ((restoreOrbits planetsObj PlanetKey.all state).material uuid).transparent }) }) ∧
    -- highlightOrbitFor_saved
    -- After a highlight, the saved style of the orbit has the opacity the orbit had when
    -- the restore loop was done.
    (∀ (planetsObj : PlanetsObj) (state : Interactions) (key : PlanetKey) (uuid : Nat)
        (hfound : findOrbitForPlanet planetsObj state key = some uuid),
      ∃ orig : SavedStyle,
        (highlightOrbitFor planetsObj state key).orbitOriginalStyles uuid = some orig ∧
        orig.opacity = ((restoreOrbits planetsObj PlanetKey.all state).material uuid).opacity ∧
        ∀ other, other ≠ uuid →
          (highlightOrbitFor planetsObj state key).orbitOriginalStyles other =
            state.orbitOriginalStyles other) ∧
    -- highlightOrbitFor_absorbs
    -- A state that differs from the state after a highlight only in the material of the
    -- highlighted orbit is taken to the state after the highlight by a second highlight.
    (∀ (planetsObj : PlanetsObj) (state : Interactions) (key : PlanetKey) (uuid : Nat)
        (hfound : findOrbitForPlanet planetsObj state key = some uuid) (state' : Interactions)
        (hagree : Interactions.agreeOff uuid state' (highlightOrbitFor planetsObj state key)),
      highlightOrbitFor planetsObj state' key = highlightOrbitFor planetsObj state key) := by
  refine and_of_left ?_ fun findOrbitForPlanet_congr => ?_
  · intro planetsObj state1 state2 h key
    simp only [findOrbitForPlanet, h]
  refine and_of_left ?_ fun restoreStyle_eq => ?_
  · intro state uuid
    unfold restoreStyle restoredMaterial
    cases state.orbitOriginalStyles uuid with
    | none => simp
    | some orig => rfl
  refine and_of_left ?_ fun restoreOrbits_spec => ?_
  · intro planetsObj keys
    induction keys with
    | nil =>
      intro state
      refine ⟨rfl, rfl, rfl, rfl, rfl, fun uuid => ⟨?_, fun _ => rfl⟩⟩
      rintro ⟨key, hkey, _⟩
      cases hkey
    | cons key rest ih =>
      intro state
      simp only [restoreOrbits]
      cases hfind : findOrbitForPlanet planetsObj state key with
      | none =>
        obtain ⟨h1, h2, h3, h4, h5, h6⟩ := ih state
        refine ⟨h1, h2, h3, h4, h5, fun uuid => ⟨?_, ?_⟩⟩
        · rintro ⟨k, hk, hku⟩
          rcases List.mem_cons.1 hk with rfl | hk
          · rw [hfind] at hku
            cases hku
          · exact (h6 uuid).1 ⟨k, hk, hku⟩
        · intro hno
          exact (h6 uuid).2 (fun ⟨k, hk, hku⟩ => hno ⟨k, List.mem_cons_of_mem _ hk, hku⟩)
      | some visited =>
        simp only
        rw [restoreStyle_eq]
        set state' : Interactions :=
          { state with
            material := Function.update state.material visited (restoredMaterial state visited) }
          with hstate'
        have hfind' : ∀ k, findOrbitForPlanet planetsObj state' k =
            findOrbitForPlanet planetsObj state k :=
          fun k => findOrbitForPlanet_congr planetsObj state' state rfl k
        have hrest : ∀ uuid, restoredMaterial state' uuid = restoredMaterial state uuid := by
          intro uuid
          have hstyles : state'.orbitOriginalStyles uuid = state.orbitOriginalStyles uuid := rfl
          have hmat : state'.material uuid =
              Function.update state.material visited (restoredMaterial state visited) uuid := rfl
          by_cases hu : uuid = visited
          · subst hu
            rw [Function.update_same] at hmat
            unfold restoredMaterial at hmat ⊢
            rw [hstyles]
            cases horig : state.orbitOriginalStyles uuid with
            | none =>
              rw [horig] at hmat
              exact hmat
            | some orig =>
              simp only [Function.update_same, restoredMaterial, horig]
          · rw [Function.update_noteq hu] at hmat
            unfold restoredMaterial
            rw [hstyles, hmat]
        obtain ⟨h1, h2, h3, h4, h5, h6⟩ := ih state'
        refine ⟨h1, h2, h3, h4, h5, fun uuid => ⟨?_, ?_⟩⟩
        · rintro ⟨k, hk, hku⟩
          by_cases hin : ∃ k' ∈ rest, findOrbitForPlanet planetsObj state' k' = some uuid
          · rw [(h6 uuid).1 hin, hrest]
          · rw [(h6 uuid).2 hin]
            rcases List.mem_cons.1 hk with rfl | hk
            · rw [hfind] at hku
              cases hku
              simp only [hstate', Function.update_same]
            · exact absurd ⟨k, hk, by rw [hfind']; exact hku⟩ hin
        · intro hno
          have hin : ¬ ∃ k' ∈ rest, findOrbitForPlanet planetsObj state' k' = some uuid := by
            rintro ⟨k, hk, hku⟩
            exact hno ⟨k, List.mem_cons_of_mem _ hk, by rw [← hfind']; exact hku⟩
          rw [(h6 uuid).2 hin]
          have hu : uuid ≠ visited := by
            rintro rfl
            exact hno ⟨key, List.mem_cons_self _ _, hfind⟩
          simp only [hstate', Function.update_noteq hu]
  refine and_of_left ?_ fun highlightOrbitFor_found => ?_
  · intro planetsObj state key uuid hfound
    obtain ⟨h1, h2, h3, h4, h5, _⟩ := restoreOrbits_spec planetsObj PlanetKey.all state
    have hfound' : findOrbitForPlanet planetsObj (restoreOrbits planetsObj PlanetKey.all state) key =
        some uuid := by
      rw [findOrbitForPlanet_congr planetsObj _ state h1]
      exact hfound
    unfold highlightOrbitFor
    simp only [hfound']
    have h5u : (restoreOrbits planetsObj PlanetKey.all state).orbitOriginalStyles uuid =
        state.orbitOriginalStyles uuid := by rw [h5]
    cases hs : state.orbitOriginalStyles uuid with
    | none =>
      rw [hs] at h5u
      simp only [h5u]
      apply Interactions.eq_of_fields <;> simp only [h1, h2, h3, h5]
    | some orig =>
      rw [hs] at h5u
      simp only [h5u]
      apply Interactions.eq_of_fields <;> simp only [h1, h2, h3, h5]
  refine and_of_left ?_ fun highlightOrbitFor_saved => ?_
  · intro planetsObj state key uuid hfound
    rw [highlightOrbitFor_found planetsObj state key uuid hfound]
    have hcov : ∃ k ∈ PlanetKey.all, findOrbitForPlanet planetsObj state k = some uuid :=
      ⟨key, PlanetKey.mem_all key, hfound⟩
    have hmat := ((restoreOrbits_spec planetsObj PlanetKey.all state).2.2.2.2.2 uuid).1 hcov
    cases hs : state.orbitOriginalStyles uuid with
    | none =>
      refine ⟨{ color := ((restoreOrbits planetsObj PlanetKey.all state).material uuid).color.getHex
                opacity := ((restoreOrbits planetsObj PlanetKey.all state).material uuid).opacity
                transparent :=
                  ((restoreOrbits planetsObj PlanetKey.all state).material uuid).transparent },
        by simp only [Function.update_same], rfl, ?_⟩
      intro other hother
      simp only [Function.update_noteq hother]
    | some orig =>
      refine ⟨orig, hs, ?_, fun other _ => rfl⟩
      rw [hmat]
      simp only [restoredMaterial, hs]
  intro planetsObj state key uuid hfound state' hagree
  obtain ⟨orig, hsaved, hopacity, hothers⟩ :=
    highlightOrbitFor_saved planetsObj state key uuid hfound
  obtain ⟨a1, a2, a3, a4, _, a6⟩ := hagree
  have hfirst := highlightOrbitFor_found planetsObj state key uuid hfound
  have hsys : state'.planetSystem = state.planetSystem := by
    rw [a1, hfirst]
  have hfound' : findOrbitForPlanet planetsObj state' key = some uuid := by
    rw [findOrbitForPlanet_congr planetsObj state' state hsys]
    exact hfound
  have hstyle' : state'.orbitOriginalStyles uuid = some orig := by
    rw [a6]
    exact hsaved
  obtain ⟨_, _, _, _, _, r6⟩ := restoreOrbits_spec planetsObj PlanetKey.all state
  obtain ⟨_, _, _, _, _, r6'⟩ := restoreOrbits_spec planetsObj PlanetKey.all state'
  have hcov : ∀ v, (∃ k ∈ PlanetKey.all, findOrbitForPlanet planetsObj state' k = some v) ↔
      ∃ k ∈ PlanetKey.all, findOrbitForPlanet planetsObj state k = some v := by
    intro v
    constructor
    · rintro ⟨k, hk, hkv⟩
      exact ⟨k, hk, by rw [← findOrbitForPlanet_congr planetsObj state' state hsys]; exact hkv⟩
    · rintro ⟨k, hk, hkv⟩
      exact ⟨k, hk, by rw [findOrbitForPlanet_congr planetsObj state' state hsys]; exact hkv⟩
  have hopacity' : ((restoreOrbits planetsObj PlanetKey.all state').material uuid).opacity =
      ((restoreOrbits planetsObj PlanetKey.all state).material uuid).opacity := by
    rw [(r6' uuid).1 ⟨key, PlanetKey.mem_all key, hfound'⟩, ← hopacity]
    simp only [restoredMaterial, hstyle']
  have hmat : ∀ v, v ≠ uuid →
      (restoreOrbits planetsObj PlanetKey.all state').material v =
        (restoreOrbits planetsObj PlanetKey.all state).material v := by
    intro v hv
    have hm' : state'.material v = (restoreOrbits planetsObj PlanetKey.all state).material v := by
      rw [a2 v hv, hfirst]
      simp only [Function.update_noteq hv]
    have hs' : state'.orbitOriginalStyles v = state.orbitOriginalStyles v := by
      rw [a6]
      exact hothers v hv
    by_cases hc : ∃ k ∈ PlanetKey.all, findOrbitForPlanet planetsObj state k = some v
    · rw [(r6' v).1 ((hcov v).2 hc)]
      have hR := (r6 v).1 hc
      simp only [restoredMaterial, hs', hm']
      rw [hR]
      simp only [restoredMaterial]
      cases state.orbitOriginalStyles v with
      | none => rfl
      | some o => rfl
    · rw [(r6' v).2 (fun h => hc ((hcov v).1 h)), hm']
  rw [highlightOrbitFor_found planetsObj state' key uuid hfound', hfirst]
  apply Interactions.eq_of_fields
  · exact hsys
  · funext v
    by_cases hv : v = uuid
    · subst hv
      simp only [Function.update_same, hopacity']
    · simp only [Function.update_noteq hv, hmat v hv]
  · show state'.selectedPlanet = state.selectedPlanet
    rw [a3, hfirst]
  · show state'.offset = state.offset
    rw [a4, hfirst]
  · rfl
  · simp only [hstyle']
    rw [a6, hfirst]

/-- The pulse writes to the material of the highlighted orbit only. -/
theorem pulseFrames_agreeOff (uuid : Nat) (target : Interactions)
    (htarget : target.highlightedOrbit = some uuid) (pulses : List ℝ) :
    ∀ state : Interactions, Interactions.agreeOff uuid state target →
      Interactions.agreeOff uuid (pulseFrames pulses state) target := by
  obtain ⟨-, -, -, -, -, -, -, -, -, -, -, -, -, -, -, -, -, pulseHighlight_def, -, -, -, -, -, -, -,
      -⟩ := unfold_lemmas
  induction pulses with
  | nil =>
    intro state h
    exact h
  | cons t rest ih =>
    intro state h
    apply ih
    obtain ⟨a1, a2, a3, a4, a5, a6⟩ := h
    have hhigh : state.highlightedOrbit = some uuid := by rw [a5, htarget]
    simp only [pulseHighlight_def, hhigh]
    refine ⟨a1, ?_, a3, a4, htarget.symm, a6⟩
    intro other hother
    simp only [Function.update_noteq hother]
    exact a2 other hother

set_option maxHeartbeats 4000000 in
set_option linter.unusedVariables false in
/-- The colour round trip, the restore loop of `closeInfo`, and what a highlight saves and writes. -/
theorem selection_lemmas :
    -- getHex_ofHex
    -- The call `color.set(hex)` followed by `getHex()` gives the hex value back.
    (∀ (hex : Nat) (h : hex < 16777216),
      (Color.ofHex hex).getHex = hex) ∧
    -- resetOrbits_spec
    -- The restore loop of `closeInfo` writes to materials only, and an orbit it visits
    -- ends with its reset material.
    (∀ (planetsObj : PlanetsObj) (keys : List PlanetKey),
      ∀ state : Interactions,
        (resetOrbits planetsObj keys state).planetSystem = state.planetSystem ∧
        (resetOrbits planetsObj keys state).selectedPlanet = state.selectedPlanet ∧
        (resetOrbits planetsObj keys state).offset = state.offset ∧
        (resetOrbits planetsObj keys state).highlightedOrbit = state.highlightedOrbit ∧
        (resetOrbits planetsObj keys state).orbitOriginalStyles = state.orbitOriginalStyles ∧
        ∀ uuid : Nat,
          ((∃ key ∈ keys, findOrbitForPlanet planetsObj state key = some uuid) →
            (resetOrbits planetsObj keys state).material uuid = resetMaterial state uuid) ∧
          ((¬ ∃ key ∈ keys, findOrbitForPlanet planetsObj state key = some uuid) →
            (resetOrbits planetsObj keys state).material uuid = state.material uuid)) ∧
    -- highlightOrbitFor_fresh
    -- A highlight of an orbit that has no saved style: the style is saved as it is, the
    -- orbit gets the highlight style, and the other orbits without a saved style are left as
    -- they are.
    (∀ (planetsObj : PlanetsObj) (state : Interactions) (key : PlanetKey) (uuid : Nat)
        (hfound : findOrbitForPlanet planetsObj state key = some uuid)
        (hnone : state.orbitOriginalStyles uuid = none),
      (highlightOrbitFor planetsObj state key).planetSystem = state.planetSystem ∧
      (highlightOrbitFor planetsObj state key).orbitOriginalStyles =
        Function.update state.orbitOriginalStyles uuid
          (some { color := (state.material uuid).color.getHex
                  opacity := (state.material uuid).opacity
                  transparent := (state.material uuid).transparent }) ∧
      (highlightOrbitFor planetsObj state key).material uuid =
        { color := Color.ofHex 0x66aaff
          opacity := max (orElse (some (state.material uuid).opacity) 0.05) 0.25
          transparent := true
          blending := .additive } ∧
      ∀ other, other ≠ uuid → state.orbitOriginalStyles other = none →
        (highlightOrbitFor planetsObj state key).material other = state.material other) ∧
    -- highlightOrbitFor_kept
    -- A highlight of an orbit whose style is saved leaves the saved styles as they are.
    (∀ (planetsObj : PlanetsObj) (state : Interactions) (key : PlanetKey) (uuid : Nat)
        (hfound : findOrbitForPlanet planetsObj state key = some uuid) (orig : SavedStyle)
        (hsaved : state.orbitOriginalStyles uuid = some orig),
      (highlightOrbitFor planetsObj state key).planetSystem = state.planetSystem ∧
      (highlightOrbitFor planetsObj state key).orbitOriginalStyles = state.orbitOriginalStyles) ∧
    -- highlightOrbitFor_twice
    -- After a highlight of a second orbit, the first one has its colour, opacity and
    -- transparent flag back, and the blending of the highlight.
    (∀ (planetsObj : PlanetsObj) (state : Interactions) (keyA keyB : PlanetKey) (uuidA uuidB : Nat)
        (hA : findOrbitForPlanet planetsObj state keyA = some uuidA)
        (hB : findOrbitForPlanet planetsObj state keyB = some uuidB) (hne : uuidA ≠ uuidB)
        (hnoneA : state.orbitOriginalStyles uuidA = none),
      (highlightOrbitFor planetsObj (highlightOrbitFor planetsObj state keyA) keyB).material uuidA =
        { color := Color.ofHex (state.material uuidA).color.getHex
          opacity := (state.material uuidA).opacity
          transparent := (state.material uuidA).transparent
          blending := .additive }) ∧
    -- findOrbitForPlanet_initInteractions
    -- No child of a group that `createPlanet` builds is a line, so `findOrbitForPlanet`
    -- finds nothing.
    (∀ (planetsObj : PlanetsObj) (uuid : PlanetKey → Nat → Nat) (state : Interactions)
        (hsys : state.planetSystem = (initInteractions planetsObj uuid).planetSystem)
        (key : PlanetKey),
      findOrbitForPlanet planetsObj state key = none) ∧
    -- highlightOrbitFor_of_no_orbit
    -- With no orbit line found for any key, `highlightOrbitFor` changes nothing.
    (∀ (planetsObj : PlanetsObj) (state : Interactions)
        (hnone : ∀ key, findOrbitForPlanet planetsObj state key = none) (key : PlanetKey),
      highlightOrbitFor planetsObj state key = state) := by
  refine and_of_left ?_ fun getHex_ofHex => ?_
  · intro hex h
    have comp : ∀ n : Nat, n < 256 →
        ⌊clamp ((n : ℝ) / 255 * 255) 0 255 + 1 / 2⌋₊ = n := by
      intro n hn
      have h1 : (n : ℝ) / 255 * 255 = n := by field_simp
      have h2 : (n : ℝ) ≤ 255 := by
        have : n ≤ 255 := by omega
        exact_mod_cast this
      have h3 : (0 : ℝ) ≤ n := Nat.cast_nonneg n
      unfold clamp
      rw [h1, min_eq_right h2, max_eq_right h3]
      rw [Nat.floor_eq_iff (by positivity)]
      constructor <;> linarith
    unfold Color.getHex Color.ofHex
    simp only
    rw [comp _ (Nat.mod_lt _ (by norm_num)), comp _ (Nat.mod_lt _ (by norm_num)),
      comp _ (Nat.mod_lt _ (by norm_num))]
    omega
  refine and_of_left ?_ fun resetOrbits_spec => ?_
  · intro planetsObj keys
    obtain ⟨findOrbitForPlanet_congr, -, -, -, -, -⟩ := highlight_lemmas
    have resetStyle_eq : ∀ (state : Interactions) (uuid : Nat),
        resetStyle state uuid =
          { state with material := Function.update state.material uuid (resetMaterial state uuid) } := by
      intro state uuid
      unfold resetStyle resetMaterial
      cases state.orbitOriginalStyles uuid with
      | none => simp
      | some orig => rfl
    induction keys with
    | nil =>
      intro state
      refine ⟨rfl, rfl, rfl, rfl, rfl, fun uuid => ⟨?_, fun _ => rfl⟩⟩
      rintro ⟨key, hkey, _⟩
      cases hkey
    | cons key rest ih =>
      intro state
      have hcons : resetOrbits planetsObj (key :: rest) state =
          resetOrbits planetsObj rest
            (match findOrbitForPlanet planetsObj state key with
             | none => state
             | some uuid => resetStyle state uuid) := rfl
      rw [hcons]
      cases hfind : findOrbitForPlanet planetsObj state key with
      | none =>
        obtain ⟨h1, h2, h3, h4, h5, h6⟩ := ih state
        refine ⟨h1, h2, h3, h4, h5, fun uuid => ⟨?_, ?_⟩⟩
        · rintro ⟨k, hk, hku⟩
          rcases List.mem_cons.1 hk with rfl | hk
          · rw [hfind] at hku
            cases hku
          · exact (h6 uuid).1 ⟨k, hk, hku⟩
        · intro hno
          exact (h6 uuid).2 (fun ⟨k, hk, hku⟩ => hno ⟨k, List.mem_cons_of_mem _ hk, hku⟩)
      | some visited =>
        simp only
        rw [resetStyle_eq]
        set state' : Interactions :=
          { state with
            material := Function.update state.material visited (resetMaterial state visited) }
          with hstate'
        have hfind' : ∀ k, findOrbitForPlanet planetsObj state' k =
            findOrbitForPlanet planetsObj state k :=
          fun k => findOrbitForPlanet_congr planetsObj state' state rfl k
        have hrest : ∀ uuid, resetMaterial state' uuid = resetMaterial state uuid := by
          intro uuid
          have hstyles : state'.orbitOriginalStyles uuid = state.orbitOriginalStyles uuid := rfl
          have hmat : state'.material uuid =
              Function.update state.material visited (resetMaterial state visited) uuid := rfl
          by_cases hu : uuid = visited
          · subst hu
            rw [Function.update_same] at hmat
            unfold resetMaterial at hmat ⊢
            rw [hstyles]
            cases horig : state.orbitOriginalStyles uuid with
            | none =>
              rw [horig] at hmat
              exact hmat
            | some orig => rfl
          · rw [Function.update_noteq hu] at hmat
            unfold resetMaterial
            rw [hstyles, hmat]
        obtain ⟨h1, h2, h3, h4, h5, h6⟩ := ih state'
        refine ⟨h1, h2, h3, h4, h5, fun uuid => ⟨?_, ?_⟩⟩
        · rintro ⟨k, hk, hku⟩
          by_cases hin : ∃ k' ∈ rest, findOrbitForPlanet planetsObj state' k' = some uuid
          · rw [(h6 uuid).1 hin, hrest]
          · rw [(h6 uuid).2 hin]
            rcases List.mem_cons.1 hk with rfl | hk
            · rw [hfind] at hku
              cases hku
              simp only [hstate', Function.update_same]
            · exact absurd ⟨k, hk, by rw [hfind']; exact hku⟩ hin
        · intro hno
          have hin : ¬ ∃ k' ∈ rest, findOrbitForPlanet planetsObj state' k' = some uuid := by
            rintro ⟨k, hk, hku⟩
            exact hno ⟨k, List.mem_cons_of_mem _ hk, by rw [← hfind']; exact hku⟩
          rw [(h6 uuid).2 hin]
          have hu : uuid ≠ visited := by
            rintro rfl
            exact hno ⟨key, List.mem_cons_self _ _, hfind⟩
          simp only [hstate', Function.update_noteq hu]
  refine and_of_left ?_ fun highlightOrbitFor_fresh => ?_
  · intro planetsObj state key uuid hfound hnone
    obtain ⟨-, -, restoreOrbits_spec, highlightOrbitFor_found, -, -⟩ := highlight_lemmas
    have hspec := (restoreOrbits_spec planetsObj PlanetKey.all state).2.2.2.2.2
    have hrest : ∀ other, state.orbitOriginalStyles other = none →
        (restoreOrbits planetsObj PlanetKey.all state).material other = state.material other := by
      intro other ho
      by_cases hin : ∃ k ∈ PlanetKey.all, findOrbitForPlanet planetsObj state k = some other
      · rw [(hspec other).1 hin]
        unfold restoredMaterial
        rw [ho]
      · exact (hspec other).2 hin
    rw [highlightOrbitFor_found planetsObj state key uuid hfound]
    refine ⟨rfl, ?_, ?_, ?_⟩
    · simp only [hnone, hrest uuid hnone]
    · simp only [Function.update_same, hrest uuid hnone]
    · intro other hne ho
      simp only [Function.update_noteq hne, hrest other ho]
  refine and_of_left ?_ fun highlightOrbitFor_kept => ?_
  · intro planetsObj state key uuid hfound orig hsaved
    obtain ⟨-, -, -, highlightOrbitFor_found, -, -⟩ := highlight_lemmas
    rw [highlightOrbitFor_found planetsObj state key uuid hfound]
    refine ⟨rfl, ?_⟩
    simp only [hsaved]
  refine and_of_left ?_ fun highlightOrbitFor_twice => ?_
  · intro planetsObj state keyA keyB uuidA uuidB hA hB hne hnoneA
    obtain ⟨findOrbitForPlanet_congr, -, restoreOrbits_spec, highlightOrbitFor_found, -, -⟩ :=
      highlight_lemmas
    obtain ⟨h1, h2, h3, -⟩ := highlightOrbitFor_fresh planetsObj state keyA uuidA hA hnoneA
    have hA1 : findOrbitForPlanet planetsObj (highlightOrbitFor planetsObj state keyA) keyA =
        some uuidA := by
      rw [findOrbitForPlanet_congr planetsObj _ state h1]
      exact hA
    have hB1 : findOrbitForPlanet planetsObj (highlightOrbitFor planetsObj state keyA) keyB =
        some uuidB := by
      rw [findOrbitForPlanet_congr planetsObj _ state h1]
      exact hB
    rw [highlightOrbitFor_found planetsObj _ keyB uuidB hB1]
    simp only [Function.update_noteq hne]
    rw [((restoreOrbits_spec planetsObj PlanetKey.all _).2.2.2.2.2 uuidA).1
      ⟨keyA, PlanetKey.mem_all keyA, hA1⟩]
    unfold restoredMaterial
    rw [h2, h3]
    simp only [Function.update_same]
  refine and_of_left ?_ fun findOrbitForPlanet_initInteractions => ?_
  · intro planetsObj uuid state hsys key
    unfold findOrbitForPlanet
    cases hbody : planetsObj.planets key with
    | none => rfl
    | some body =>
      rw [hsys]
      unfold initInteractions planetSystemChildren
      simp only [hbody, Option.map_eq_none', List.find?_eq_none, List.mem_map, List.mem_range]
      rintro child ⟨i, -, rfl⟩
      show ¬ (("Mesh" == "Line" || "Mesh" == "LineLoop") = true)
      decide
  intro planetsObj state hnone key
  have hloop : ∀ keys : List PlanetKey, restoreOrbits planetsObj keys state = state := by
    intro keys
    induction keys with
    | nil => rfl
    | cons k rest ih =>
      have hcons : restoreOrbits planetsObj (k :: rest) state =
          restoreOrbits planetsObj rest
            (match findOrbitForPlanet planetsObj state k with
             | none => state
             | some uuid => restoreStyle state uuid) := rfl
      rw [hcons, hnone k]
      exact ih
  unfold highlightOrbitFor
  simp only [hloop, hnone key]

set_option maxHeartbeats 4000000 in
set_option linter.unusedVariables false in
/-- The registry and the pick list built from the shipped table. -/
theorem shipped_lemmas :
    -- createPlanets_shipped
    -- The nine entries of the registry built from the shipped table.
    (∀ (rnd : Nat → Nat → ℝ),
      (createPlanets rnd planetsConfig).planets .mercury =
        some (createPlanet "Mercury" mercuryConfig (rnd 1)) ∧
      (createPlanets rnd planetsConfig).planets .venus =
        some (createPlanet "Venus" venusConfig (rnd 2)) ∧
      (createPlanets rnd planetsConfig).planets .earth =
        some (createPlanet "Earth" earthConfig (rnd 3)) ∧
      (createPlanets rnd planetsConfig).planets .mars =
        some (createPlanet "Mars" marsConfig (rnd 4)) ∧
      (createPlanets rnd planetsConfig).planets .jupiter =
        some (createPlanet "Jupiter" jupiterConfig (rnd 5)) ∧
      (createPlanets rnd planetsConfig).planets .saturn =
        some (createPlanet "Saturn" saturnConfig (rnd 6)) ∧
      (createPlanets rnd planetsConfig).planets .uranus =
        some (createPlanet "Uranus" uranusConfig (rnd 7)) ∧
      (createPlanets rnd planetsConfig).planets .neptune =
        some (createPlanet "Neptune" neptuneConfig (rnd 8)) ∧
      (createPlanets rnd planetsConfig).planets .pluto =
        some (createPlanet "Pluto" plutoConfig (rnd 9))) ∧
    -- identifyPlanet_shipped
    -- What `identifyPlanet` returns for the objects of the shipped pick list.
    (∀ (rnd : Nat → Nat → ℝ),
      (createPlanets rnd planetsConfig).raycastTargets =
        [.planet "Mercury", .planet "Venus", .atmosphere "Venus", .planet "Earth",
         .atmosphere "Earth", .planet "Mars", .planet "Jupiter", .planet "Saturn",
         .planet "Uranus", .planet "Neptune", .planet "Pluto"] ∧
      identifyPlanet (createPlanets rnd planetsConfig) (some (.planet "Mercury")) =
        .planet (createPlanet "Mercury" mercuryConfig (rnd 1)) 10 ∧
      identifyPlanet (createPlanets rnd planetsConfig) (some (.atmosphere "Venus")) =
        .planet (createPlanet "Venus" venusConfig (rnd 2)) 25 ∧
      identifyPlanet (createPlanets rnd planetsConfig) (some (.atmosphere "Earth")) =
        .planet (createPlanet "Earth" earthConfig (rnd 3)) 25 ∧
      identifyPlanet (createPlanets rnd planetsConfig) (some (.planet "Mars")) =
        .planet (createPlanet "Mars" marsConfig (rnd 4)) 15 ∧
      identifyPlanet (createPlanets rnd planetsConfig) (some (.planet "Jupiter")) =
        .planet (createPlanet "Jupiter" jupiterConfig (rnd 5)) 50 ∧
      identifyPlanet (createPlanets rnd planetsConfig) (some (.planet "Saturn")) =
        .planet (createPlanet "Saturn" saturnConfig (rnd 6)) 50 ∧
      identifyPlanet (createPlanets rnd planetsConfig) (some (.planet "Uranus")) =
        .planet (createPlanet "Uranus" uranusConfig (rnd 7)) 25 ∧
      identifyPlanet (createPlanets rnd planetsConfig) (some (.planet "Neptune")) =
        .planet (createPlanet "Neptune" neptuneConfig (rnd 8)) 20 ∧
      identifyPlanet (createPlanets rnd planetsConfig) (some (.planet "Pluto")) =
        .planet (createPlanet "Pluto" plutoConfig (rnd 9)) 10 ∧
      identifyPlanet (createPlanets rnd planetsConfig) (some (.planet "Venus")) = .null ∧
      identifyPlanet (createPlanets rnd planetsConfig) (some (.planet "Earth")) = .null) ∧
    -- sceneWithTwoOrbits_found
    -- The orbit lines that `findOrbitForPlanet` finds in the scene with two orbits.
    (findOrbitForPlanet (createPlanets (constDraws 0) planetsConfig) sceneWithTwoOrbits .earth =
        some 7 ∧
      findOrbitForPlanet (createPlanets (constDraws 0) planetsConfig) sceneWithTwoOrbits .mars =
        some 9) := by
  refine and_of_left ?_ fun createPlanets_shipped => ?_
  · intro rnd
    obtain ⟨-, -, -, -, -, createPlanets_def, -, -, -, -, -, -, -, -, -, -, -, -, -, -, registerAll_nil,
        registerAll_cons, -, -, -, -⟩ := unfold_lemmas
    obtain ⟨-, -, -, -, -, -, lower_names, -, -, -, -, -, -, -, -, -, -, -, -, -, -, -,
        -, -, -, -, -, -⟩ := step_lemmas
    obtain ⟨h1, h2, h3, h4, h5, h6, h7, h8, h9⟩ := lower_names
    refine ⟨?_, ?_, ?_, ?_, ?_, ?_, ?_, ?_, ?_⟩ <;>
      simp [createPlanets_def, planetsConfig, registerAll_nil, registerAll_cons, registerBody,
        PlanetKey.name, h1, h2, h3, h4, h5, h6, h7, h8, h9]
  refine and_of_left ?_ fun identifyPlanet_shipped => ?_
  · intro rnd
    obtain ⟨-, -, -, -, createPlanet_def, createPlanets_def, -, -, -, -, -, -, -, -, -, -, -, -,
        -, -, -, -, -, -, -, -⟩ := unfold_lemmas
    obtain ⟨-, registerAll_raycastTargets, -, -, -, -, -, -, -⟩ := registry_lemmas
    obtain ⟨hme, hv, he, hma, hj, hs, hu, hn, hp⟩ := createPlanets_shipped rnd
    have hname : ∀ (name : String) (config : Config) (draws : Nat → ℝ),
        (createPlanet name config draws).name = name := fun _ _ _ => rfl
    have hshellV : (createPlanet "Venus" venusConfig (rnd 2)).Atmosphere.isSome = true := by
      simp [createPlanet_def, venusConfig]
    have hshellE : (createPlanet "Earth" earthConfig (rnd 3)).Atmosphere.isSome = true := by
      simp [createPlanet_def, earthConfig]
    refine ⟨?_, ?_, ?_, ?_, ?_, ?_, ?_, ?_, ?_, ?_, ?_, ?_⟩
    · simp only [createPlanets_def, registerAll_raycastTargets]
      simp [planetsConfig, sunConfig, mercuryConfig, venusConfig, earthConfig, marsConfig,
        jupiterConfig, saturnConfig, uranusConfig, neptuneConfig, plutoConfig]
    all_goals
      simp [identifyPlanet, identifyChain, identifyFrom, hme, hv, he, hma, hj, hs, hu, hn, hp,
        sameMaterial, isAtmosphereOf, hshellV, hshellE, hname]
  obtain ⟨-, -, -, -, -, -, -, createPlanets_shipped_earth, -, -, -, -, -, -, -, -, -, -, -, -, -, -,
      -, -, -, -, -, -⟩ := step_lemmas
  obtain ⟨-, -, -, -, -, -, -, -, -, -, -, -, -, -, -, -, createPlanets_shipped_mars, -, -, -,
      -⟩ := frames_lemmas
  constructor
  · unfold findOrbitForPlanet sceneWithTwoOrbits
    rw [createPlanets_shipped_earth]
    decide
  · unfold findOrbitForPlanet sceneWithTwoOrbits
    rw [createPlanets_shipped_mars]
    decide

/-! ## Claims -/

/-- C1. For a body whose name is not `'Sun'`, `createPlanet` stores in
`planet.animationData` the semi-major axis `a = physical.distance`, the semi-minor axis
`b = a * sqrt (1 - e ^ 2)` and the focal distance `c = a * e`, where `e` is the
configured eccentricity, `0` when it is missing. -/
theorem C1_createPlanet_stores_ellipse (name : String) (config : Config) (rnd : Nat → ℝ)
    (hname : name ≠ "Sun") :
    ∃ d : EllipticalData,
      (createPlanet name config rnd).planet.animationData.ellipse = some d ∧
      d.a = config.physical.distance ∧
      d.b = config.physical.distance *
        Real.sqrt (1 - (config.physical.eccentricity.getD 0) ^ 2) ∧
      d.c = config.physical.distance * config.physical.eccentricity.getD 0 := by
  obtain ⟨-, ellipticalData_def, -, -, createPlanet_def, -, -, -, -, -, -, -, -, -, -, -, -, -, -, -,
      -, -, -, -, -, -⟩ := unfold_lemmas
  obtain ⟨orElse_zero, -, -, -⟩ := orbit_geometry
  refine ⟨ellipticalData config.physical, ?_, rfl, ?_, ?_⟩
  · simp [createPlanet_def, hname]
  · simp [ellipticalData_def, orElse_zero, sq]
  · simp [ellipticalData_def, orElse_zero]

/-- C1 at the shipped entry `Earth`: `a = 90`, `e = 0.017`. -/
theorem C1_createPlanet_stores_ellipse_witness :
    "Earth" ≠ "Sun" ∧ ∃ d : EllipticalData,
      (createPlanet "Earth" earthConfig (fun _ => 0)).planet.animationData.ellipse = some d ∧
      d.a = earthConfig.physical.distance ∧
      d.b = earthConfig.physical.distance *
        Real.sqrt (1 - (earthConfig.physical.eccentricity.getD 0) ^ 2) ∧
      d.c = earthConfig.physical.distance * earthConfig.physical.eccentricity.getD 0 :=
  ⟨by decide, C1_createPlanet_stores_ellipse "Earth" earthConfig (fun _ => 0) (by decide)⟩

/-- C2. With `a > 0` and `0 ≤ e < 1`, the position `animate` writes for the ellipse data
that `createPlanet` derives lies at distance `a * (1 - e * cos θ)` from the origin, where
the Sun sits: the origin is a focus. The distance stays within
`[a * (1 - e), a * (1 + e)]`, and every value of that interval is taken at some angle. -/
theorem C2_origin_is_focus (physical : Physical) (theta : ℝ)
    (ha : 0 < physical.distance)
    (he0 : 0 ≤ physical.eccentricity.getD 0) (he1 : physical.eccentricity.getD 0 < 1) :
    (∃ p : Vec3,
      keplerPosition { angle := theta, ellipse := some (ellipticalData physical) } = some p ∧
      p.x = physical.distance * Real.cos theta -
        physical.distance * physical.eccentricity.getD 0 ∧
      p.z = physical.distance * Real.sqrt (1 - (physical.eccentricity.getD 0) ^ 2) *
        Real.sin theta ∧
      Real.sqrt (p.x ^ 2 + p.z ^ 2) =
        physical.distance * (1 - physical.eccentricity.getD 0 * Real.cos theta) ∧
      physical.distance * (1 - physical.eccentricity.getD 0) ≤ Real.sqrt (p.x ^ 2 + p.z ^ 2) ∧
      Real.sqrt (p.x ^ 2 + p.z ^ 2) ≤ physical.distance * (1 + physical.eccentricity.getD 0)) ∧
    (∀ r : ℝ, physical.distance * (1 - physical.eccentricity.getD 0) ≤ r →
      r ≤ physical.distance * (1 + physical.eccentricity.getD 0) →
      ∃ (phi : ℝ) (q : Vec3),
        keplerPosition { angle := phi, ellipse := some (ellipticalData physical) } = some q ∧
        Real.sqrt (q.x ^ 2 + q.z ^ 2) = r) := by
  obtain ⟨orbitPoint_def, ellipticalData_def, -, -, -, -, -, -, keplerPosition_def, -, -, -, -, -, -,
      -, -, -, -, -, -, -, -, -, -, -⟩ := unfold_lemmas
  obtain ⟨orElse_zero, -, -, orbitPoint_dist⟩ := orbit_geometry
  set a := physical.distance with hadef
  set e := physical.eccentricity.getD 0 with hedef
  have hdist : ∀ t : ℝ,
      Real.sqrt ((orbitPoint a (a * Real.sqrt (1 - e * e)) (a * e) t).x ^ 2 +
        (orbitPoint a (a * Real.sqrt (1 - e * e)) (a * e) t).z ^ 2) =
      a * (1 - e * Real.cos t) := fun t => orbitPoint_dist a e t ha he0 he1
  have hkep : ∀ t : ℝ,
      keplerPosition { angle := t, ellipse := some (ellipticalData physical) } =
        some (orbitPoint a (a * Real.sqrt (1 - e * e)) (a * e) t) := by
    intro t
    simp [keplerPosition_def, ellipticalData_def, orElse_zero, ← hadef, ← hedef]
  constructor
  · refine ⟨_, hkep theta, ?_, ?_, hdist theta, ?_, ?_⟩
    · simp [orbitPoint_def]
    · simp [orbitPoint_def, sq]
    · rw [hdist theta]
      have hc : Real.cos theta ≤ 1 := Real.cos_le_one theta
      have := mul_nonneg (mul_nonneg ha.le he0) (sub_nonneg.2 hc)
      nlinarith
    · rw [hdist theta]
      have hc : -1 ≤ Real.cos theta := Real.neg_one_le_cos theta
      have := mul_nonneg (mul_nonneg ha.le he0) (neg_le_iff_add_nonneg.1 hc)
      nlinarith
  · intro r hlo hhi
    by_cases hez : e = 0
    · refine ⟨0, _, hkep 0, ?_⟩
      rw [hdist 0, hez]
      rw [hez] at hlo hhi
      simp at hlo hhi ⊢
      linarith
    · have hepos : 0 < e := lt_of_le_of_ne he0 (Ne.symm hez)
      have hae : 0 < a * e := mul_pos ha hepos
      set u := (a - r) / (a * e) with hu
      have hu1 : -1 ≤ u := by
        rw [hu, le_div_iff₀ hae]
        nlinarith
      have hu2 : u ≤ 1 := by
        rw [hu, div_le_iff₀ hae]
        nlinarith
      refine ⟨Real.arccos u, _, hkep _, ?_⟩
      rw [hdist, Real.cos_arccos hu1 hu2, hu]
      field_simp
      ring

/-- C2 at the shipped entry `Earth` (`a = 90`, `e = 0.017`) and the angle `0`. -/
theorem C2_origin_is_focus_witness :
    (0 < earthConfig.physical.distance ∧ 0 ≤ earthConfig.physical.eccentricity.getD 0 ∧
      earthConfig.physical.eccentricity.getD 0 < 1) ∧
    ((∃ p : Vec3,
      keplerPosition { angle := 0, ellipse := some (ellipticalData earthConfig.physical) } =
        some p ∧
      p.x = earthConfig.physical.distance * Real.cos 0 -
        earthConfig.physical.distance * earthConfig.physical.eccentricity.getD 0 ∧
      p.z = earthConfig.physical.distance *
        Real.sqrt (1 - (earthConfig.physical.eccentricity.getD 0) ^ 2) * Real.sin 0 ∧
      Real.sqrt (p.x ^ 2 + p.z ^ 2) =
        earthConfig.physical.distance *
          (1 - earthConfig.physical.eccentricity.getD 0 * Real.cos 0) ∧
      earthConfig.physical.distance * (1 - earthConfig.physical.eccentricity.getD 0) ≤
        Real.sqrt (p.x ^ 2 + p.z ^ 2) ∧
      Real.sqrt (p.x ^ 2 + p.z ^ 2) ≤
        earthConfig.physical.distance * (1 + earthConfig.physical.eccentricity.getD 0)) ∧
    (∀ r : ℝ,
      earthConfig.physical.distance * (1 - earthConfig.physical.eccentricity.getD 0) ≤ r →
      r ≤ earthConfig.physical.distance * (1 + earthConfig.physical.eccentricity.getD 0) →
      ∃ (phi : ℝ) (q : Vec3),
        keplerPosition { angle := phi, ellipse := some (ellipticalData earthConfig.physical) } =
          some q ∧
        Real.sqrt (q.x ^ 2 + q.z ^ 2) = r)) :=
  ⟨by norm_num [earthConfig, physicalOf],
    C2_origin_is_focus earthConfig.physical 0
      (by norm_num [earthConfig, physicalOf]) (by norm_num [earthConfig, physicalOf])
      (by norm_num [earthConfig, physicalOf])⟩

/-! ### What one `animate` call does to an entry of `planets` -/

/-- C3, counterexample. A table whose Sun has the `physical` record of the Earth, with
`orbitPeriod = 365.25`: the body is built and returned as `sun`, and an `animate` call
with `dt = 1` and `timeScale = 1` leaves its phase angle and its `planet3d` as they were.
A body named `'Ceres'` with the record of Mercury (`orbitPeriod = 88`) is built, its core
mesh is in the pick list, and it is under no key of `planets` when `animate` has run, so
the loop over `planets` does not reach it. -/
theorem C3_counterexample_not_an_entry :
    (∃ before after : Body,
      (createPlanets (constDraws 0) [("Sun", earthConfig)]).sun = some before ∧
      before.config.physical.orbitPeriod = some 365.25 ∧
      (animate (constMoonDraws 0) 1 1
        (createPlanets (constDraws 0) [("Sun", earthConfig)])).sun = some after ∧
      after.planet.animationData.angle = before.planet.animationData.angle ∧
      after.planet.animationData.angle ≠
        before.planet.animationData.angle + (1 * 1 / 365.25) * (2 * Real.pi) ∧
      after.planet3d.position = before.planet3d.position) ∧
    (createPlanets (constDraws 0) [("Ceres", mercuryConfig)]).raycastTargets =
      [.planet "Ceres"] ∧
    mercuryConfig.physical.orbitPeriod = some 88 ∧
    (∀ key : PlanetKey,
      (createPlanets (constDraws 0) [("Ceres", mercuryConfig)]).planets key = none ∧
      (animate (constMoonDraws 0) 1 1
        (createPlanets (constDraws 0) [("Ceres", mercuryConfig)])).planets key = none) := by
  obtain ⟨-, -, -, -, -, createPlanets_def, rotateSun_def, -, -, -, -, -, -, -, -, -,
      animate_def, -, -, -, registerAll_nil, registerAll_cons, -, -, -, -⟩ := unfold_lemmas
  obtain ⟨-, registerAll_raycastTargets, -, -, -, -, -, -, -⟩ := registry_lemmas
  have hceres : ∀ key : PlanetKey,
      (createPlanets (constDraws 0) [("Ceres", mercuryConfig)]).planets key = none := by
    intro key
    have hlow : toLowerCase "Ceres" = "ceres" := by decide
    cases key <;>
      simp [createPlanets_def, registerAll_nil, registerAll_cons, registerBody, PlanetKey.name,
        hlow]
  refine ⟨⟨createPlanet "Sun" earthConfig (constDraws 0 0),
    rotateSun (1 * 1) (createPlanet "Sun" earthConfig (constDraws 0 0)), ?_, rfl, ?_, ?_, ?_, ?_⟩,
    ?_, rfl, ?_⟩
  · simp [createPlanets_def, registerAll_nil, registerAll_cons, registerBody]
  · simp [animate_def, createPlanets_def, registerAll_nil, registerAll_cons, registerBody]
  · simp only [rotateSun_def]
  · simp only [rotateSun_def]
    have hpi : 0 < (1 * 1 / 365.25) * (2 * Real.pi) := by positivity
    intro h
    linarith
  · simp only [rotateSun_def]
  · simp [createPlanets_def, registerAll_raycastTargets, mercuryConfig]
  · intro key
    refine ⟨hceres key, ?_⟩
    simp only [animate_def, hceres key, Option.map_none']

/-- C3, as amended. For an entry of `planets` with `orbitPeriod > 0`, one `animate` call with
frame delta `dt` and time scale `timeScale` replaces the phase angle by
`angle + (dt * timeScale / orbitPeriod) * 2π` and sets `planet3d.position` to
`(a cos angle' - c, 0, b sin angle')` for the new angle and the stored `a`, `b`, `c`. -/
theorem C3_animate_advances_orbit (rnd : PlanetKey → Nat → ℝ) (dt timeScale : ℝ)
    (planetsObj : PlanetsObj) (key : PlanetKey) (planetObj : Body) (orbitPeriod : ℝ)
    (d : EllipticalData)
    (hkey : planetsObj.planets key = some planetObj)
    (hperiod : planetObj.config.physical.orbitPeriod = some orbitPeriod)
    (hpos : 0 < orbitPeriod)
    (hd : planetObj.planet.animationData.ellipse = some d) :
    ∃ after : Body,
      (animate rnd dt timeScale planetsObj).planets key = some after ∧
      after.planet.animationData.angle =
        planetObj.planet.animationData.angle +
          (dt * timeScale / orbitPeriod) * (2 * Real.pi) ∧
      after.planet.animationData.ellipse = some d ∧
      after.planet3d.position =
        some { x := d.a * Real.cos after.planet.animationData.angle - d.c
               y := 0
               z := d.b * Real.sin after.planet.animationData.angle } := by
  obtain ⟨orbitPoint_def, -, -, -, -, -, -, -, keplerPosition_def, -, -, spinBody_def, spinShell_def,
      animatePlanet_def, -, -, -, -, -, -, -, -, -, -, -, -⟩ := unfold_lemmas
  obtain ⟨animate_planets, animateEntry_planet, animateEntry_planet3d, advanceOrbit_of_pos, -,
      spinPlanet_animationData, -, -, -, -, -, -, -, -, -, -, -, -, -, -, -, -, -, -, -, -, -,
      -⟩ := step_lemmas
  refine ⟨animateEntry (rnd key) (dt * timeScale) key planetObj, ?_, ?_, ?_, ?_⟩
  · rw [animate_planets, hkey]
    rfl
  · rw [animateEntry_planet]
    simp only [animatePlanet_def, spinShell_def, spinBody_def]
    rw [advanceOrbit_of_pos _ _ _ orbitPeriod hperiod hpos]
    simp only [spinPlanet_animationData]
    ring
  · rw [animateEntry_planet]
    simp only [animatePlanet_def, spinShell_def, spinBody_def]
    rw [advanceOrbit_of_pos _ _ _ orbitPeriod hperiod hpos]
    simp only [spinPlanet_animationData]
    exact hd
  · rw [animateEntry_planet3d, animateEntry_planet]
    simp only [animatePlanet_def, spinShell_def, spinBody_def]
    rw [advanceOrbit_of_pos _ _ _ orbitPeriod hperiod hpos]
    simp only [spinPlanet_animationData, keplerPosition_def, hd, orbitPoint_def]

/-- C3 as amended, on the state built from the shipped table, for `earth`, with `dt = 1`
and `timeScale = 1`. -/
theorem C3_animate_advances_orbit_witness :
    ((createPlanets (constDraws 0) planetsConfig).planets .earth =
        some (createPlanet "Earth" earthConfig (constDraws 0 3)) ∧
      (createPlanet "Earth" earthConfig (constDraws 0 3)).config.physical.orbitPeriod =
        some 365.25 ∧
      (0 : ℝ) < 365.25 ∧
      (createPlanet "Earth" earthConfig (constDraws 0 3)).planet.animationData.ellipse =
        some (ellipticalData earthConfig.physical)) ∧
    ∃ after : Body,
      (animate (constMoonDraws 0) 1 1 (createPlanets (constDraws 0) planetsConfig)).planets
        .earth = some after ∧
      after.planet.animationData.angle =
        (createPlanet "Earth" earthConfig (constDraws 0 3)).planet.animationData.angle +
          (1 * 1 / 365.25) * (2 * Real.pi) ∧
      after.planet.animationData.ellipse = some (ellipticalData earthConfig.physical) ∧
      after.planet3d.position =
        some { x := (ellipticalData earthConfig.physical).a *
                 Real.cos after.planet.animationData.angle -
                 (ellipticalData earthConfig.physical).c
               y := 0
               z := (ellipticalData earthConfig.physical).b *
                 Real.sin after.planet.animationData.angle } := by
  obtain ⟨-, -, -, -, createPlanet_def, -, -, -, -, -, -, -, -, -, -, -, -, -, -, -, -, -, -, -, -,
      -⟩ := unfold_lemmas
  obtain ⟨-, -, -, -, -, -, -, createPlanets_shipped_earth, -, -, -, -, -, -, -, -, -, -, -, -, -, -,
      -, -, -, -, -, -⟩ := step_lemmas
  exact
    have h1 := createPlanets_shipped_earth (constDraws 0)
    have h2 : (createPlanet "Earth" earthConfig (constDraws 0 3)).config.physical.orbitPeriod =
        some 365.25 := rfl
    have h3 : (0 : ℝ) < 365.25 := by norm_num
    have h4 : (createPlanet "Earth" earthConfig (constDraws 0 3)).planet.animationData.ellipse =
        some (ellipticalData earthConfig.physical) := by simp [createPlanet_def]
    ⟨⟨h1, h2, h3, h4⟩,
      C3_animate_advances_orbit (constMoonDraws 0) 1 1 (createPlanets (constDraws 0) planetsConfig)
        .earth (createPlanet "Earth" earthConfig (constDraws 0 3)) 365.25
        (ellipticalData earthConfig.physical) h1 h2 h3 h4⟩

/-! ### Additivity of the step functions -/

/-- C4. Additivity of the integrator: for a fixed `timeScale`, an `animate` call with
`dt1` followed by one with `dt2` leaves every entry of `planets` (its phase angle, its
`planet3d` position, its spin angle, its atmosphere, and the phase angle and mesh of
each of its moons) and the Sun exactly as one call with `dt1 + dt2` does. -/
theorem C4_animate_additive (rnd1 rnd2 : PlanetKey → Nat → ℝ) (dt1 dt2 timeScale : ℝ)
    (planetsObj : PlanetsObj) :
    (animate rnd2 dt2 timeScale (animate rnd1 dt1 timeScale planetsObj)).planets =
      (animate rnd1 (dt1 + dt2) timeScale planetsObj).planets ∧
    (animate rnd2 dt2 timeScale (animate rnd1 dt1 timeScale planetsObj)).sun =
      (animate rnd1 (dt1 + dt2) timeScale planetsObj).sun := by
  obtain ⟨-, -, -, -, -, -, -, -, -, -, -, -, -, -, -, -, animate_def, -, -, -, -, -, -, -, -,
      -⟩ := unfold_lemmas
  obtain ⟨animate_planets, -, -, -, -, -, -, -, -, -, rotateSun_add, -, -, -, -, -, -, -, -, -, -, -,
      -, -, -, -, -, animateEntry_add⟩ := step_lemmas
  constructor
  · funext key
    simp only [animate_planets]
    cases planetsObj.planets key with
    | none => rfl
    | some planetObj =>
      simp only [Option.map_some', animateEntry_add]
      congr 2
      ring
  · simp only [animate_def]
    cases planetsObj.sun with
    | none => rfl
    | some sun =>
      simp only [Option.map_some', rotateSun_add]
      congr 2
      ring

/-! ### A frame with no simulated time -/

/-- C5, counterexample. On the state `createPlanets` returns for the shipped table (all
random draws `0`), `planet3d` of the Earth is at the origin; an `animate` call with
`dt = 0` moves it to `(90 - 90 * 0.017, 0, 0)`. -/
theorem C5_counterexample_start_state :
    ∃ before after : Body,
      (createPlanets (constDraws 0) planetsConfig).planets .earth = some before ∧
      (animate (constMoonDraws 0) 0 1 (createPlanets (constDraws 0) planetsConfig)).planets
        .earth = some after ∧
      before.planet3d.position = some { x := 0, y := 0, z := 0 } ∧
      after.planet3d.position = some { x := 90 - 90 * 0.017, y := 0, z := 0 } ∧
      after.planet3d.position ≠ before.planet3d.position := by
  obtain ⟨orbitPoint_def, ellipticalData_def, -, -, createPlanet_def, -, -, -, keplerPosition_def, -,
      -, -, -, -, -, -, -, -, -, -, -, -, -, -, -, -⟩ := unfold_lemmas
  obtain ⟨animate_planets, -, -, -, -, -, -, createPlanets_shipped_earth, -, -, -, -, -, -, -, -, -, -,
      -, -, -, -, -, -, -, -, -, -⟩ := step_lemmas
  obtain ⟨-, -, -, -, -, -, -, -, -, -, -, -, -, -, -, -, -, -, -, -, -,
      animateEntry_position_of_pos⟩ := zero_step_lemmas
  have hpos : (0 : ℝ) < 365.25 := by norm_num
  have hp : (createPlanet "Earth" earthConfig (constDraws 0 3)).config.physical.orbitPeriod =
      some 365.25 := rfl
  have h := (animateEntry_position_of_pos (constMoonDraws 0 .earth) (0 * 1) .earth
    (createPlanet "Earth" earthConfig (constDraws 0 3)) 365.25 hp hpos).1
  have hafter : (animateEntry (constMoonDraws 0 .earth) (0 * 1) .earth
      (createPlanet "Earth" earthConfig (constDraws 0 3))).planet3d.position =
      some { x := 90 - 90 * 0.017, y := 0, z := 0 } := by
    rw [h]
    simp [keplerPosition_def, createPlanet_def, ellipticalData_def, orbitPoint_def, earthConfig, physicalOf,
      constDraws, orElse]
  refine ⟨createPlanet "Earth" earthConfig (constDraws 0 3),
    animateEntry (constMoonDraws 0 .earth) (0 * 1) .earth
      (createPlanet "Earth" earthConfig (constDraws 0 3)), ?_, ?_, ?_, hafter, ?_⟩
  · exact createPlanets_shipped_earth _
  · rw [animate_planets, createPlanets_shipped_earth]
    rfl
  · rfl
  · rw [hafter]
    simp only [createPlanet_def, ne_eq, Option.some.injEq, Vec3.mk.injEq, and_true]
    norm_num

/-- C5, as amended. An `animate` call with `dt = 0` leaves the Sun, and for every entry
of `planets` the core mesh (phase angle and spin angle), the atmosphere, and for each
moon its phase angle (when it has one) and its spin, as they were. It leaves the whole
of `planets`, positions included, as it was when every `planet3d` and every moon mesh
already sits at the position of its phase angle, which is so after any `animate` call. -/
theorem C5_zero_delta (rnd : PlanetKey → Nat → ℝ) (timeScale : ℝ) (planetsObj : PlanetsObj) :
    (animate rnd 0 timeScale planetsObj).sun = planetsObj.sun ∧
    (∀ key planetObj, planetsObj.planets key = some planetObj →
      ∃ after : Body,
        (animate rnd 0 timeScale planetsObj).planets key = some after ∧
        after.planet = planetObj.planet ∧
        after.Atmosphere = planetObj.Atmosphere ∧
        after.moons.length = planetObj.moons.length ∧
        ∀ (i : Nat) (moon : Moon), planetObj.moons[i]? = some moon →
          ∃ moon' : Moon, after.moons[i]? = some moon' ∧
            (∀ angle, moon.angle = some angle → moon'.angle = some angle) ∧
            moon'.mesh.map (fun mesh => mesh.spinY) = moon.mesh.map (fun mesh => mesh.spinY)) ∧
    (planetsObj.onOrbit → (animate rnd 0 timeScale planetsObj).planets = planetsObj.planets) ∧
    (∀ (rnd0 : PlanetKey → Nat → ℝ) (dt0 timeScale0 : ℝ),
      (animate rnd0 dt0 timeScale0 planetsObj).onOrbit) := by
  obtain ⟨-, -, -, -, -, -, -, -, -, -, -, -, -, -, -, -, animate_def, -, -, -, -, -, -, -, -,
      -⟩ := unfold_lemmas
  obtain ⟨animate_planets, animateEntry_planet, -, -, -, -, -, -, -, -, -, -, -, -, -,
      animatePlanet_moons, -, -, -, -, -, -, -, -, animateEntry_of_animated,
      animateEntry_of_not_animated, -, -⟩ := step_lemmas
  obtain ⟨rotateSun_zero, -, -, -, -, -, animatePlanet_zero_planet, animatePlanet_zero_Atmosphere,
      animatePlanet_zero_of_onOrbit, updateMoons_getElem?, updateMoons_length, -, -, -,
      updateMoon_zero_angle, updateMoon_zero_spin, -, updateMoons_zero_of_onOrbit, -, -,
      animate_onOrbit, -⟩ := zero_step_lemmas
  refine ⟨?_, ?_, ?_, fun rnd0 dt0 timeScale0 => animate_onOrbit rnd0 dt0 timeScale0 planetsObj⟩
  · simp only [animate_def, zero_mul]
    cases planetsObj.sun with
    | none => rfl
    | some sun => simp [rotateSun_zero]
  · intro key planetObj hkey
    refine ⟨animateEntry (rnd key) (0 * timeScale) key planetObj, ?_, ?_, ?_, ?_, ?_⟩
    · rw [animate_planets, hkey]
      rfl
    · rw [animateEntry_planet, zero_mul, animatePlanet_zero_planet]
    · rw [zero_mul]
      cases hk : moonsAnimated key with
      | true =>
        rw [animateEntry_of_animated _ _ _ _ hk]
        exact animatePlanet_zero_Atmosphere planetObj
      | false =>
        rw [animateEntry_of_not_animated _ _ _ _ hk]
        exact animatePlanet_zero_Atmosphere planetObj
    · cases hk : moonsAnimated key with
      | true =>
        rw [animateEntry_of_animated _ _ _ _ hk]
        simp only [updateMoons_length, animatePlanet_moons]
      | false =>
        rw [animateEntry_of_not_animated _ _ _ _ hk, animatePlanet_moons]
    · intro i moon hmoon
      rw [zero_mul]
      cases hk : moonsAnimated key with
      | true =>
        rw [animateEntry_of_animated _ _ _ _ hk]
        refine ⟨updateMoon 0 (rnd key (0 + i)) moon, ?_, ?_, ?_⟩
        · simp only [animatePlanet_moons, updateMoons_getElem?, hmoon, Option.map_some']
        · intro angle hangle
          exact updateMoon_zero_angle _ moon angle hangle
        · exact updateMoon_zero_spin _ moon
      | false =>
        rw [animateEntry_of_not_animated _ _ _ _ hk, animatePlanet_moons]
        exact ⟨moon, hmoon, fun angle hangle => hangle, rfl⟩
  · intro hon
    funext key
    rw [animate_planets, zero_mul]
    cases hb : planetsObj.planets key with
    | none => rfl
    | some planetObj =>
      obtain ⟨hbody, hmoons⟩ := hon key planetObj hb
      simp only [Option.map_some', Option.some.injEq]
      cases hk : moonsAnimated key with
      | true =>
        rw [animateEntry_of_animated _ _ _ _ hk, animatePlanet_zero_of_onOrbit _ hbody,
          updateMoons_zero_of_onOrbit _ _ _ (hmoons hk)]
      | false =>
        rw [animateEntry_of_not_animated _ _ _ _ hk, animatePlanet_zero_of_onOrbit _ hbody]

/-- C5 as amended, on the state one `animate` call after the state built from the
shipped table: that state sits on its orbits, and a call with `dt = 0` leaves `planets`
as it is. -/
theorem C5_zero_delta_witness :
    (animate (constMoonDraws 0) 1 1 (createPlanets (constDraws 0) planetsConfig)).onOrbit ∧
    (animate (constMoonDraws 0) 0 1
      (animate (constMoonDraws 0) 1 1 (createPlanets (constDraws 0) planetsConfig))).planets =
      (animate (constMoonDraws 0) 1 1 (createPlanets (constDraws 0) planetsConfig)).planets := by
  obtain ⟨-, -, -, -, -, -, -, -, -, -, -, -, -, -, -, -, -, -, -, -, animate_onOrbit,
      -⟩ := zero_step_lemmas
  exact
    ⟨animate_onOrbit _ _ _ _,
      (C5_zero_delta (constMoonDraws 0) 1
        (animate (constMoonDraws 0) 1 1 (createPlanets (constDraws 0) planetsConfig))).2.2.1
        (animate_onOrbit _ _ _ _)⟩

/-! ### Runs of frames -/

/-- C6, counterexample. On the state `createPlanets` returns for the shipped table (all
random draws `0`), one `animate` call with `dt = 1` and `timeScale = 365.25` (simulated
days `365.25`, the Earth's `orbitPeriod`) advances the Earth's phase angle by `2π`, but
`planet3d` goes from `(0, 0, 0)` to `(90 - 90 * 0.017, 0, 0)`. And a body that is not an
entry of `planets` is not advanced at all: for a table whose Sun has the `physical` record
of the Earth, the same call leaves the phase angle of the Sun as it was. -/
theorem C6_counterexample_start_state :
    (∃ before after : Body,
      (createPlanets (constDraws 0) planetsConfig).planets .earth = some before ∧
      (animate (constMoonDraws 0) 1 365.25
        (createPlanets (constDraws 0) planetsConfig)).planets .earth = some after ∧
      before.config.physical.orbitPeriod = some (1 * 365.25) ∧
      after.planet.animationData.angle = before.planet.animationData.angle + 2 * Real.pi ∧
      before.planet3d.position = some { x := 0, y := 0, z := 0 } ∧
      after.planet3d.position = some { x := 90 - 90 * 0.017, y := 0, z := 0 } ∧
      after.planet3d.position ≠ before.planet3d.position) ∧
    (∃ before after : Body,
      (createPlanets (constDraws 0) [("Sun", earthConfig)]).sun = some before ∧
      (animate (constMoonDraws 0) 1 365.25
        (createPlanets (constDraws 0) [("Sun", earthConfig)])).sun = some after ∧
      before.config.physical.orbitPeriod = some (1 * 365.25) ∧
      after.planet.animationData.angle = before.planet.animationData.angle ∧
      after.planet.animationData.angle ≠ before.planet.animationData.angle + 2 * Real.pi) := by
  obtain ⟨orbitPoint_def, ellipticalData_def, -, -, createPlanet_def, createPlanets_def, rotateSun_def,
      -, keplerPosition_def, -, -, -, -, -, -, -, animate_def, -, -, -, registerAll_nil,
      registerAll_cons, -, -, -, -⟩ := unfold_lemmas
  obtain ⟨animate_planets, -, -, -, -, -, -, createPlanets_shipped_earth, -, -, -, -, -, -, -, -, -, -,
      -, -, -, -, -, -, -, -, -, -⟩ := step_lemmas
  obtain ⟨-, -, -, -, -, -, -, -, -, -, -, -, -, -, -, -, -, -, -, -, -,
      animateEntry_position_of_pos⟩ := zero_step_lemmas
  have hpos : (0 : ℝ) < 365.25 := by norm_num
  have hp : (createPlanet "Earth" earthConfig (constDraws 0 3)).config.physical.orbitPeriod =
      some 365.25 := rfl
  obtain ⟨h, hdata⟩ := animateEntry_position_of_pos (constMoonDraws 0 .earth) (1 * 365.25) .earth
    (createPlanet "Earth" earthConfig (constDraws 0 3)) 365.25 hp hpos
  have hone : (1 * 365.25 / 365.25 : ℝ) = 1 := by norm_num
  have hafter : (animateEntry (constMoonDraws 0 .earth) (1 * 365.25) .earth
      (createPlanet "Earth" earthConfig (constDraws 0 3))).planet3d.position =
      some { x := 90 - 90 * 0.017, y := 0, z := 0 } := by
    rw [h, hone]
    simp [keplerPosition_def, createPlanet_def, ellipticalData_def, orbitPoint_def, earthConfig, physicalOf,
      constDraws, orElse]
  refine ⟨⟨createPlanet "Earth" earthConfig (constDraws 0 3),
    animateEntry (constMoonDraws 0 .earth) (1 * 365.25) .earth
      (createPlanet "Earth" earthConfig (constDraws 0 3)), ?_, ?_, ?_, ?_, ?_, hafter, ?_⟩,
    createPlanet "Sun" earthConfig (constDraws 0 0),
    rotateSun (1 * 365.25) (createPlanet "Sun" earthConfig (constDraws 0 0)), ?_, ?_, ?_, ?_, ?_⟩
  · exact createPlanets_shipped_earth _
  · rw [animate_planets, createPlanets_shipped_earth]
    rfl
  · rw [hp]
    norm_num
  · rw [hdata, hone]
    simp
  · rfl
  · rw [hafter]
    simp only [createPlanet_def, ne_eq, Option.some.injEq, Vec3.mk.injEq, and_true]
    norm_num
  · simp [createPlanets_def, registerAll_nil, registerAll_cons, registerBody]
  · simp [animate_def, createPlanets_def, registerAll_nil, registerAll_cons, registerBody]
  · simp only [createPlanet_def, earthConfig, physicalOf]
    norm_num
  · simp only [rotateSun_def]
  · simp only [rotateSun_def]
    have hpi : 0 < 2 * Real.pi := by positivity
    intro h
    linarith

/-- C6, as amended. For an entry of `planets` with `orbitPeriod = P > 0`, a run of
`animate` calls whose simulated days sum to exactly `P` advances the phase angle by
exactly `2π` and leaves `planet3d` at the orbit position of the phase angle the body had
at the start; that is the position it had at the start whenever it sat on its orbit
then. The spin angle of a body with `rotationPeriod = R ≠ 0` advances by `(P / R) * 2π`. -/
theorem C6_full_period (frames : List ((PlanetKey → Nat → ℝ) × ℝ × ℝ))
    (planetsObj : PlanetsObj) (key : PlanetKey) (planetObj : Body) (orbitPeriod : ℝ)
    (d : EllipticalData)
    (hkey : planetsObj.planets key = some planetObj)
    (hperiod : planetObj.config.physical.orbitPeriod = some orbitPeriod)
    (hpos : 0 < orbitPeriod)
    (hd : planetObj.planet.animationData.ellipse = some d)
    (hsum : simulatedDaysOf frames = orbitPeriod) :
    ∃ after : Body,
      (animateFrames frames planetsObj).planets key = some after ∧
      after.planet.animationData.angle = planetObj.planet.animationData.angle + 2 * Real.pi ∧
      after.planet3d.position =
        some { x := d.a * Real.cos planetObj.planet.animationData.angle - d.c
               y := 0
               z := d.b * Real.sin planetObj.planet.animationData.angle } ∧
      (planetObj.planet3d.position = keplerPosition planetObj.planet.animationData →
        after.planet3d.position = planetObj.planet3d.position) ∧
      (∀ R, planetObj.config.physical.rotationPeriod = some R → R ≠ 0 →
        after.planet.spinY = planetObj.planet.spinY + (orbitPeriod / R) * (2 * Real.pi)) := by
  obtain ⟨orbitPoint_def, -, -, -, -, -, -, -, keplerPosition_def, -, -, -, -, -, -, -, -, -, -, -, -,
      -, -, -, -, -⟩ := unfold_lemmas
  obtain ⟨-, -, -, -, animateFrames_entry, -, -, -, -, -, -, -, -, -, -, -, -, -, -, -,
      -⟩ := frames_lemmas
  obtain ⟨after, hafter, _, he, ha, hs, hp⟩ :=
    animateFrames_entry key orbitPeriod hpos frames planetsObj planetObj hkey hperiod
  have hne : frames ≠ [] := by
    intro hnil
    rw [hnil] at hsum
    simp [simulatedDaysOf] at hsum
    exact absurd hsum.symm (ne_of_gt hpos)
  have hangle : after.planet.animationData.angle =
      planetObj.planet.animationData.angle + 2 * Real.pi := by
    rw [ha, hsum, div_self (ne_of_gt hpos), one_mul]
  have hposn : after.planet3d.position =
      some { x := d.a * Real.cos planetObj.planet.animationData.angle - d.c
             y := 0
             z := d.b * Real.sin planetObj.planet.animationData.angle } := by
    rw [hp hne]
    simp only [keplerPosition_def, he, hd, orbitPoint_def, hangle, Real.cos_add_two_pi,
      Real.sin_add_two_pi]
  refine ⟨after, hafter, hangle, hposn, ?_, ?_⟩
  · intro hstart
    rw [hposn, hstart]
    simp only [keplerPosition_def, hd, orbitPoint_def]
  · intro R hR hRne
    rw [hs R hR hRne, hsum]

/-- C6 as amended at the example of the specification: the Earth of the shipped table
(`a = 90`, `e = 0.017`, `rotationPeriod = 1`, `orbitPeriod = 365.25`), one frame with
`dt = 1` and `timeScale = 365.25`. -/
theorem C6_full_period_witness :
    ((createPlanets (constDraws 0) planetsConfig).planets .earth =
        some (createPlanet "Earth" earthConfig (constDraws 0 3)) ∧
      (createPlanet "Earth" earthConfig (constDraws 0 3)).config.physical.orbitPeriod =
        some 365.25 ∧
      (0 : ℝ) < 365.25 ∧
      (createPlanet "Earth" earthConfig (constDraws 0 3)).planet.animationData.ellipse =
        some (ellipticalData earthConfig.physical) ∧
      simulatedDaysOf [(constMoonDraws 0, 1, 365.25)] = 365.25) ∧
    ∃ after : Body,
      (animateFrames [(constMoonDraws 0, 1, 365.25)]
        (createPlanets (constDraws 0) planetsConfig)).planets .earth = some after ∧
      after.planet.animationData.angle =
        (createPlanet "Earth" earthConfig (constDraws 0 3)).planet.animationData.angle +
          2 * Real.pi ∧
      after.planet3d.position =
        some { x := (ellipticalData earthConfig.physical).a *
                 Real.cos (createPlanet "Earth" earthConfig
                   (constDraws 0 3)).planet.animationData.angle -
                 (ellipticalData earthConfig.physical).c
               y := 0
               z := (ellipticalData earthConfig.physical).b *
                 Real.sin (createPlanet "Earth" earthConfig
                   (constDraws 0 3)).planet.animationData.angle } ∧
      ((createPlanet "Earth" earthConfig (constDraws 0 3)).planet3d.position =
          keplerPosition (createPlanet "Earth" earthConfig (constDraws 0 3)).planet.animationData →
        after.planet3d.position =
          (createPlanet "Earth" earthConfig (constDraws 0 3)).planet3d.position) ∧
      (∀ R, (createPlanet "Earth" earthConfig (constDraws 0 3)).config.physical.rotationPeriod =
          some R → R ≠ 0 →
        after.planet.spinY =
          (createPlanet "Earth" earthConfig (constDraws 0 3)).planet.spinY +
            (365.25 / R) * (2 * Real.pi)) := by
  obtain ⟨-, -, -, -, createPlanet_def, -, -, -, -, -, -, -, -, -, -, -, -, -, -, -, -, -, -, -, -,
      -⟩ := unfold_lemmas
  obtain ⟨-, -, -, -, -, -, -, createPlanets_shipped_earth, -, -, -, -, -, -, -, -, -, -, -, -, -, -,
      -, -, -, -, -, -⟩ := step_lemmas
  exact
    have h1 := createPlanets_shipped_earth (constDraws 0)
    have h2 : (createPlanet "Earth" earthConfig (constDraws 0 3)).config.physical.orbitPeriod =
        some 365.25 := rfl
    have h3 : (0 : ℝ) < 365.25 := by norm_num
    have h4 : (createPlanet "Earth" earthConfig (constDraws 0 3)).planet.animationData.ellipse =
        some (ellipticalData earthConfig.physical) := by simp [createPlanet_def]
    have h5 : simulatedDaysOf [(constMoonDraws 0, 1, 365.25)] = 365.25 := by
      simp [simulatedDaysOf]
    ⟨⟨h1, h2, h3, h4, h5⟩,
      C6_full_period [(constMoonDraws 0, 1, 365.25)] (createPlanets (constDraws 0) planetsConfig)
        .earth (createPlanet "Earth" earthConfig (constDraws 0 3)) 365.25
        (ellipticalData earthConfig.physical) h1 h2 h3 h4 h5⟩

/-! ### The Sun -/

/-- C7. An entry of `planets` whose `orbitPeriod` is `0` keeps its phase angle and its
`planet3d` position in every `animate` call, whatever `dt` and `timeScale`. The Sun built
from any table that has an entry `'Sun'` is at the origin after any run of `animate`
calls, with the phase angle it was created with. -/
theorem C7_no_orbit_no_motion :
    (∀ (rnd : PlanetKey → Nat → ℝ) (dt timeScale : ℝ) (planetsObj : PlanetsObj)
        (key : PlanetKey) (planetObj : Body),
      planetsObj.planets key = some planetObj →
      planetObj.config.physical.orbitPeriod = some 0 →
      ∃ after : Body,
        (animate rnd dt timeScale planetsObj).planets key = some after ∧
        after.planet.animationData.angle = planetObj.planet.animationData.angle ∧
        after.planet3d.position = planetObj.planet3d.position) ∧
    (∀ (draws : Nat → Nat → ℝ) (table : ConfigTable) (config : Config)
        (frames : List ((PlanetKey → Nat → ℝ) × ℝ × ℝ)),
      ("Sun", config) ∈ table →
      ∃ sun0 sun : Body,
        (createPlanets draws table).sun = some sun0 ∧
        (animateFrames frames (createPlanets draws table)).sun = some sun ∧
        sun.planet3d.position = some { x := 0, y := 0, z := 0 } ∧
        sun.planet.position = some { x := 0, y := 0, z := 0 } ∧
        sun.planet.animationData.angle = sun0.planet.animationData.angle) := by
  obtain ⟨-, -, -, -, -, -, -, -, -, -, -, spinBody_def, spinShell_def, animatePlanet_def, -, -, -, -,
      -, -, -, -, -, -, -, -⟩ := unfold_lemmas
  obtain ⟨animate_planets, animateEntry_planet, animateEntry_planet3d, -, advanceOrbit_of_not_pos,
      spinPlanet_animationData, -, -, -, -, -, -, -, -, -, -, -, -, -, -, -, -, -, -, -, -, -,
      -⟩ := step_lemmas
  obtain ⟨-, -, -, -, -, -, registerAll_sun, animateFrames_sun, -, -, -, -, -, -, -, -, -, -, -, -,
      -⟩ := frames_lemmas
  constructor
  · intro rnd dt timeScale planetsObj key planetObj hkey hzero
    refine ⟨animateEntry (rnd key) (dt * timeScale) key planetObj, ?_, ?_, ?_⟩
    · rw [animate_planets, hkey]
      rfl
    · rw [animateEntry_planet]
      simp only [animatePlanet_def, spinShell_def, spinBody_def]
      rw [advanceOrbit_of_not_pos]
      · simp only [spinPlanet_animationData]
      · intro P hP
        simp only at hP
        rw [hzero] at hP
        cases hP
        exact le_refl 0
    · rw [animateEntry_planet3d]
      simp only [animatePlanet_def, spinShell_def, spinBody_def]
      rw [advanceOrbit_of_not_pos]
      intro P hP
      simp only at hP
      rw [hzero] at hP
      cases hP
      exact le_refl 0
  · intro draws table config frames hmem
    obtain ⟨horigin, hsome⟩ := registerAll_sun draws table 0
      { sun := none, byName := fun _ => none, raycastTargets := [] }
      (fun sun hsun => by cases hsun)
    have hstart : (createPlanets draws table).sun.isSome = true := hsome (Or.inr ⟨config, hmem⟩)
    obtain ⟨hiso, hrun⟩ := animateFrames_sun frames (createPlanets draws table)
    have hend : (animateFrames frames (createPlanets draws table)).sun.isSome = true := by
      rw [hiso]
      exact hstart
    obtain ⟨sun, hsun⟩ := Option.isSome_iff_exists.1 hend
    obtain ⟨sun0, hsun0, ha, hb, hc⟩ := hrun sun hsun
    obtain ⟨ho1, ho2⟩ := horigin sun0 hsun0
    exact ⟨sun0, sun, hsun0, hsun, by rw [ha]; exact ho1, by rw [hb]; exact ho2, by rw [hc]⟩

/-- C7 on the table `stillTable`: the body registered as `pluto` has `orbitPeriod = 0`
and keeps its angle and position in a frame with `dt = 1`, `timeScale = 150`. -/
theorem C7_no_orbit_no_motion_witness :
    ((createPlanets (constDraws 0) stillTable).planets .pluto =
        some (createPlanet "Pluto" sunConfig (constDraws 0 1)) ∧
      (createPlanet "Pluto" sunConfig (constDraws 0 1)).config.physical.orbitPeriod = some 0) ∧
    ∃ after : Body,
      (animate (constMoonDraws 0) 1 150 (createPlanets (constDraws 0) stillTable)).planets .pluto =
        some after ∧
      after.planet.animationData.angle =
        (createPlanet "Pluto" sunConfig (constDraws 0 1)).planet.animationData.angle ∧
      after.planet3d.position = (createPlanet "Pluto" sunConfig (constDraws 0 1)).planet3d.position := by
  obtain ⟨-, -, -, -, -, -, -, -, createPlanets_stillTable_pluto, -, -, -, -, -, -, -, -, -, -, -,
      -⟩ := frames_lemmas
  exact
    have h1 := createPlanets_stillTable_pluto (constDraws 0)
    have h2 : (createPlanet "Pluto" sunConfig (constDraws 0 1)).config.physical.orbitPeriod =
        some 0 := rfl
    ⟨⟨h1, h2⟩,
      C7_no_orbit_no_motion.1 (constMoonDraws 0) 1 150 (createPlanets (constDraws 0) stillTable)
        .pluto (createPlanet "Pluto" sunConfig (constDraws 0 1)) h1 h2⟩

/-! ### Spin -/

/-- C8, counterexample. A table whose Sun has `rotationPeriod = 0`: one `animate` call with
`dt = 1` and `timeScale = 27` turns the Sun by `2π`, since its period is
`rotationPeriod || 27`. -/
theorem C8_counterexample_sun :
    ∃ before after : Body,
      (createPlanets (constDraws 0) [("Sun", sunNoSpinConfig)]).sun = some before ∧
      before.config.physical.rotationPeriod = some 0 ∧
      (animate (constMoonDraws 0) 1 27
        (createPlanets (constDraws 0) [("Sun", sunNoSpinConfig)])).sun = some after ∧
      after.planet.spinY = before.planet.spinY + 2 * Real.pi ∧
      after.planet.spinY ≠ before.planet.spinY := by
  obtain ⟨-, -, -, -, createPlanet_def, createPlanets_def, rotateSun_def, -, -, -, -, -, -, -, -, -,
      animate_def, -, -, -, registerAll_nil, registerAll_cons, -, -, -, -⟩ := unfold_lemmas
  have hspin : (rotateSun (1 * 27) (createPlanet "Sun" sunNoSpinConfig (constDraws 0 0))).planet.spinY =
      (createPlanet "Sun" sunNoSpinConfig (constDraws 0 0)).planet.spinY + 2 * Real.pi := by
    simp [rotateSun_def, createPlanet_def, sunNoSpinConfig, sunConfig, physicalOf, orElse]
  refine ⟨createPlanet "Sun" sunNoSpinConfig (constDraws 0 0),
    rotateSun (1 * 27) (createPlanet "Sun" sunNoSpinConfig (constDraws 0 0)), ?_, ?_, ?_, hspin, ?_⟩
  · simp [createPlanets_def, registerAll_nil, registerAll_cons, registerBody]
  · rfl
  · simp [animate_def, createPlanets_def, registerAll_nil, registerAll_cons, registerBody]
  · rw [hspin]
    have hpi : 0 < 2 * Real.pi := by positivity
    intro h
    linarith

/-- C8, as amended. In one `animate` call with simulated days `d = dt * timeScale`, an
entry of `planets` and the Sun turn about their own Y axis by `(d / R) * 2π` when their
`rotationPeriod` is `R ≠ 0`; for `d > 0` that increment is negative exactly when `R` is
negative. An entry of `planets` whose `rotationPeriod` is `0` or missing is not turned;
the Sun whose `rotationPeriod` is `0` or missing turns by `(d / 27) * 2π`. -/
theorem C8_spin (rnd : PlanetKey → Nat → ℝ) (dt timeScale : ℝ) (planetsObj : PlanetsObj) :
    (∀ (key : PlanetKey) (planetObj : Body) (R : ℝ),
      planetsObj.planets key = some planetObj →
      planetObj.config.physical.rotationPeriod = some R → R ≠ 0 →
      ∃ after : Body,
        (animate rnd dt timeScale planetsObj).planets key = some after ∧
        after.planet.spinY = planetObj.planet.spinY + (dt * timeScale / R) * (2 * Real.pi)) ∧
    (∀ (sun : Body) (R : ℝ),
      planetsObj.sun = some sun →
      sun.config.physical.rotationPeriod = some R → R ≠ 0 →
      ∃ after : Body,
        (animate rnd dt timeScale planetsObj).sun = some after ∧
        after.planet.spinY = sun.planet.spinY + (dt * timeScale / R) * (2 * Real.pi)) ∧
    (∀ R : ℝ, 0 < dt * timeScale → R ≠ 0 →
      ((dt * timeScale / R) * (2 * Real.pi) < 0 ↔ R < 0)) ∧
    (∀ (key : PlanetKey) (planetObj : Body),
      planetsObj.planets key = some planetObj →
      (∀ R, planetObj.config.physical.rotationPeriod = some R → R = 0) →
      ∃ after : Body,
        (animate rnd dt timeScale planetsObj).planets key = some after ∧
        after.planet.spinY = planetObj.planet.spinY) ∧
    (∀ sun : Body,
      planetsObj.sun = some sun →
      (∀ R, sun.config.physical.rotationPeriod = some R → R = 0) →
      ∃ after : Body,
        (animate rnd dt timeScale planetsObj).sun = some after ∧
        after.planet.spinY = sun.planet.spinY + (dt * timeScale / 27) * (2 * Real.pi)) := by
  obtain ⟨-, -, -, -, -, -, rotateSun_def, -, -, -, -, -, -, -, -, -, animate_def, -, -, -, -, -, -, -,
      -, -⟩ := unfold_lemmas
  obtain ⟨-, orElse_of_ne_zero, -, -⟩ := orbit_geometry
  obtain ⟨animate_planets, -, -, -, -, -, -, -, -, -, -, -, -, -, -, -, -, -, -, -, -, -, -, -, -, -,
      -, -⟩ := step_lemmas
  obtain ⟨-, -, animateEntry_spinY_of_ne, animateEntry_spinY_of_zero, -, -, -, -, -, -,
      spin_increment_neg_iff, -, -, -, -, -, -, -, -, -, -⟩ := frames_lemmas
  refine ⟨?_, ?_, ?_, ?_, ?_⟩
  · intro key planetObj R hkey hR hne
    refine ⟨animateEntry (rnd key) (dt * timeScale) key planetObj, ?_, ?_⟩
    · rw [animate_planets, hkey]
      rfl
    · rw [animateEntry_spinY_of_ne _ _ _ _ R hR hne]
      ring
  · intro sun R hsun hR hne
    refine ⟨rotateSun (dt * timeScale) sun, ?_, ?_⟩
    · simp [animate_def, hsun]
    · simp only [rotateSun_def, hR, orElse_of_ne_zero R 27 hne]
      ring
  · intro R hd hne
    exact spin_increment_neg_iff (dt * timeScale) R hd hne
  · intro key planetObj hkey hzero
    refine ⟨animateEntry (rnd key) (dt * timeScale) key planetObj, ?_, ?_⟩
    · rw [animate_planets, hkey]
      rfl
    · exact animateEntry_spinY_of_zero _ _ _ _ hzero
  · intro sun hsun hzero
    refine ⟨rotateSun (dt * timeScale) sun, ?_, ?_⟩
    · simp [animate_def, hsun]
    · have hper : orElse sun.config.physical.rotationPeriod 27 = 27 := by
        cases hR : sun.config.physical.rotationPeriod with
        | none => rfl
        | some R => simp [orElse, hzero R hR]
      simp only [rotateSun_def, hper]
      ring

/-- C8 as amended, for Venus of the shipped table (`rotationPeriod = -243`) in a frame
with `dt = 1`, `timeScale = 1`: the spin increment is `(1 / -243) * 2π`, and negative. -/
theorem C8_spin_witness :
    ((createPlanets (constDraws 0) planetsConfig).planets .venus =
        some (createPlanet "Venus" venusConfig (constDraws 0 2)) ∧
      (createPlanet "Venus" venusConfig (constDraws 0 2)).config.physical.rotationPeriod =
        some (-243) ∧
      (-243 : ℝ) ≠ 0 ∧ (0 : ℝ) < 1 * 1) ∧
    (∃ after : Body,
      (animate (constMoonDraws 0) 1 1 (createPlanets (constDraws 0) planetsConfig)).planets
        .venus = some after ∧
      after.planet.spinY =
        (createPlanet "Venus" venusConfig (constDraws 0 2)).planet.spinY +
          (1 * 1 / (-243)) * (2 * Real.pi)) ∧
    (((1 : ℝ) * 1 / (-243)) * (2 * Real.pi) < 0 ↔ (-243 : ℝ) < 0) := by
  obtain ⟨-, -, -, -, -, -, -, -, -, createPlanets_shipped_venus, -, -, -, -, -, -, -, -, -, -,
      -⟩ := frames_lemmas
  exact
    have h1 := createPlanets_shipped_venus (constDraws 0)
    have h2 : (createPlanet "Venus" venusConfig (constDraws 0 2)).config.physical.rotationPeriod =
        some (-243) := rfl
    have h3 : (-243 : ℝ) ≠ 0 := by norm_num
    have h4 : (0 : ℝ) < 1 * 1 := by norm_num
    ⟨⟨h1, h2, h3, h4⟩,
      (C8_spin (constMoonDraws 0) 1 1 (createPlanets (constDraws 0) planetsConfig)).1 .venus
        (createPlanet "Venus" venusConfig (constDraws 0 2)) (-243) h1 h2 h3,
      (C8_spin (constMoonDraws 0) 1 1 (createPlanets (constDraws 0) planetsConfig)).2.2.1
        (-243) h4 h3⟩

/-! ### Moons -/

/-- C9, counterexample. On the state `createPlanets` returns for the shipped table with
all random draws `1/2`, the Moon has phase angle `π` and its mesh is at `(10, 0, 0)`.
One `animate` call with `dt = 1` and `timeScale = 27.3` (simulated days `27.3`, the
Moon's `orbitPeriod`) advances the phase by `2π` and puts the mesh at `(-10, 0, 0)`. -/
theorem C9_counterexample_start_state :
    ∃ (planetObj after : Body) (moon moon' : Moon) (mesh mesh' : MoonMesh),
      (createPlanets (constDraws (1 / 2)) planetsConfig).planets .earth = some planetObj ∧
      planetObj.moons = [moon] ∧ moon.mesh = some mesh ∧
      moon.config.orbitRadius = 10 ∧ moon.config.orbitPeriod = some (1 * 27.3) ∧
      moon.angle = some Real.pi ∧
      (animate (constMoonDraws 0) 1 27.3
        (createPlanets (constDraws (1 / 2)) planetsConfig)).planets .earth = some after ∧
      after.moons = [moon'] ∧ moon'.mesh = some mesh' ∧
      moon'.angle = some (Real.pi + 2 * Real.pi) ∧
      mesh.position = some { x := 10, y := 0, z := 0 } ∧
      mesh'.position = some { x := -10, y := 0, z := 0 } ∧
      mesh'.position ≠ mesh.position := by
  obtain ⟨-, -, -, createMoon_def, -, -, -, -, -, -, -, -, -, -, -, -, -, -, -, -, -, -,
      updateMoons_nil, updateMoons_cons, -, -⟩ := unfold_lemmas
  obtain ⟨animate_planets, -, -, -, -, -, -, createPlanets_shipped_earth, -, -, -, -, -, -, -,
      animatePlanet_moons, -, -, -, -, -, -, -, -, animateEntry_of_animated, -, -, -⟩ := step_lemmas
  obtain ⟨-, -, -, -, -, -, -, -, -, -, -, updateMoon_of_mesh, createPlanet_earth_moons, -, -, -, -, -,
      -, -, -⟩ := frames_lemmas
  have hmoon : (createMoon (sphereMoon 1.6 10 27.3 true) (1 / 2)) =
      { config := sphereMoon 1.6 10 27.3 true
        angle := some Real.pi
        mesh := some { position := some { x := 10, y := 0, z := 0 }, spinY := 0 } } := by
    simp only [createMoon_def, sphereMoon, Bool.false_eq_true, if_false, Moon.mk.injEq,
      Option.some.injEq, true_and, and_true]
    ring
  have hne : (27.3 : ℝ) ≠ 0 := by norm_num
  have hone : (1 * 27.3 / 27.3 : ℝ) = 1 := by norm_num
  have hupd := updateMoon_of_mesh (1 * 27.3) (constMoonDraws 0 .earth 0)
    { config := sphereMoon 1.6 10 27.3 true
      angle := some Real.pi
      mesh := some { position := some { x := 10, y := 0, z := 0 }, spinY := 0 } }
    { position := some { x := 10, y := 0, z := 0 }, spinY := 0 } Real.pi 27.3
    rfl rfl rfl hne
  rw [hone] at hupd
  have hpos : (updateMoon (1 * 27.3) (constMoonDraws 0 .earth 0)
      { config := sphereMoon 1.6 10 27.3 true
        angle := some Real.pi
        mesh := some { position := some { x := 10, y := 0, z := 0 }, spinY := 0 } }) =
      { config := sphereMoon 1.6 10 27.3 true
        angle := some (Real.pi + 2 * Real.pi)
        mesh := some { position := some { x := -10, y := 0, z := 0 },
                       spinY := 0 + 1 * 2 * Real.pi } } := by
    rw [hupd]
    simp [sphereMoon, Real.cos_add_two_pi, Real.sin_add_two_pi]
  refine ⟨createPlanet "Earth" earthConfig (constDraws (1 / 2) 3),
    animateEntry (constMoonDraws 0 .earth) (1 * 27.3) .earth
      (createPlanet "Earth" earthConfig (constDraws (1 / 2) 3)),
    { config := sphereMoon 1.6 10 27.3 true
      angle := some Real.pi
      mesh := some { position := some { x := 10, y := 0, z := 0 }, spinY := 0 } },
    { config := sphereMoon 1.6 10 27.3 true
      angle := some (Real.pi + 2 * Real.pi)
      mesh := some { position := some { x := -10, y := 0, z := 0 },
                     spinY := 0 + 1 * 2 * Real.pi } },
    { position := some { x := 10, y := 0, z := 0 }, spinY := 0 },
    { position := some { x := -10, y := 0, z := 0 }, spinY := 0 + 1 * 2 * Real.pi },
    ?_, ?_, rfl, rfl, ?_, rfl, ?_, ?_, rfl, rfl, rfl, rfl, ?_⟩
  · exact createPlanets_shipped_earth _
  · rw [createPlanet_earth_moons, ← hmoon]
    rfl
  · simp [sphereMoon]
  · rw [animate_planets, createPlanets_shipped_earth]
    rfl
  · rw [animateEntry_of_animated _ _ .earth _ rfl]
    simp only [animatePlanet_moons, createPlanet_earth_moons, updateMoons_nil, updateMoons_cons]
    have hd : constDraws (1 / 2) 3 1 = 1 / 2 := rfl
    rw [hd, hmoon, hpos]
  · simp only [ne_eq, Option.some.injEq, Vec3.mk.injEq, and_true]
    norm_num

/-- C9, as amended. For a satellite with a mesh, phase angle `angle`, orbit radius `r`
and `orbitPeriod = P > 0`, `updateMoon` with simulated days exactly `P` advances the
phase by `2π` and puts the mesh at the local position `(r cos angle, 0, r sin angle)` of
the phase it had at the start; that is the position it had at the start whenever the
mesh sat on its orbit then. -/
theorem C9_moon_full_period (r : ℝ) (moon : Moon) (mesh : MoonMesh) (angle P : ℝ)
    (hmesh : moon.mesh = some mesh) (hangle : moon.angle = some angle)
    (hP : moon.config.orbitPeriod = some P) (hpos : 0 < P) :
    ∃ mesh' : MoonMesh,
      (updateMoon P r moon).mesh = some mesh' ∧
      (updateMoon P r moon).angle = some (angle + 2 * Real.pi) ∧
      mesh'.position =
        some { x := moon.config.orbitRadius * Real.cos angle
               y := 0
               z := moon.config.orbitRadius * Real.sin angle } ∧
      (moon.onOrbit → mesh'.position = mesh.position) := by
  obtain ⟨-, -, -, -, -, -, -, -, -, -, -, updateMoon_of_mesh, -, -, -, -, -, -, -, -,
      -⟩ := frames_lemmas
  have hne : P ≠ 0 := ne_of_gt hpos
  have hupd := updateMoon_of_mesh P r moon mesh angle P hmesh hangle hP hne
  have hone : P / P * 2 * Real.pi = 2 * Real.pi := by
    rw [div_self hne, one_mul]
  rw [hone] at hupd
  refine ⟨_, by rw [hupd], by rw [hupd], ?_, ?_⟩
  · simp only [Real.cos_add_two_pi, Real.sin_add_two_pi]
  · intro hon
    obtain ⟨angle0, h0, hposn⟩ := hon mesh hmesh
    rw [hangle] at h0
    cases h0
    rw [hposn]
    simp only [Real.cos_add_two_pi, Real.sin_add_two_pi]

/-- C9 as amended at the example of the specification: `orbitRadius = 10`,
`orbitPeriod = 27.3`, simulated days `27.3`, for the Moon after one `updateMoon`. -/
theorem C9_moon_full_period_witness :
    ((updateMoon 1 0 (createMoon (sphereMoon 1.6 10 27.3 true) 0)).mesh =
        some { position := some { x := 10 * Real.cos (0 * Real.pi * 2 + 1 / 27.3 * 2 * Real.pi)
                                  y := 0
                                  z := 10 * Real.sin (0 * Real.pi * 2 + 1 / 27.3 * 2 * Real.pi) }
               spinY := 0 + 1 / 27.3 * 2 * Real.pi } ∧
      (updateMoon 1 0 (createMoon (sphereMoon 1.6 10 27.3 true) 0)).angle =
        some (0 * Real.pi * 2 + 1 / 27.3 * 2 * Real.pi) ∧
      (updateMoon 1 0 (createMoon (sphereMoon 1.6 10 27.3 true) 0)).config.orbitPeriod =
        some 27.3 ∧
      (0 : ℝ) < 27.3) ∧
    ∃ mesh' : MoonMesh,
      (updateMoon 27.3 0 (updateMoon 1 0 (createMoon (sphereMoon 1.6 10 27.3 true) 0))).mesh =
        some mesh' ∧
      (updateMoon 27.3 0 (updateMoon 1 0 (createMoon (sphereMoon 1.6 10 27.3 true) 0))).angle =
        some (0 * Real.pi * 2 + 1 / 27.3 * 2 * Real.pi + 2 * Real.pi) ∧
      mesh'.position =
        some { x := (updateMoon 1 0 (createMoon (sphereMoon 1.6 10 27.3 true) 0)).config.orbitRadius *
                 Real.cos (0 * Real.pi * 2 + 1 / 27.3 * 2 * Real.pi)
               y := 0
               z := (updateMoon 1 0 (createMoon (sphereMoon 1.6 10 27.3 true) 0)).config.orbitRadius *
                 Real.sin (0 * Real.pi * 2 + 1 / 27.3 * 2 * Real.pi) } ∧
      ((updateMoon 1 0 (createMoon (sphereMoon 1.6 10 27.3 true) 0)).onOrbit →
        mesh'.position =
          (some { x := 10 * Real.cos (0 * Real.pi * 2 + 1 / 27.3 * 2 * Real.pi)
                  y := 0
                  z := 10 * Real.sin (0 * Real.pi * 2 + 1 / 27.3 * 2 * Real.pi) } : Option Vec3)) := by
  obtain ⟨-, -, -, createMoon_def, -, -, -, -, -, -, -, -, -, -, -, -, -, -, -, -, -, -, -, -, -,
      -⟩ := unfold_lemmas
  obtain ⟨-, -, -, -, -, -, -, -, -, -, -, updateMoon_config, -, -, -, -, -, -, -, -, -,
      -⟩ := zero_step_lemmas
  obtain ⟨-, -, -, -, -, -, -, -, -, -, -, updateMoon_of_mesh, -, -, -, -, -, -, -, -,
      -⟩ := frames_lemmas
  exact
    have hne : (27.3 : ℝ) ≠ 0 := by norm_num
    have hupd := updateMoon_of_mesh 1 0 (createMoon (sphereMoon 1.6 10 27.3 true) 0)
      { position := some { x := 10, y := 0, z := 0 }, spinY := 0 } (0 * Real.pi * 2) 27.3
      (by simp [createMoon_def, sphereMoon]) rfl rfl hne
    have h1 : (updateMoon 1 0 (createMoon (sphereMoon 1.6 10 27.3 true) 0)).mesh =
        some { position := some { x := 10 * Real.cos (0 * Real.pi * 2 + 1 / 27.3 * 2 * Real.pi)
                                  y := 0
                                  z := 10 * Real.sin (0 * Real.pi * 2 + 1 / 27.3 * 2 * Real.pi) }
               spinY := 0 + 1 / 27.3 * 2 * Real.pi } := by
      rw [hupd]
      rfl
    have h2 : (updateMoon 1 0 (createMoon (sphereMoon 1.6 10 27.3 true) 0)).angle =
        some (0 * Real.pi * 2 + 1 / 27.3 * 2 * Real.pi) := by
      rw [hupd]
    have h3 : (updateMoon 1 0 (createMoon (sphereMoon 1.6 10 27.3 true) 0)).config.orbitPeriod =
        some 27.3 := by
      rw [updateMoon_config]
      rfl
    have h4 : (0 : ℝ) < 27.3 := by norm_num
    ⟨⟨h1, h2, h3, h4⟩,
      C9_moon_full_period 0 (updateMoon 1 0 (createMoon (sphereMoon 1.6 10 27.3 true) 0)) _ _ 27.3
        h1 h2 h3 h4⟩

/-- C10, counterexample. A table whose Saturn owns one textured moon (`orbitRadius = 40`,
`orbitPeriod = 10`): `createPlanet` gives the moon a mesh, at `(40, 0, 0)` with phase
angle `0` for the random draw `0`, and an `animate` call with `dt = 1`, `timeScale = 1`
leaves the moon as it is: the phase is not advanced by `(1 / 10) * 2π`. -/
theorem C10_counterexample_saturn_moon :
    ∃ (planetObj after : Body) (moon : Moon) (mesh : MoonMesh),
      (createPlanets (constDraws 0) [("Saturn", saturnWithMoonConfig)]).planets .saturn =
        some planetObj ∧
      planetObj.moons = [moon] ∧ moon.mesh = some mesh ∧
      moon.config.orbitPeriod = some 10 ∧ moon.angle = some 0 ∧
      (animate (constMoonDraws 0) 1 1
        (createPlanets (constDraws 0) [("Saturn", saturnWithMoonConfig)])).planets .saturn =
        some after ∧
      after.moons = [moon] ∧
      moon.angle ≠ some (0 + (1 * 1 / 10) * (2 * Real.pi)) := by
  obtain ⟨-, -, -, createMoon_def, createPlanet_def, -, -, -, -, -, -, -, -, -, -, -, -, -,
      createMoons_nil, createMoons_cons, -, -, -, -, -, -⟩ := unfold_lemmas
  obtain ⟨animate_planets, -, -, -, -, -, -, -, -, -, -, -, -, -, -, animatePlanet_moons, -, -, -, -,
      -, -, -, -, -, animateEntry_of_not_animated, -, -⟩ := step_lemmas
  obtain ⟨-, -, -, -, -, -, -, -, -, -, -, -, -, createPlanets_saturn_only, -, -, -, -, -, -,
      -⟩ := frames_lemmas
  have hmoons : (createPlanet "Saturn" saturnWithMoonConfig (constDraws 0 0)).moons =
      [{ config := sphereMoon 1 40 10 false
         angle := some 0
         mesh := some { position := some { x := 40, y := 0, z := 0 }, spinY := 0 } }] := by
    simp [createPlanet_def, saturnWithMoonConfig, createMoons_nil, createMoons_cons, createMoon_def, sphereMoon, constDraws]
  refine ⟨createPlanet "Saturn" saturnWithMoonConfig (constDraws 0 0),
    animateEntry (constMoonDraws 0 .saturn) (1 * 1) .saturn
      (createPlanet "Saturn" saturnWithMoonConfig (constDraws 0 0)),
    { config := sphereMoon 1 40 10 false
      angle := some 0
      mesh := some { position := some { x := 40, y := 0, z := 0 }, spinY := 0 } },
    { position := some { x := 40, y := 0, z := 0 }, spinY := 0 },
    createPlanets_saturn_only _ _, hmoons, rfl, rfl, rfl, ?_, ?_, ?_⟩
  · rw [animate_planets, createPlanets_saturn_only]
    rfl
  · rw [animateEntry_of_not_animated _ _ .saturn _ rfl, animatePlanet_moons, hmoons]
  · simp only [ne_eq, Option.some.injEq]
    have hpi : 0 < Real.pi := Real.pi_pos
    intro h
    nlinarith

/-- C10, as amended. For the entries `earth`, `mars` and `jupiter` of `planets`, one
`animate` call with simulated days `d = dt * timeScale` advances the phase of every
satellite that has a mesh, a phase angle and an `orbitPeriod ≠ 0` by
`(d / orbitPeriod) * 2π` and places its mesh at the local position
`(r cos angle, 0, r sin angle)`, at distance `|r|` from the parent's origin, where
`r = orbitRadius`. The satellites of the other entries are left as they are. -/
theorem C10_moons_step (rnd : PlanetKey → Nat → ℝ) (dt timeScale : ℝ) (planetsObj : PlanetsObj)
    (key : PlanetKey) (planetObj : Body) (hkey : planetsObj.planets key = some planetObj) :
    ((key = .earth ∨ key = .mars ∨ key = .jupiter) →
      ∀ (i : Nat) (moon : Moon) (mesh : MoonMesh) (angle P : ℝ),
        planetObj.moons[i]? = some moon → moon.mesh = some mesh →
        moon.angle = some angle → moon.config.orbitPeriod = some P → P ≠ 0 →
        ∃ (after : Body) (moon' : Moon) (mesh' : MoonMesh) (p : Vec3),
          (animate rnd dt timeScale planetsObj).planets key = some after ∧
          after.moons[i]? = some moon' ∧ moon'.mesh = some mesh' ∧
          moon'.angle = some (angle + (dt * timeScale / P) * (2 * Real.pi)) ∧
          mesh'.position = some p ∧
          p = { x := moon.config.orbitRadius *
                  Real.cos (angle + (dt * timeScale / P) * (2 * Real.pi))
                y := 0
                z := moon.config.orbitRadius *
                  Real.sin (angle + (dt * timeScale / P) * (2 * Real.pi)) } ∧
          Real.sqrt (p.x ^ 2 + p.z ^ 2) = |moon.config.orbitRadius|) ∧
    (¬ (key = .earth ∨ key = .mars ∨ key = .jupiter) →
      ∃ after : Body,
        (animate rnd dt timeScale planetsObj).planets key = some after ∧
        after.moons = planetObj.moons) := by
  obtain ⟨animate_planets, -, -, -, -, -, -, -, -, -, -, -, -, -, -, animatePlanet_moons, -, -, -, -,
      -, -, -, -, animateEntry_of_animated, animateEntry_of_not_animated, -, -⟩ := step_lemmas
  obtain ⟨-, -, -, -, -, -, -, -, -, updateMoons_getElem?, -, -, -, -, -, -, -, -, -, -, -,
      -⟩ := zero_step_lemmas
  obtain ⟨-, -, -, -, -, -, -, -, -, -, -, updateMoon_of_mesh, -, -, -, -, -, -, -, -,
      -⟩ := frames_lemmas
  have hstep : (animate rnd dt timeScale planetsObj).planets key =
      some (animateEntry (rnd key) (dt * timeScale) key planetObj) := by
    rw [animate_planets, hkey]
    rfl
  constructor
  · intro hk i moon mesh angle P hmoon hmesh hangle hP hne
    have hanim : moonsAnimated key = true := by
      rcases hk with rfl | rfl | rfl <;> rfl
    have hupd := updateMoon_of_mesh (dt * timeScale) (rnd key (0 + i)) moon mesh angle P
      hmesh hangle hP hne
    have hang : angle + dt * timeScale / P * 2 * Real.pi =
        angle + (dt * timeScale / P) * (2 * Real.pi) := by ring
    rw [hang] at hupd
    refine ⟨_, updateMoon (dt * timeScale) (rnd key (0 + i)) moon, _, _, hstep, ?_,
      by rw [hupd], by rw [hupd], rfl, rfl, ?_⟩
    · rw [animateEntry_of_animated _ _ _ _ hanim]
      simp only [animatePlanet_moons, updateMoons_getElem?, hmoon, Option.map_some']
    · simp only
      have hsq : (moon.config.orbitRadius *
            Real.cos (angle + (dt * timeScale / P) * (2 * Real.pi))) ^ 2 +
          (moon.config.orbitRadius *
            Real.sin (angle + (dt * timeScale / P) * (2 * Real.pi))) ^ 2 =
          moon.config.orbitRadius ^ 2 := by
        have := Real.sin_sq_add_cos_sq (angle + (dt * timeScale / P) * (2 * Real.pi))
        nlinarith
      rw [hsq]
      exact Real.sqrt_sq_eq_abs _
  · intro hk
    have hanim : moonsAnimated key = false := by
      cases key <;> simp_all [moonsAnimated]
    refine ⟨_, hstep, ?_⟩
    rw [animateEntry_of_not_animated _ _ _ _ hanim, animatePlanet_moons]

/-- C10 as amended, for the Moon of the shipped table (`orbitRadius = 10`,
`orbitPeriod = 27.3`) in a frame with `dt = 1`, `timeScale = 1`. -/
theorem C10_moons_step_witness :
    ((createPlanets (constDraws 0) planetsConfig).planets .earth =
        some (createPlanet "Earth" earthConfig (constDraws 0 3)) ∧
      (PlanetKey.earth = .earth ∨ PlanetKey.earth = .mars ∨ PlanetKey.earth = .jupiter) ∧
      (createPlanet "Earth" earthConfig (constDraws 0 3)).moons[0]? =
        some (createMoon (sphereMoon 1.6 10 27.3 true) 0) ∧
      (createMoon (sphereMoon 1.6 10 27.3 true) 0).mesh =
        some { position := some { x := 10, y := 0, z := 0 }, spinY := 0 } ∧
      (createMoon (sphereMoon 1.6 10 27.3 true) 0).angle = some (0 * Real.pi * 2) ∧
      (createMoon (sphereMoon 1.6 10 27.3 true) 0).config.orbitPeriod = some 27.3 ∧
      (27.3 : ℝ) ≠ 0) ∧
    ∃ (after : Body) (moon' : Moon) (mesh' : MoonMesh) (p : Vec3),
      (animate (constMoonDraws 0) 1 1 (createPlanets (constDraws 0) planetsConfig)).planets
        .earth = some after ∧
      after.moons[0]? = some moon' ∧ moon'.mesh = some mesh' ∧
      moon'.angle = some (0 * Real.pi * 2 + (1 * 1 / 27.3) * (2 * Real.pi)) ∧
      mesh'.position = some p ∧
      p = { x := (createMoon (sphereMoon 1.6 10 27.3 true) 0).config.orbitRadius *
              Real.cos (0 * Real.pi * 2 + (1 * 1 / 27.3) * (2 * Real.pi))
            y := 0
            z := (createMoon (sphereMoon 1.6 10 27.3 true) 0).config.orbitRadius *
              Real.sin (0 * Real.pi * 2 + (1 * 1 / 27.3) * (2 * Real.pi)) } ∧
      Real.sqrt (p.x ^ 2 + p.z ^ 2) = |(createMoon (sphereMoon 1.6 10 27.3 true) 0).config.orbitRadius| := by
  obtain ⟨-, -, -, createMoon_def, -, -, -, -, -, -, -, -, -, -, -, -, -, -, -, -, -, -, -, -, -,
      -⟩ := unfold_lemmas
  obtain ⟨-, -, -, -, -, -, -, createPlanets_shipped_earth, -, -, -, -, -, -, -, -, -, -, -, -, -, -,
      -, -, -, -, -, -⟩ := step_lemmas
  obtain ⟨-, -, -, -, -, -, -, -, -, -, -, -, createPlanet_earth_moons, -, -, -, -, -, -, -,
      -⟩ := frames_lemmas
  exact
    have h1 := createPlanets_shipped_earth (constDraws 0)
    have h2 : (PlanetKey.earth = .earth ∨ PlanetKey.earth = .mars ∨ PlanetKey.earth = .jupiter) :=
      Or.inl rfl
    have h3 : (createPlanet "Earth" earthConfig (constDraws 0 3)).moons[0]? =
        some (createMoon (sphereMoon 1.6 10 27.3 true) 0) := by
      rw [createPlanet_earth_moons]
      rfl
    have h4 : (createMoon (sphereMoon 1.6 10 27.3 true) 0).mesh =
        some { position := some { x := 10, y := 0, z := 0 }, spinY := 0 } := by
      simp [createMoon_def, sphereMoon]
    have h5 : (createMoon (sphereMoon 1.6 10 27.3 true) 0).angle = some (0 * Real.pi * 2) := rfl
    have h6 : (createMoon (sphereMoon 1.6 10 27.3 true) 0).config.orbitPeriod = some 27.3 := rfl
    have h7 : (27.3 : ℝ) ≠ 0 := by norm_num
    ⟨⟨h1, h2, h3, h4, h5, h6, h7⟩,
      (C10_moons_step (constMoonDraws 0) 1 1 (createPlanets (constDraws 0) planetsConfig) .earth
        (createPlanet "Earth" earthConfig (constDraws 0 3)) h1).1 h2 0
        (createMoon (sphereMoon 1.6 10 27.3 true) 0) _ _ 27.3 h3 h4 h5 h6 h7⟩

/-! ### Moons without a mesh -/

/-- C11. A satellite whose mesh is still `null` is inert: after an `animate` call, for
any `dt` and `timeScale`, the moon object is the same as before (same phase angle, still
no mesh, so no position was written). A moon that `createPlanet` builds from a config
with a `modelPath` starts without a mesh. -/
theorem C11_null_mesh_inert (rnd : PlanetKey → Nat → ℝ) (dt timeScale : ℝ)
    (planetsObj : PlanetsObj) (key : PlanetKey) (planetObj : Body) (i : Nat) (moon : Moon)
    (hkey : planetsObj.planets key = some planetObj)
    (hmoon : planetObj.moons[i]? = some moon) (hmesh : moon.mesh = none) :
    (∃ after : Body,
      (animate rnd dt timeScale planetsObj).planets key = some after ∧
      after.moons[i]? = some moon) ∧
    (∀ (moonConfig : MoonConfig) (r : ℝ) (path : String),
      moonConfig.modelPath = some path → path ≠ "" → (createMoon moonConfig r).mesh = none) := by
  obtain ⟨animate_planets, -, -, -, -, -, -, -, -, -, -, -, -, -, -, animatePlanet_moons, -, -, -, -,
      -, -, -, -, animateEntry_of_animated, animateEntry_of_not_animated, -, -⟩ := step_lemmas
  obtain ⟨-, -, -, -, -, -, -, -, -, updateMoons_getElem?, -, -, -, -, -, -, -, -, -, -, -,
      -⟩ := zero_step_lemmas
  obtain ⟨-, -, -, -, -, -, -, -, -, -, -, -, -, -, updateMoon_of_no_mesh, createMoon_modelled, -, -,
      -, -, -⟩ := frames_lemmas
  refine ⟨⟨animateEntry (rnd key) (dt * timeScale) key planetObj, ?_, ?_⟩,
    fun moonConfig r path hpath hne => createMoon_modelled moonConfig r path hpath hne⟩
  · rw [animate_planets, hkey]
    rfl
  · cases hk : moonsAnimated key with
    | true =>
      rw [animateEntry_of_animated _ _ _ _ hk]
      simp only [animatePlanet_moons, updateMoons_getElem?, hmoon, Option.map_some',
        updateMoon_of_no_mesh _ _ moon hmesh]
    | false =>
      rw [animateEntry_of_not_animated _ _ _ _ hk, animatePlanet_moons]
      exact hmoon

/-- C11 for Phobos of the shipped table, whose model has not been attached, in a frame
with `dt = 1`, `timeScale = 150`. -/
theorem C11_null_mesh_inert_witness :
    ((createPlanets (constDraws 0) planetsConfig).planets .mars =
        some (createPlanet "Mars" marsConfig (constDraws 0 4)) ∧
      (createPlanet "Mars" marsConfig (constDraws 0 4)).moons[0]? =
        some (createMoon (modelMoon "/images/mars/phobos.glb" 0.1 5 0.32 100) 0) ∧
      (createMoon (modelMoon "/images/mars/phobos.glb" 0.1 5 0.32 100) 0).mesh = none) ∧
    ∃ after : Body,
      (animate (constMoonDraws 0) 1 150 (createPlanets (constDraws 0) planetsConfig)).planets
        .mars = some after ∧
      after.moons[0]? = some (createMoon (modelMoon "/images/mars/phobos.glb" 0.1 5 0.32 100) 0) := by
  obtain ⟨-, -, -, -, -, -, -, -, -, -, -, -, -, -, -, createMoon_modelled, createPlanets_shipped_mars,
      createPlanet_mars_moons, -, -, -⟩ := frames_lemmas
  exact
    have h1 := createPlanets_shipped_mars (constDraws 0)
    have h2 : (createPlanet "Mars" marsConfig (constDraws 0 4)).moons[0]? =
        some (createMoon (modelMoon "/images/mars/phobos.glb" 0.1 5 0.32 100) 0) := by
      rw [createPlanet_mars_moons]
      rfl
    have h3 : (createMoon (modelMoon "/images/mars/phobos.glb" 0.1 5 0.32 100) 0).mesh = none :=
      createMoon_modelled _ _ "/images/mars/phobos.glb" rfl (by decide)
    ⟨⟨h1, h2, h3⟩,
      (C11_null_mesh_inert (constMoonDraws 0) 1 150 (createPlanets (constDraws 0) planetsConfig)
        .mars (createPlanet "Mars" marsConfig (constDraws 0 4)) 0 _ h1 h2 h3).1⟩

/-! ### The range of the phase angle -/

/-- C13, counterexample. The Earth of the shipped table, created with the random draw
`0`, has phase angle `0`; after one `animate` call with `dt = 1` and
`timeScale = 365.25` its phase angle is `2π`, which is not below `2π`. -/
theorem C13_counterexample_no_wrap :
    (0 : ℝ) ≤ 1 ∧ (0 : ℝ) ≤ 365.25 ∧
    ∃ before after : Body,
      (createPlanets (constDraws 0) planetsConfig).planets .earth = some before ∧
      (animate (constMoonDraws 0) 1 365.25
        (createPlanets (constDraws 0) planetsConfig)).planets .earth = some after ∧
      before.planet.animationData.angle = 0 ∧
      after.planet.animationData.angle = 2 * Real.pi ∧
      ¬ (after.planet.animationData.angle < 2 * Real.pi) := by
  obtain ⟨-, -, -, -, createPlanet_def, -, -, -, -, -, -, -, -, -, -, -, -, -, -, -, -, -, -, -, -,
      -⟩ := unfold_lemmas
  obtain ⟨animate_planets, -, -, -, -, -, -, createPlanets_shipped_earth, -, -, -, -, -, -, -, -, -, -,
      -, -, -, -, -, -, -, -, -, -⟩ := step_lemmas
  obtain ⟨-, -, -, -, -, -, -, -, -, -, -, -, -, -, -, -, -, -, -, -, -,
      animateEntry_position_of_pos⟩ := zero_step_lemmas
  have hpos : (0 : ℝ) < 365.25 := by norm_num
  have hp : (createPlanet "Earth" earthConfig (constDraws 0 3)).config.physical.orbitPeriod =
      some 365.25 := rfl
  have hdata := (animateEntry_position_of_pos (constMoonDraws 0 .earth) (1 * 365.25) .earth
    (createPlanet "Earth" earthConfig (constDraws 0 3)) 365.25 hp hpos).2
  have h1 : (1 * 365.25 / 365.25 : ℝ) = 1 := by norm_num
  have hangle : (animateEntry (constMoonDraws 0 .earth) (1 * 365.25) .earth
      (createPlanet "Earth" earthConfig (constDraws 0 3))).planet.animationData.angle =
      2 * Real.pi := by
    rw [hdata, h1]
    simp [createPlanet_def, constDraws]
  refine ⟨by norm_num, by norm_num, _, _, createPlanets_shipped_earth _, ?_, ?_, hangle, ?_⟩
  · rw [animate_planets, createPlanets_shipped_earth]
    rfl
  · simp [createPlanet_def, constDraws]
  · rw [hangle]
    exact lt_irrefl _

/-- C13, as amended. The phase angle `createPlanet` draws is in `[0, 2π)` when
`Math.random()` is in `[0, 1)`. `animate` does not wrap it: over any run of `animate`
calls with `dt ≥ 0` and `timeScale ≥ 0` the phase angle of an entry of `planets` never
decreases. The orbit position depends on the angle only modulo `2π`. -/
theorem C13_angle_range :
    (∀ (name : String) (config : Config) (rnd : Nat → ℝ), 0 ≤ rnd 0 → rnd 0 < 1 →
      0 ≤ (createPlanet name config rnd).planet.animationData.angle ∧
      (createPlanet name config rnd).planet.animationData.angle < 2 * Real.pi) ∧
    (∀ (frames : List ((PlanetKey → Nat → ℝ) × ℝ × ℝ)) (planetsObj : PlanetsObj)
        (key : PlanetKey) (planetObj : Body),
      (∀ frame ∈ frames, 0 ≤ frame.2.1 ∧ 0 ≤ frame.2.2) →
      planetsObj.planets key = some planetObj →
      ∃ after : Body,
        (animateFrames frames planetsObj).planets key = some after ∧
        planetObj.planet.animationData.angle ≤ after.planet.animationData.angle) ∧
    (∀ (a b c theta : ℝ) (n : ℤ),
      orbitPoint a b c (theta + n * (2 * Real.pi)) = orbitPoint a b c theta) := by
  obtain ⟨orbitPoint_def, -, -, -, createPlanet_def, -, -, -, -, -, -, -, -, -, -, -, -, -, -, -, -, -,
      -, -, -, -⟩ := unfold_lemmas
  obtain ⟨-, -, -, -, -, -, -, -, -, -, -, -, -, -, -, -, -, -, -, animateFrames_angle_mono,
      -⟩ := frames_lemmas
  refine ⟨?_, ?_, ?_⟩
  · intro name config rnd h0 h1
    have hpi : 0 < Real.pi := Real.pi_pos
    simp only [createPlanet_def]
    constructor
    · positivity
    · nlinarith
  · intro frames planetsObj key planetObj hall hkey
    exact animateFrames_angle_mono key frames hall planetsObj planetObj hkey
  · intro a b c theta n
    simp only [orbitPoint_def, Real.cos_add_int_mul_two_pi, Real.sin_add_int_mul_two_pi]

/-- C13 as amended, for the Earth of the shipped table: drawn with `Math.random() = 0`,
then one frame with `dt = 1`, `timeScale = 365.25`. -/
theorem C13_angle_range_witness :
    ((0 : ℝ) ≤ constDraws 0 3 0 ∧ constDraws 0 3 0 < 1 ∧
      (∀ frame ∈ [(constMoonDraws 0, (1 : ℝ), (365.25 : ℝ))], 0 ≤ frame.2.1 ∧ 0 ≤ frame.2.2) ∧
      (createPlanets (constDraws 0) planetsConfig).planets .earth =
        some (createPlanet "Earth" earthConfig (constDraws 0 3))) ∧
    (0 ≤ (createPlanet "Earth" earthConfig (constDraws 0 3)).planet.animationData.angle ∧
      (createPlanet "Earth" earthConfig (constDraws 0 3)).planet.animationData.angle <
        2 * Real.pi) ∧
    ∃ after : Body,
      (animateFrames [(constMoonDraws 0, 1, 365.25)]
        (createPlanets (constDraws 0) planetsConfig)).planets .earth = some after ∧
      (createPlanet "Earth" earthConfig (constDraws 0 3)).planet.animationData.angle ≤
        after.planet.animationData.angle := by
  obtain ⟨-, -, -, -, -, -, -, createPlanets_shipped_earth, -, -, -, -, -, -, -, -, -, -, -, -, -, -,
      -, -, -, -, -, -⟩ := step_lemmas
  exact
    have h0 : (0 : ℝ) ≤ constDraws 0 3 0 := le_refl 0
    have h1 : constDraws 0 3 0 < 1 := by
      simp [constDraws]
    have h2 : ∀ frame ∈ [(constMoonDraws 0, (1 : ℝ), (365.25 : ℝ))],
        0 ≤ frame.2.1 ∧ 0 ≤ frame.2.2 := by
      intro frame hf
      simp only [List.mem_singleton] at hf
      subst hf
      norm_num
    have h3 := createPlanets_shipped_earth (constDraws 0)
    ⟨⟨h0, h1, h2, h3⟩,
      C13_angle_range.1 "Earth" earthConfig (constDraws 0 3) h0 h1,
      C13_angle_range.2.1 [(constMoonDraws 0, 1, 365.25)]
        (createPlanets (constDraws 0) planetsConfig) .earth
        (createPlanet "Earth" earthConfig (constDraws 0 3)) h2 h3⟩

/-! ### The ellipse parameters and the position formula -/

/-- C14. For `a > 0` and `0 ≤ e < 1` the ellipse parameters `createPlanet` derives
satisfy `0 ≤ b ≤ a`; the square root is taken of `1 - e² ≥ 0`, so `b² = a² (1 - e²)`. -/
theorem C14_semi_minor_bounds (physical : Physical) (ha : 0 < physical.distance)
    (he0 : 0 ≤ physical.eccentricity.getD 0) (he1 : physical.eccentricity.getD 0 < 1) :
    0 ≤ (ellipticalData physical).b ∧
      (ellipticalData physical).b ≤ (ellipticalData physical).a ∧
      (ellipticalData physical).b ^ 2 =
        (ellipticalData physical).a ^ 2 * (1 - (physical.eccentricity.getD 0) ^ 2) := by
  obtain ⟨-, ellipticalData_def, -, -, -, -, -, -, -, -, -, -, -, -, -, -, -, -, -, -, -, -, -, -, -,
      -⟩ := unfold_lemmas
  obtain ⟨orElse_zero, -, -, -⟩ := orbit_geometry
  simp only [ellipticalData_def, orElse_zero]
  set a := physical.distance
  set e := physical.eccentricity.getD 0
  have hee : 0 ≤ 1 - e * e := by nlinarith
  have h0 : 0 ≤ Real.sqrt (1 - e * e) := Real.sqrt_nonneg _
  have h1 : Real.sqrt (1 - e * e) ≤ 1 := by
    rw [Real.sqrt_le_one]
    nlinarith
  have hs : Real.sqrt (1 - e * e) ^ 2 = 1 - e * e := Real.sq_sqrt hee
  refine ⟨mul_nonneg ha.le h0, by nlinarith, ?_⟩
  have : (a * Real.sqrt (1 - e * e)) ^ 2 = a ^ 2 * Real.sqrt (1 - e * e) ^ 2 := by ring
  rw [this, hs]
  ring

/-- C14 at the shipped entry `Earth` (`a = 90`, `e = 0.017`). -/
theorem C14_semi_minor_bounds_witness :
    (0 < earthConfig.physical.distance ∧ 0 ≤ earthConfig.physical.eccentricity.getD 0 ∧
      earthConfig.physical.eccentricity.getD 0 < 1) ∧
    0 ≤ (ellipticalData earthConfig.physical).b ∧
    (ellipticalData earthConfig.physical).b ≤ (ellipticalData earthConfig.physical).a ∧
    (ellipticalData earthConfig.physical).b ^ 2 =
      (ellipticalData earthConfig.physical).a ^ 2 *
        (1 - (earthConfig.physical.eccentricity.getD 0) ^ 2) :=
  ⟨by norm_num [earthConfig, physicalOf],
    C14_semi_minor_bounds earthConfig.physical (by norm_num [earthConfig, physicalOf])
      (by norm_num [earthConfig, physicalOf]) (by norm_num [earthConfig, physicalOf])⟩

/-- C15, counterexample. For the shipped entry `Earth` (`a = 90`, `e = 0.017`) the focal
distance is `c = 90 * 0.017`, while `a - sqrt (a² - b²) = 90 - 90 * 0.017`. -/
theorem C15_counterexample_earth :
    0 < earthConfig.physical.distance ∧ 0 ≤ earthConfig.physical.eccentricity.getD 0 ∧
    earthConfig.physical.eccentricity.getD 0 < 1 ∧
    (ellipticalData earthConfig.physical).c = 90 * 0.017 ∧
    (ellipticalData earthConfig.physical).a -
      Real.sqrt ((ellipticalData earthConfig.physical).a ^ 2 -
        (ellipticalData earthConfig.physical).b ^ 2) = 90 - 90 * 0.017 ∧
    (ellipticalData earthConfig.physical).c ≠
      (ellipticalData earthConfig.physical).a -
        Real.sqrt ((ellipticalData earthConfig.physical).a ^ 2 -
          (ellipticalData earthConfig.physical).b ^ 2) := by
  obtain ⟨-, ellipticalData_def, -, -, -, -, -, -, -, -, -, -, -, -, -, -, -, -, -, -, -, -, -, -, -,
      -⟩ := unfold_lemmas
  obtain ⟨-, -, -, -, -, -, -, -, -, -, -, -, -, -, -, -, -, -, -, -,
      ellipticalData_focal⟩ := frames_lemmas
  have ha : 0 < earthConfig.physical.distance := by norm_num [earthConfig, physicalOf]
  have he0 : 0 ≤ earthConfig.physical.eccentricity.getD 0 := by
    norm_num [earthConfig, physicalOf]
  have he1 : earthConfig.physical.eccentricity.getD 0 < 1 := by
    norm_num [earthConfig, physicalOf]
  have hfocal := ellipticalData_focal earthConfig.physical ha he0 he1
  have hc : (ellipticalData earthConfig.physical).c = 90 * 0.017 := by
    simp [ellipticalData_def, earthConfig, physicalOf, orElse]
  have hav : (ellipticalData earthConfig.physical).a = 90 := rfl
  refine ⟨ha, he0, he1, hc, ?_, ?_⟩
  · rw [hfocal, hc, hav]
  · rw [hfocal, hc, hav]
    norm_num

/-- C15, as amended. For `a > 0` and `0 ≤ e < 1` the ellipse parameters `createPlanet`
derives satisfy `c = sqrt (a² - b²)`. -/
theorem C15_focal_distance (physical : Physical) (ha : 0 < physical.distance)
    (he0 : 0 ≤ physical.eccentricity.getD 0) (he1 : physical.eccentricity.getD 0 < 1) :
    (ellipticalData physical).c =
      Real.sqrt ((ellipticalData physical).a ^ 2 - (ellipticalData physical).b ^ 2) := by
  obtain ⟨-, -, -, -, -, -, -, -, -, -, -, -, -, -, -, -, -, -, -, -,
      ellipticalData_focal⟩ := frames_lemmas
  exact
    (ellipticalData_focal physical ha he0 he1).symm

/-- C15 as amended at the shipped entry `Earth`. -/
theorem C15_focal_distance_witness :
    (0 < earthConfig.physical.distance ∧ 0 ≤ earthConfig.physical.eccentricity.getD 0 ∧
      earthConfig.physical.eccentricity.getD 0 < 1) ∧
    (ellipticalData earthConfig.physical).c =
      Real.sqrt ((ellipticalData earthConfig.physical).a ^ 2 -
        (ellipticalData earthConfig.physical).b ^ 2) :=
  ⟨by norm_num [earthConfig, physicalOf],
    C15_focal_distance earthConfig.physical (by norm_num [earthConfig, physicalOf])
      (by norm_num [earthConfig, physicalOf]) (by norm_num [earthConfig, physicalOf])⟩

/-- C16. The position formula `(a cos θ - c, 0, b sin θ)` of the `animate` step and of
the guide-path sampler gives `(a - c, 0)` at `θ = 0` and `(-c, b)` at `θ = π/2`, and its
value at `θ = 2π` is its value at `θ = 0`. So do the position `animate` writes at these
angles and the points number `0`, `32` and `128` of the guide-path. -/
theorem C16_position_formula (a b c : ℝ) :
    orbitPoint a b c 0 = { x := a - c, y := 0, z := 0 } ∧
    orbitPoint a b c (Real.pi / 2) = { x := -c, y := 0, z := b } ∧
    orbitPoint a b c (2 * Real.pi) = orbitPoint a b c 0 ∧
    (∀ e : ℝ,
      keplerPosition { angle := 0, ellipse := some { a := a, b := b, c := c, eccentricity := e } } =
        some { x := a - c, y := 0, z := 0 } ∧
      keplerPosition
          { angle := Real.pi / 2, ellipse := some { a := a, b := b, c := c, eccentricity := e } } =
        some { x := -c, y := 0, z := b } ∧
      keplerPosition
          { angle := 2 * Real.pi, ellipse := some { a := a, b := b, c := c, eccentricity := e } } =
        keplerPosition
          { angle := 0, ellipse := some { a := a, b := b, c := c, eccentricity := e } } ∧
      (ellipsePoints { a := a, b := b, c := c, eccentricity := e })[0]? =
        some { x := a - c, y := 0, z := 0 } ∧
      (ellipsePoints { a := a, b := b, c := c, eccentricity := e })[32]? =
        some { x := -c, y := 0, z := b } ∧
      (ellipsePoints { a := a, b := b, c := c, eccentricity := e })[128]? =
        (ellipsePoints { a := a, b := b, c := c, eccentricity := e })[0]?) := by
  obtain ⟨orbitPoint_def, -, ellipsePoints_def, -, -, -, -, -, keplerPosition_def, -, -, -, -, -, -, -,
      -, -, -, -, -, -, -, -, -, -⟩ := unfold_lemmas
  have h0 : orbitPoint a b c 0 = { x := a - c, y := 0, z := 0 } := by
    simp [orbitPoint_def]
  have h1 : orbitPoint a b c (Real.pi / 2) = { x := -c, y := 0, z := b } := by
    simp [orbitPoint_def]
  have h2 : orbitPoint a b c (2 * Real.pi) = orbitPoint a b c 0 := by
    simp [orbitPoint_def]
  refine ⟨h0, h1, h2, ?_⟩
  intro e
  have hq : ((32 : ℕ) : ℝ) / 128 * Real.pi * 2 = Real.pi / 2 := by
    push_cast
    ring
  have hf : ((128 : ℕ) : ℝ) / 128 * Real.pi * 2 = 2 * Real.pi := by
    push_cast
    ring
  refine ⟨?_, ?_, ?_, ?_, ?_, ?_⟩
  · simp only [keplerPosition_def, h0]
  · simp only [keplerPosition_def, h1]
  · simp only [keplerPosition_def, h2]
  · simp only [ellipsePoints_def, List.getElem?_map]
    rw [List.getElem?_range (by norm_num)]
    simp only [Option.map_some', Nat.cast_zero, zero_div, zero_mul, h0]
  · simp only [ellipsePoints_def, List.getElem?_map]
    rw [List.getElem?_range (by norm_num)]
    simp only [Option.map_some', hq, h1]
  · simp only [ellipsePoints_def, List.getElem?_map]
    rw [List.getElem?_range (by norm_num), List.getElem?_range (by norm_num)]
    simp only [Option.map_some', hf, h2, Nat.cast_zero, zero_div, zero_mul]

/-! ### The pick list and the registry -/

/-- C17, counterexample. For the shipped table `createPlanets` builds the Sun, but the
pick list does not contain the Sun's core mesh: it holds the nine core meshes of the
planets and the two atmosphere shells. -/
theorem C17_counterexample_sun_not_pickable :
    (∃ sun : Body, (createPlanets (constDraws 0) planetsConfig).sun = some sun ∧
      sun.name = "Sun") ∧
    (createPlanets (constDraws 0) planetsConfig).raycastTargets =
      [.planet "Mercury", .planet "Venus", .atmosphere "Venus", .planet "Earth",
       .atmosphere "Earth", .planet "Mars", .planet "Jupiter", .planet "Saturn",
       .planet "Uranus", .planet "Neptune", .planet "Pluto"] ∧
    PickTarget.planet "Sun" ∉ (createPlanets (constDraws 0) planetsConfig).raycastTargets := by
  obtain ⟨-, -, -, -, -, createPlanets_def, -, -, -, -, -, -, -, -, -, -, -, -, -, -, registerAll_nil,
      registerAll_cons, -, -, -, -⟩ := unfold_lemmas
  obtain ⟨-, registerAll_raycastTargets, -, -, -, -, -, -, -⟩ := registry_lemmas
  have hlist : (createPlanets (constDraws 0) planetsConfig).raycastTargets =
      [.planet "Mercury", .planet "Venus", .atmosphere "Venus", .planet "Earth",
       .atmosphere "Earth", .planet "Mars", .planet "Jupiter", .planet "Saturn",
       .planet "Uranus", .planet "Neptune", .planet "Pluto"] := by
    simp only [createPlanets_def, registerAll_raycastTargets]
    simp [planetsConfig, sunConfig, mercuryConfig, venusConfig, earthConfig, marsConfig,
      jupiterConfig, saturnConfig, uranusConfig, neptuneConfig, plutoConfig]
  refine ⟨⟨createPlanet "Sun" sunConfig (constDraws 0 0), ?_, rfl⟩, hlist, ?_⟩
  · simp [createPlanets_def, planetsConfig, registerAll_nil, registerAll_cons, registerBody]
  · rw [hlist]
    decide

/-- C17, as amended. For every config table the pick list `raycastTargets` holds, in the
order of the table, the core mesh of every body whose name is not `'Sun'`, followed by
its atmosphere shell when it has one, and nothing else; the body built for `'Sun'` has
no entry. -/
theorem C17_pick_list (rnd : Nat → Nat → ℝ) (table : ConfigTable) :
    (createPlanets rnd table).raycastTargets =
      table.flatMap (fun entry =>
        if entry.1 = "Sun" then []
        else [PickTarget.planet entry.1] ++
          (if entry.2.assets.atmosphere = true then [PickTarget.atmosphere entry.1]
           else [])) ∧
    (∀ target : PickTarget, target ∈ (createPlanets rnd table).raycastTargets ↔
      ∃ name config, (name, config) ∈ table ∧ name ≠ "Sun" ∧
        (target = .planet name ∨
          (target = .atmosphere name ∧ config.assets.atmosphere = true))) ∧
    (∀ (name : String) (config : Config) (draws : Nat → ℝ),
      ((createPlanet name config draws).Atmosphere.isSome = true ↔
        config.assets.atmosphere = true)) := by
  obtain ⟨-, -, -, -, createPlanet_def, createPlanets_def, -, -, -, -, -, -, -, -, -, -, -, -, -, -, -,
      -, -, -, -, -⟩ := unfold_lemmas
  obtain ⟨-, registerAll_raycastTargets, -, -, -, -, -, -, -⟩ := registry_lemmas
  have hlist : (createPlanets rnd table).raycastTargets =
      table.flatMap (fun entry =>
        if entry.1 = "Sun" then []
        else [PickTarget.planet entry.1] ++
          (if entry.2.assets.atmosphere = true then [PickTarget.atmosphere entry.1]
           else [])) := by
    simp only [createPlanets_def, registerAll_raycastTargets, List.nil_append]
  refine ⟨hlist, ?_, ?_⟩
  · intro target
    rw [hlist, List.mem_flatMap]
    constructor
    · rintro ⟨⟨name, config⟩, hmem, htarget⟩
      by_cases hn : name = "Sun"
      · simp [hn] at htarget
      · refine ⟨name, config, hmem, hn, ?_⟩
        by_cases ha : config.assets.atmosphere = true
        · simp [hn, ha] at htarget
          rcases htarget with h | h
          · exact Or.inl h
          · exact Or.inr ⟨h, ha⟩
        · simp [hn, ha] at htarget
          exact Or.inl htarget
    · rintro ⟨name, config, hmem, hn, htarget⟩
      refine ⟨(name, config), hmem, ?_⟩
      rcases htarget with h | ⟨h, ha⟩
      · simp [hn, h]
      · simp [hn, h, ha]
  · intro name config draws
    by_cases ha : config.assets.atmosphere = true
    · simp [createPlanet_def, ha]
    · simp [createPlanet_def, ha]

/-- C18, counterexample. For the shipped table the body built for `'Sun'` is under no key
of `planets`. For a table with a body named `'Ceres'` the body is built, its core mesh is
in the pick list, and `planets` is empty. -/
theorem C18_counterexample_unregistered :
    (∃ sun : Body, (createPlanets (constDraws 0) planetsConfig).sun = some sun ∧
      ∀ key : PlanetKey, (createPlanets (constDraws 0) planetsConfig).planets key ≠ some sun) ∧
    (createPlanets (constDraws 0) [("Ceres", mercuryConfig)]).raycastTargets =
      [.planet "Ceres"] ∧
    (∀ key : PlanetKey,
      (createPlanets (constDraws 0) [("Ceres", mercuryConfig)]).planets key = none) := by
  obtain ⟨-, -, -, -, -, createPlanets_def, -, -, -, -, -, -, -, -, -, -, -, -, -, -, registerAll_nil,
      registerAll_cons, -, -, -, -⟩ := unfold_lemmas
  obtain ⟨-, registerAll_raycastTargets, -, -, -, registerAll_byName_sound, createPlanet_name, -,
      -⟩ := registry_lemmas
  refine ⟨⟨createPlanet "Sun" sunConfig (constDraws 0 0), ?_, ?_⟩, ?_, ?_⟩
  · simp [createPlanets_def, planetsConfig, registerAll_nil, registerAll_cons, registerBody]
  · intro key hkey
    simp only [createPlanets_def] at hkey
    rcases registerAll_byName_sound (constDraws 0) key.name planetsConfig 0 _ _ hkey with
      ⟨h, _⟩ | ⟨i, name, config, _, hn, _, hbody, _⟩
    · simp at h
    · have := congrArg Body.name hbody
      simp only [createPlanet_name] at this
      exact hn this.symm
  · simp [createPlanets_def, registerAll_raycastTargets, mercuryConfig]
  · intro key
    have hlow : toLowerCase "Ceres" = "ceres" := by decide
    cases key <;> simp [createPlanets_def, registerAll_nil, registerAll_cons, registerBody, PlanetKey.name, hlow]

/-- C18, as amended. For every config table and every key of `planets`: the body under
the key was built from the last entry of the table whose name is not `'Sun'` and
lower-cases to the key, and such an entry is under its key. A body whose lower-cased name
is none of the nine keys, or that is followed by an entry with the same lower-cased
name, is built but is not in `planets`; the body of an entry `'Sun'` is returned as
`sun`. -/
theorem C18_registry (rnd : Nat → Nat → ℝ) (table : ConfigTable) (key : PlanetKey) :
    (∀ b : Body, (createPlanets rnd table).planets key = some b →
      ∃ (i : Nat) (name : String) (config : Config),
        table[i]? = some (name, config) ∧ name ≠ "Sun" ∧ toLowerCase name = key.name ∧
        b = createPlanet name config (rnd i) ∧ b.name = name ∧
        ∀ (j : Nat) (n : String) (c : Config), i < j → table[j]? = some (n, c) →
          n = "Sun" ∨ toLowerCase n ≠ key.name) ∧
    (∀ (i : Nat) (name : String) (config : Config),
      table[i]? = some (name, config) → name ≠ "Sun" → toLowerCase name = key.name →
      (∀ (j : Nat) (n : String) (c : Config), i < j → table[j]? = some (n, c) →
        n = "Sun" ∨ toLowerCase n ≠ key.name) →
      (createPlanets rnd table).planets key = some (createPlanet name config (rnd i))) ∧
    (∀ config : Config, ("Sun", config) ∈ table →
      (createPlanets rnd table).sun.isSome = true) := by
  obtain ⟨-, -, -, -, -, createPlanets_def, -, -, -, -, -, -, -, -, -, -, -, -, -, -, -, -, -, -, -,
      -⟩ := unfold_lemmas
  obtain ⟨-, -, -, -, -, -, registerAll_sun, -, -, -, -, -, -, -, -, -, -, -, -, -,
      -⟩ := frames_lemmas
  obtain ⟨-, -, -, -, registerAll_byName_of_last, registerAll_byName_sound, -, -,
      -⟩ := registry_lemmas
  refine ⟨?_, ?_, ?_⟩
  · intro b hb
    simp only [createPlanets_def] at hb
    rcases registerAll_byName_sound rnd key.name table 0 _ b hb with
      ⟨h, _⟩ | ⟨i, name, config, hi, hn, hk, hbody, hlast⟩
    · simp at h
    · refine ⟨i, name, config, hi, hn, hk, ?_, ?_, hlast⟩
      · rw [hbody, Nat.zero_add]
      · rw [hbody]
        rfl
  · intro i name config hi hn hk hlast
    simp only [createPlanets_def]
    rw [registerAll_byName_of_last rnd key.name table 0 _ i name config hi hn hk hlast,
      Nat.zero_add]
  · intro config hmem
    exact (registerAll_sun rnd table 0
      { sun := none, byName := fun _ => none, raycastTargets := [] }
      (fun sun hsun => by cases hsun)).2 (Or.inr ⟨config, hmem⟩)

/-- C18 as amended, for the entry `Earth` (number 3) of the shipped table and the key
`earth`. -/
theorem C18_registry_witness :
    (planetsConfig[3]? = some ("Earth", earthConfig) ∧ "Earth" ≠ "Sun" ∧
      toLowerCase "Earth" = PlanetKey.earth.name ∧
      ∀ (j : Nat) (n : String) (c : Config), 3 < j → planetsConfig[j]? = some (n, c) →
        n = "Sun" ∨ toLowerCase n ≠ PlanetKey.earth.name) ∧
    (createPlanets (constDraws 0) planetsConfig).planets .earth =
      some (createPlanet "Earth" earthConfig (constDraws 0 3)) := by
  obtain ⟨-, -, -, -, -, -, lower_names, -, -, -, -, -, -, -, -, -, -, -, -, -, -, -, -, -, -, -, -,
      -⟩ := step_lemmas
  exact
    have h1 : planetsConfig[3]? = some ("Earth", earthConfig) := rfl
    have h2 : "Earth" ≠ "Sun" := by decide
    have h3 : toLowerCase "Earth" = PlanetKey.earth.name := by decide
    have h4 : ∀ (j : Nat) (n : String) (c : Config), 3 < j → planetsConfig[j]? = some (n, c) →
        n = "Sun" ∨ toLowerCase n ≠ PlanetKey.earth.name := by
      obtain ⟨l1, l2, l3, l4, l5, l6, l7, l8, l9⟩ := lower_names
      intro j n c hj hjc
      right
      rcases j with _ | _ | _ | _ | _ | _ | _ | _ | _ | _ | j <;>
        simp [planetsConfig] at hj hjc <;>
        obtain ⟨rfl, _⟩ := hjc <;>
        simp [PlanetKey.name, l4, l5, l6, l7, l8, l9]
    ⟨⟨h1, h2, h3, h4⟩,
      (C18_registry (constDraws 0) planetsConfig .earth).2.1 3 "Earth" earthConfig h1 h2 h3 h4⟩

/-! ### Picking -/

/-- C19. Proxy-hit resolution: when `mercury`, `venus` and `earth` are registered,
`identifyPlanet` applied to the atmosphere shell of the Earth returns the entry `earth`,
and applied to the atmosphere shell of Venus it returns the entry `venus`. Whatever
`identifyPlanet` returns is `null` or an entry of `planets`. The names of the entries
`venus` and `earth` that `createPlanets` builds differ, whatever the table. -/
theorem C19_proxy_hit (planetsObj : PlanetsObj) :
    (∀ (mercury venus earth : Body),
      planetsObj.planets .mercury = some mercury → planetsObj.planets .venus = some venus →
      planetsObj.planets .earth = some earth → earth.Atmosphere.isSome = true →
      earth.name ≠ venus.name →
      identifyPlanet planetsObj (some (.atmosphere earth.name)) = .planet earth 25) ∧
    (∀ (mercury venus : Body),
      planetsObj.planets .mercury = some mercury → planetsObj.planets .venus = some venus →
      venus.Atmosphere.isSome = true →
      identifyPlanet planetsObj (some (.atmosphere venus.name)) = .planet venus 25) ∧
    (∀ (clickedObject : Option PickTarget) (body : Body) (offset : ℝ),
      identifyPlanet planetsObj clickedObject = .planet body offset →
      ∃ key : PlanetKey, planetsObj.planets key = some body) ∧
    (∀ (rnd : Nat → Nat → ℝ) (table : ConfigTable) (venus earth : Body),
      planetsObj = createPlanets rnd table →
      planetsObj.planets .venus = some venus → planetsObj.planets .earth = some earth →
      earth.name ≠ venus.name) := by
  obtain ⟨-, -, -, -, -, -, -, identifyFrom_registered, createPlanets_names_differ⟩ := registry_lemmas
  refine ⟨?_, ?_, ?_, ?_⟩
  · intro mercury venus earth hm hv he hshell hne
    simp [identifyPlanet, identifyChain, identifyFrom, hm, hv, he, sameMaterial,
      isAtmosphereOf, hshell, hne]
  · intro mercury venus hm hv hshell
    simp [identifyPlanet, identifyChain, identifyFrom, hm, hv, sameMaterial,
      isAtmosphereOf, hshell]
  · intro clickedObject body offset h
    cases clickedObject with
    | none => simp [identifyPlanet] at h
    | some object => exact identifyFrom_registered planetsObj object identifyChain body offset h
  · intro rnd table venus earth hs hv he
    subst hs
    exact createPlanets_names_differ rnd table .earth .venus earth venus (by decide) he hv

/-- C19 for the shipped table: the atmosphere shell of the Earth resolves to the entry
`earth`. -/
theorem C19_proxy_hit_witness :
    ((createPlanets (constDraws 0) planetsConfig).planets .mercury =
        some (createPlanet "Mercury" mercuryConfig (constDraws 0 1)) ∧
      (createPlanets (constDraws 0) planetsConfig).planets .venus =
        some (createPlanet "Venus" venusConfig (constDraws 0 2)) ∧
      (createPlanets (constDraws 0) planetsConfig).planets .earth =
        some (createPlanet "Earth" earthConfig (constDraws 0 3)) ∧
      (createPlanet "Earth" earthConfig (constDraws 0 3)).Atmosphere.isSome = true ∧
      (createPlanet "Earth" earthConfig (constDraws 0 3)).name ≠
        (createPlanet "Venus" venusConfig (constDraws 0 2)).name) ∧
    identifyPlanet (createPlanets (constDraws 0) planetsConfig)
        (some (.atmosphere (createPlanet "Earth" earthConfig (constDraws 0 3)).name)) =
      .planet (createPlanet "Earth" earthConfig (constDraws 0 3)) 25 := by
  obtain ⟨-, -, -, -, createPlanet_def, createPlanets_def, -, -, -, -, -, -, -, -, -, -, -, -, -, -,
      registerAll_nil, registerAll_cons, -, -, -, -⟩ := unfold_lemmas
  obtain ⟨-, -, -, -, -, -, lower_names, createPlanets_shipped_earth, -, -, -, -, -, -, -, -, -, -, -,
      -, -, -, -, -, -, -, -, -⟩ := step_lemmas
  obtain ⟨-, -, -, -, -, -, -, -, -, createPlanets_shipped_venus, -, -, -, -, -, -, -, -, -, -,
      -⟩ := frames_lemmas
  obtain ⟨-, -, -, -, -, -, createPlanet_name, -, -⟩ := registry_lemmas
  exact
    have hm : (createPlanets (constDraws 0) planetsConfig).planets .mercury =
        some (createPlanet "Mercury" mercuryConfig (constDraws 0 1)) := by
      obtain ⟨h1, h2, h3, h4, h5, h6, h7, h8, h9⟩ := lower_names
      simp [createPlanets_def, planetsConfig, registerAll_nil, registerAll_cons, registerBody, PlanetKey.name,
        h1, h2, h3, h4, h5, h6, h7, h8, h9]
    have hv := createPlanets_shipped_venus (constDraws 0)
    have he := createPlanets_shipped_earth (constDraws 0)
    have hshell : (createPlanet "Earth" earthConfig (constDraws 0 3)).Atmosphere.isSome = true := by
      simp [createPlanet_def, earthConfig]
    have hne : (createPlanet "Earth" earthConfig (constDraws 0 3)).name ≠
        (createPlanet "Venus" venusConfig (constDraws 0 2)).name := by
      simp only [createPlanet_name]
      decide
    ⟨⟨hm, hv, he, hshell, hne⟩,
      (C19_proxy_hit (createPlanets (constDraws 0) planetsConfig)).1 _ _ _ hm hv he hshell hne⟩

/-! ### Orbit highlight -/

/-- C20. Selection idempotence: when the orbit path of the body under `key` is found,
`highlightOrbitFor` applied a second time, also after any number of pulses of
`updateOnFrame` in between, leaves the state (the style of every orbit line, the
saved-style map and `highlightedOrbit`) as the first application left it. -/
theorem C20_highlight_idempotent (planetsObj : PlanetsObj) (state : Interactions)
    (key : PlanetKey) (uuid : Nat)
    (hfound : findOrbitForPlanet planetsObj state key = some uuid) (pulses : List ℝ) :
    highlightOrbitFor planetsObj
        (pulseFrames pulses (highlightOrbitFor planetsObj state key)) key =
      highlightOrbitFor planetsObj state key := by
  obtain ⟨-, -, -, highlightOrbitFor_found, -, highlightOrbitFor_absorbs⟩ := highlight_lemmas
  apply highlightOrbitFor_absorbs planetsObj state key uuid hfound
  apply pulseFrames_agreeOff uuid _ _ pulses
  · exact ⟨rfl, fun _ _ => rfl, rfl, rfl, rfl, rfl⟩
  · rw [highlightOrbitFor_found planetsObj state key uuid hfound]

/-- C20 for a scene in which the group of the Earth holds an orbit line (`uuid` 7): two
highlights with a pulse at `t = 1` in between. -/
theorem C20_highlight_idempotent_witness :
    findOrbitForPlanet (createPlanets (constDraws 0) planetsConfig) sceneWithEarthOrbit
        .earth = some 7 ∧
    highlightOrbitFor (createPlanets (constDraws 0) planetsConfig)
        (pulseFrames [1]
          (highlightOrbitFor (createPlanets (constDraws 0) planetsConfig)
            sceneWithEarthOrbit .earth)) .earth =
      highlightOrbitFor (createPlanets (constDraws 0) planetsConfig) sceneWithEarthOrbit
        .earth := by
  obtain ⟨-, -, -, -, -, -, -, createPlanets_shipped_earth, -, -, -, -, -, -, -, -, -, -, -, -, -, -,
      -, -, -, -, -, -⟩ := step_lemmas
  exact
    have h : findOrbitForPlanet (createPlanets (constDraws 0) planetsConfig) sceneWithEarthOrbit
        .earth = some 7 := by
      simp only [findOrbitForPlanet, createPlanets_shipped_earth, sceneWithEarthOrbit]
      decide
    ⟨h, C20_highlight_idempotent (createPlanets (constDraws 0) planetsConfig) sceneWithEarthOrbit
      .earth 7 h [1]⟩

/-! ### Selection, guide-paths and asteroids -/

/-- C21. The sequence `highlightOrbitFor(A); highlightOrbitFor(B); closeInfo()`, started
before the first selection (no style is saved for the two orbit paths, whose colour is a
hex colour and whose blending is `NormalBlending`, as `createPlanet` makes them), leaves
the path of `A` and the path of `B` with the colour, opacity, transparent flag and
blending they had, and leaves `highlightedOrbit` empty. -/
theorem C21_select_select_close (planetsObj : PlanetsObj) (page : Page) (state : Interactions)
    (keyA keyB : PlanetKey) (uuidA uuidB hexA hexB : Nat)
    (hA : findOrbitForPlanet planetsObj state keyA = some uuidA)
    (hB : findOrbitForPlanet planetsObj state keyB = some uuidB)
    (hnoneA : state.orbitOriginalStyles uuidA = none)
    (hnoneB : state.orbitOriginalStyles uuidB = none)
    (hhexA : hexA < 16777216) (hcolA : (state.material uuidA).color = Color.ofHex hexA)
    (hblendA : (state.material uuidA).blending = .normal)
    (hhexB : hexB < 16777216) (hcolB : (state.material uuidB).color = Color.ofHex hexB)
    (hblendB : (state.material uuidB).blending = .normal) :
    (closeInfo planetsObj page
      (highlightOrbitFor planetsObj (highlightOrbitFor planetsObj state keyA) keyB)).2.material
        uuidA = state.material uuidA ∧
    (closeInfo planetsObj page
      (highlightOrbitFor planetsObj (highlightOrbitFor planetsObj state keyA) keyB)).2.material
        uuidB = state.material uuidB ∧
    (closeInfo planetsObj page
      (highlightOrbitFor planetsObj (highlightOrbitFor planetsObj state keyA)
        keyB)).2.highlightedOrbit = none := by
  obtain ⟨getHex_ofHex, resetOrbits_spec, highlightOrbitFor_fresh, highlightOrbitFor_kept, -, -,
      -⟩ := selection_lemmas
  obtain ⟨findOrbitForPlanet_congr, -, -, -, -, -⟩ := highlight_lemmas
  -- a material that is restored from its own saved style
  have hback : ∀ (m : LineMaterial) (hex : Nat), hex < 16777216 → m.color = Color.ofHex hex →
      m.blending = .normal →
      ({ color := Color.ofHex m.color.getHex, opacity := m.opacity,
         transparent := m.transparent, blending := .normal } : LineMaterial) = m := by
    intro m hex hhex hcol hblend
    rw [hcol, getHex_ofHex hex hhex]
    cases m
    simp only at hcol hblend
    subst hcol hblend
    rfl
  obtain ⟨h1, h2, -, h4⟩ := highlightOrbitFor_fresh planetsObj state keyA uuidA hA hnoneA
  have hA1 : findOrbitForPlanet planetsObj (highlightOrbitFor planetsObj state keyA) keyA =
      some uuidA := by
    rw [findOrbitForPlanet_congr planetsObj _ state h1]
    exact hA
  have hB1 : findOrbitForPlanet planetsObj (highlightOrbitFor planetsObj state keyA) keyB =
      some uuidB := by
    rw [findOrbitForPlanet_congr planetsObj _ state h1]
    exact hB
  -- the saved styles after the second selection
  have hsaved : (highlightOrbitFor planetsObj (highlightOrbitFor planetsObj state keyA)
        keyB).planetSystem = state.planetSystem ∧
      (highlightOrbitFor planetsObj (highlightOrbitFor planetsObj state keyA)
        keyB).orbitOriginalStyles uuidA =
        some { color := (state.material uuidA).color.getHex
               opacity := (state.material uuidA).opacity
               transparent := (state.material uuidA).transparent } ∧
      (highlightOrbitFor planetsObj (highlightOrbitFor planetsObj state keyA)
        keyB).orbitOriginalStyles uuidB =
        some { color := (state.material uuidB).color.getHex
               opacity := (state.material uuidB).opacity
               transparent := (state.material uuidB).transparent } := by
    by_cases hu : uuidB = uuidA
    · subst hu
      have hs : (highlightOrbitFor planetsObj state keyA).orbitOriginalStyles uuidB =
          some { color := (state.material uuidB).color.getHex
                 opacity := (state.material uuidB).opacity
                 transparent := (state.material uuidB).transparent } := by
        rw [h2, Function.update_same]
      obtain ⟨k1, k2⟩ := highlightOrbitFor_kept planetsObj _ keyB uuidB hB1 _ hs
      exact ⟨k1.trans h1, by rw [k2, hs], by rw [k2, hs]⟩
    · have hs : (highlightOrbitFor planetsObj state keyA).orbitOriginalStyles uuidB = none := by
        rw [h2, Function.update_noteq hu, hnoneB]
      obtain ⟨f1, f2, -, -⟩ := highlightOrbitFor_fresh planetsObj _ keyB uuidB hB1 hs
      refine ⟨f1.trans h1, ?_, ?_⟩
      · rw [f2, Function.update_noteq (Ne.symm hu), h2, Function.update_same]
      · rw [f2, Function.update_same, h4 uuidB hu hnoneB]
  obtain ⟨hsys, hsA, hsB⟩ := hsaved
  have hspec := (resetOrbits_spec planetsObj PlanetKey.all
    (highlightOrbitFor planetsObj (highlightOrbitFor planetsObj state keyA) keyB)).2.2.2.2.2
  have hA2 : findOrbitForPlanet planetsObj
      (highlightOrbitFor planetsObj (highlightOrbitFor planetsObj state keyA) keyB) keyA =
      some uuidA := by
    rw [findOrbitForPlanet_congr planetsObj _ state hsys]
    exact hA
  have hB2 : findOrbitForPlanet planetsObj
      (highlightOrbitFor planetsObj (highlightOrbitFor planetsObj state keyA) keyB) keyB =
      some uuidB := by
    rw [findOrbitForPlanet_congr planetsObj _ state hsys]
    exact hB
  refine ⟨?_, ?_, rfl⟩
  · show (resetOrbits planetsObj PlanetKey.all _).material uuidA = _
    rw [(hspec uuidA).1 ⟨keyA, PlanetKey.mem_all keyA, hA2⟩]
    unfold resetMaterial
    rw [hsA]
    exact hback _ hexA hhexA hcolA hblendA
  · show (resetOrbits planetsObj PlanetKey.all _).material uuidB = _
    rw [(hspec uuidB).1 ⟨keyB, PlanetKey.mem_all keyB, hB2⟩]
    unfold resetMaterial
    rw [hsB]
    exact hback _ hexB hhexB hcolB hblendB

/-- C21 for a scene in which the groups of the Earth and of Mars each hold an orbit line
(`uuid` 7 and 9, white, `NormalBlending`): the Earth is selected, then Mars, then the
selection is closed. -/
theorem C21_select_select_close_witness :
    (findOrbitForPlanet (createPlanets (constDraws 0) planetsConfig) sceneWithTwoOrbits .earth =
        some 7 ∧
      findOrbitForPlanet (createPlanets (constDraws 0) planetsConfig) sceneWithTwoOrbits .mars =
        some 9 ∧
      sceneWithTwoOrbits.orbitOriginalStyles 7 = none ∧
      sceneWithTwoOrbits.orbitOriginalStyles 9 = none ∧
      16777215 < 16777216 ∧
      (sceneWithTwoOrbits.material 7).color = Color.ofHex 16777215 ∧
      (sceneWithTwoOrbits.material 7).blending = .normal ∧
      (sceneWithTwoOrbits.material 9).color = Color.ofHex 16777215 ∧
      (sceneWithTwoOrbits.material 9).blending = .normal) ∧
    ((closeInfo (createPlanets (constDraws 0) planetsConfig)
        { accelerationOrbit := 2, controlsTarget := { x := 1, y := 0, z := 0 },
          infoShown := true, followPanelShown := true }
        (highlightOrbitFor (createPlanets (constDraws 0) planetsConfig)
          (highlightOrbitFor (createPlanets (constDraws 0) planetsConfig) sceneWithTwoOrbits
            .earth) .mars)).2.material 7 = sceneWithTwoOrbits.material 7 ∧
      (closeInfo (createPlanets (constDraws 0) planetsConfig)
        { accelerationOrbit := 2, controlsTarget := { x := 1, y := 0, z := 0 },
          infoShown := true, followPanelShown := true }
        (highlightOrbitFor (createPlanets (constDraws 0) planetsConfig)
          (highlightOrbitFor (createPlanets (constDraws 0) planetsConfig) sceneWithTwoOrbits
            .earth) .mars)).2.material 9 = sceneWithTwoOrbits.material 9 ∧
      (closeInfo (createPlanets (constDraws 0) planetsConfig)
        { accelerationOrbit := 2, controlsTarget := { x := 1, y := 0, z := 0 },
          infoShown := true, followPanelShown := true }
        (highlightOrbitFor (createPlanets (constDraws 0) planetsConfig)
          (highlightOrbitFor (createPlanets (constDraws 0) planetsConfig) sceneWithTwoOrbits
            .earth) .mars)).2.highlightedOrbit = none) := by
  obtain ⟨-, -, sceneWithTwoOrbits_found⟩ := shipped_lemmas
  obtain ⟨hearth, hmars⟩ := sceneWithTwoOrbits_found
  exact ⟨⟨hearth, hmars, rfl, rfl, by norm_num, rfl, rfl, rfl, rfl⟩,
    C21_select_select_close _ _ sceneWithTwoOrbits .earth .mars 7 9 16777215 16777215 hearth
      hmars rfl rfl (by norm_num) rfl rfl (by norm_num) rfl rfl⟩

/-- C23, as stated, fails: with the Earth selected, `closeInfo` leaves `selectedPlanet`
set, and `updateOnFrame` goes on calling `updateFollowPanel` for the Earth. -/
theorem C23_counterexample_selection_kept :
    (closeInfo (createPlanets (constDraws 0) planetsConfig)
      { accelerationOrbit := 2, controlsTarget := { x := 1, y := 0, z := 0 },
        infoShown := true, followPanelShown := true }
      { sceneWithEarthOrbit with selectedPlanet := some .earth }).2.selectedPlanet ≠ none ∧
    followed (closeInfo (createPlanets (constDraws 0) planetsConfig)
      { accelerationOrbit := 2, controlsTarget := { x := 1, y := 0, z := 0 },
        infoShown := true, followPanelShown := true }
      { sceneWithEarthOrbit with selectedPlanet := some .earth }).2 = some .earth := by
  obtain ⟨-, resetOrbits_spec, -, -, -, -, -⟩ := selection_lemmas
  have h := (resetOrbits_spec (createPlanets (constDraws 0) planetsConfig) PlanetKey.all
    { sceneWithEarthOrbit with selectedPlanet := some .earth }).2.1
  have h' : (closeInfo (createPlanets (constDraws 0) planetsConfig)
      { accelerationOrbit := 2, controlsTarget := { x := 1, y := 0, z := 0 },
        infoShown := true, followPanelShown := true }
      { sceneWithEarthOrbit with selectedPlanet := some .earth }).2.selectedPlanet =
      some .earth := h
  refine ⟨?_, h'⟩
  rw [h']
  exact Option.some_ne_none _

/-- C23. After `closeInfo()`, whatever was selected before, `highlightedOrbit` is `null`,
`settings.accelerationOrbit` is `1` and the follow panel is hidden; `selectedPlanet` is as
it was before, so the next `updateOnFrame` calls `updateFollowPanel` for the body that was
selected, on the hidden panel. -/
theorem C23_closeInfo (planetsObj : PlanetsObj) (page : Page) (state : Interactions) :
    (closeInfo planetsObj page state).2.highlightedOrbit = none ∧
    (closeInfo planetsObj page state).1.accelerationOrbit = 1 ∧
    (closeInfo planetsObj page state).1.followPanelShown = false ∧
    (closeInfo planetsObj page state).2.selectedPlanet = state.selectedPlanet ∧
    followed (closeInfo planetsObj page state).2 = state.selectedPlanet := by
  obtain ⟨-, resetOrbits_spec, -, -, -, -, -⟩ := selection_lemmas
  exact
    ⟨rfl, rfl, rfl, (resetOrbits_spec planetsObj PlanetKey.all state).2.1,
      (resetOrbits_spec planetsObj PlanetKey.all state).2.1⟩

/-- C24. In the scene that `createPlanets` builds from the shipped table, a click on the
atmosphere shell of the Earth resolves to the Earth, whose guide-path `createPlanet` has
created; `findOrbitForPlanet` finds no line in the group of the Earth, and after the click
the Earth is selected, `highlightedOrbit` is still `null` and no material has the
highlight style. -/
theorem C24_orbit_not_highlighted :
    identifyPlanet (createPlanets (constDraws 0) planetsConfig) (some (.atmosphere "Earth")) =
      .planet (createPlanet "Earth" earthConfig (constDraws 0 3)) 25 ∧
    (createOrbit "Earth" earthConfig).isSome = true ∧
    findOrbitForPlanet (createPlanets (constDraws 0) planetsConfig)
      (initInteractions (createPlanets (constDraws 0) planetsConfig) fun _ i => i) .earth =
      none ∧
    (onDocumentMouseDown (createPlanets (constDraws 0) planetsConfig)
      (initInteractions (createPlanets (constDraws 0) planetsConfig) fun _ i => i)
      (some (.atmosphere "Earth"))).selectedPlanet = some .earth ∧
    (onDocumentMouseDown (createPlanets (constDraws 0) planetsConfig)
      (initInteractions (createPlanets (constDraws 0) planetsConfig) fun _ i => i)
      (some (.atmosphere "Earth"))).highlightedOrbit = none ∧
    (onDocumentMouseDown (createPlanets (constDraws 0) planetsConfig)
      (initInteractions (createPlanets (constDraws 0) planetsConfig) fun _ i => i)
      (some (.atmosphere "Earth"))).material =
      (initInteractions (createPlanets (constDraws 0) planetsConfig) fun _ i => i).material := by
  obtain ⟨-, -, -, -, -, findOrbitForPlanet_initInteractions,
      highlightOrbitFor_of_no_orbit⟩ := selection_lemmas
  obtain ⟨createPlanets_shipped, identifyPlanet_shipped, -⟩ := shipped_lemmas
  obtain ⟨hm, hv, he, -, -, -, -, -, -⟩ := createPlanets_shipped (constDraws 0)
  obtain ⟨-, -, -, hid, -, -, -, -, -, -, -, -⟩ := identifyPlanet_shipped (constDraws 0)
  have hname : ∀ (name : String) (config : Config) (rnd : Nat → ℝ),
      (createPlanet name config rnd).name = name := fun _ _ _ => rfl
  have hkey : keyOf (createPlanets (constDraws 0) planetsConfig)
      (createPlanet "Earth" earthConfig (constDraws 0 3)) = some .earth := by
    unfold keyOf
    simp [PlanetKey.all, List.find?, hm, hv, he, hname]
  have hnone : ∀ (state : Interactions),
      state.planetSystem =
        (initInteractions (createPlanets (constDraws 0) planetsConfig) fun _ i => i).planetSystem →
      ∀ key, findOrbitForPlanet (createPlanets (constDraws 0) planetsConfig) state key = none :=
    fun state hsys key => findOrbitForPlanet_initInteractions _ _ state hsys key
  have hclick : onDocumentMouseDown (createPlanets (constDraws 0) planetsConfig)
      (initInteractions (createPlanets (constDraws 0) planetsConfig) fun _ i => i)
      (some (.atmosphere "Earth")) =
      { (initInteractions (createPlanets (constDraws 0) planetsConfig) fun _ i => i) with
        offset := 25, selectedPlanet := some .earth } := by
    unfold onDocumentMouseDown
    simp only [hid, hkey]
    exact highlightOrbitFor_of_no_orbit _
      { (initInteractions (createPlanets (constDraws 0) planetsConfig) fun _ i => i) with
        offset := 25, selectedPlanet := some .earth } (hnone _ rfl) _
  refine ⟨hid, ?_, hnone _ rfl _, ?_, ?_, ?_⟩
  · unfold createOrbit
    simp
  · rw [hclick]
  · rw [hclick]
    rfl
  · rw [hclick]

/-- C25, as stated, fails: a body named `'Pluto'` with `orbitPeriod = 0` gets a guide-path,
and a body named `'Sun'` with `orbitPeriod = 365.25` gets none. -/
theorem C25_counterexample_name_decides :
    sunConfig.physical.orbitPeriod = some 0 ∧
    (createOrbit "Pluto" sunConfig).isSome = true ∧
    earthConfig.physical.orbitPeriod = some 365.25 ∧
    createOrbit "Sun" earthConfig = none := by
  refine ⟨rfl, ?_, rfl, ?_⟩
  · unfold createOrbit
    simp
  · unfold createOrbit
    simp

/-- C25. `createPlanet` creates an orbit guide-path for a body exactly when its name is
not `'Sun'`, whatever its `orbitPeriod`. In the shipped table the body named `'Sun'` is
the only one whose `orbitPeriod` is `0`, so there a body has a guide-path exactly when its
`orbitPeriod` is not `0`. -/
theorem C25_guide_path_iff_not_sun (name : String) (config : Config) :
    ((createOrbit name config).isSome = true ↔ name ≠ "Sun") ∧
    (∀ entry ∈ planetsConfig,
      ((createOrbit entry.1 entry.2).isSome = true ↔ entry.2.physical.orbitPeriod ≠ some 0)) := by
  have hiff : ∀ (n : String) (c : Config), (createOrbit n c).isSome = true ↔ n ≠ "Sun" := by
    intro n c
    unfold createOrbit
    by_cases h : n = "Sun"
    · simp [h]
    · simp [h]
  refine ⟨hiff name config, ?_⟩
  intro entry hmem
  rw [hiff]
  simp only [planetsConfig, List.mem_cons, List.mem_singleton, List.not_mem_nil, or_false] at hmem
  rcases hmem with h | h | h | h | h | h | h | h | h | h <;> subst h <;>
    norm_num [sunConfig, mercuryConfig, venusConfig, earthConfig, marsConfig, jupiterConfig,
      saturnConfig, uranusConfig, neptuneConfig, plutoConfig, physicalOf] <;>
    decide

/-- C26, as stated, fails: for a table in which Mercury has the eccentricity `1`,
`createPlanets` raises no error; it registers the body built from that entry, with the
semi-minor axis `b = 40 * sqrt (1 - 1 * 1) = 0` stored in its animation data. -/
theorem C26_counterexample_no_validation :
    ∃ (body : Body) (d : EllipticalData),
      (createPlanets (constDraws 0)
        [("Sun", sunConfig),
         ("Mercury", { mercuryConfig with
            physical := { mercuryConfig.physical with eccentricity := some 1 } })]).planets
        .mercury = some body ∧
      body.config.physical.eccentricity = some 1 ∧
      body.planet.animationData.ellipse = some d ∧
      d.eccentricity = 1 ∧ d.b = 0 := by
  obtain ⟨-, ellipticalData_def, -, -, createPlanet_def, createPlanets_def, -, -, -, -, -, -, -, -,
      -, -, -, -, -, -, registerAll_nil, registerAll_cons, -, -, -, -⟩ := unfold_lemmas
  obtain ⟨-, -, -, -, -, -, lower_names, -, -, -, -, -, -, -, -, -, -, -, -, -, -, -,
      -, -, -, -, -, -⟩ := step_lemmas
  obtain ⟨h1, -, -, -, -, -, -, -, -⟩ := lower_names
  refine ⟨createPlanet "Mercury" { mercuryConfig with
      physical := { mercuryConfig.physical with eccentricity := some 1 } } (constDraws 0 1),
    ellipticalData { mercuryConfig.physical with eccentricity := some 1 }, ?_, rfl, ?_, ?_, ?_⟩
  · simp [createPlanets_def, registerAll_nil, registerAll_cons, registerBody, PlanetKey.name, h1]
  · simp [createPlanet_def]
  · simp [ellipticalData_def, orElse]
  · simp [ellipticalData_def, orElse]

/-- C26. `createPlanets` validates nothing: whatever the eccentricities of the table, the
core mesh of every entry whose name is not `'Sun'` is in the pick list, the body built
from such an entry carries the ellipse data computed from the entry's eccentricity `e`,
with `b = a * sqrt (1 - e * e)`, and every entry of `planets` is such a body. -/
theorem C26_no_validation (rnd : Nat → Nat → ℝ) (table : ConfigTable) :
    (∀ (i : Nat) (name : String) (config : Config), table[i]? = some (name, config) →
      name ≠ "Sun" →
      PickTarget.planet name ∈ (createPlanets rnd table).raycastTargets ∧
      (createPlanet name config (rnd i)).planet.animationData.ellipse =
        some (ellipticalData config.physical) ∧
      (ellipticalData config.physical).b =
        config.physical.distance *
          Real.sqrt (1 - config.physical.eccentricity.getD 0 *
            config.physical.eccentricity.getD 0)) ∧
    (∀ (key : PlanetKey) (body : Body), (createPlanets rnd table).planets key = some body →
      ∃ (i : Nat) (name : String) (config : Config),
        table[i]? = some (name, config) ∧ name ≠ "Sun" ∧
        body = createPlanet name config (rnd i) ∧
        body.planet.animationData.ellipse = some (ellipticalData config.physical)) := by
  obtain ⟨orElse_zero, -, -, -⟩ := orbit_geometry
  obtain ⟨-, ellipticalData_def, -, -, createPlanet_def, createPlanets_def, -, -, -, -, -, -, -, -,
      -, -, -, -, -, -, -, -, -, -, -, -⟩ := unfold_lemmas
  obtain ⟨-, registerAll_raycastTargets, -, -, -, registerAll_byName_sound, -, -, -⟩ :=
    registry_lemmas
  have hellipse : ∀ (name : String) (config : Config) (draws : Nat → ℝ), name ≠ "Sun" →
      (createPlanet name config draws).planet.animationData.ellipse =
        some (ellipticalData config.physical) := by
    intro name config draws hname
    simp [createPlanet_def, hname]
  constructor
  · intro i name config hi hname
    refine ⟨?_, hellipse name config (rnd i) hname, ?_⟩
    · simp only [createPlanets_def, registerAll_raycastTargets, List.nil_append,
        List.mem_flatMap]
      refine ⟨(name, config), List.getElem?_mem hi, ?_⟩
      simp [hname]
    · simp [ellipticalData_def, orElse_zero]
  · intro key body hbody
    have hbody' : (registerAll rnd 0 table
        { sun := none, byName := fun _ => none, raycastTargets := [] }).byName key.name =
        some body := by
      simpa [createPlanets_def] using hbody
    rcases registerAll_byName_sound rnd key.name table 0 _ body hbody' with
      ⟨h, -⟩ | ⟨i, name, config, hi, hname, -, hb, -⟩
    · simp at h
    · refine ⟨i, name, config, hi, hname, ?_, ?_⟩
      · simpa using hb
      · rw [hb]
        exact hellipse name config _ hname

/-- C27, as stated, fails: for the day/night-shader body (`'Earth'` with `customShader`)
the tilt of the atmosphere shell follows the axial tilt: `23π/180` for the shipped tilt of
23 degrees, `0` for a tilt of 0. -/
theorem C27_counterexample_shader_body :
    (createPlanet "Earth" earthConfig (constDraws 0 3)).planet.material = .dayNightShader ∧
    (createPlanet "Earth" earthConfig (constDraws 0 3)).Atmosphere =
      some { rotationZ := 23 * Real.pi / 180, spinY := 0 } ∧
    (createPlanet "Earth"
      { earthConfig with physical := { earthConfig.physical with tilt := some 0 } }
      (constDraws 0 3)).planet.material = .dayNightShader ∧
    (createPlanet "Earth"
      { earthConfig with physical := { earthConfig.physical with tilt := some 0 } }
      (constDraws 0 3)).Atmosphere = some { rotationZ := 0, spinY := 0 } ∧
    23 * Real.pi / 180 ≠ 0 := by
  obtain ⟨-, -, -, -, createPlanet_def, -, -, -, -, -, -, -, -, -, -, -, -, -, -, -, -,
      -, -, -, -, -⟩ := unfold_lemmas
  refine ⟨?_, ?_, ?_, ?_, ?_⟩
  · simp [createPlanet_def, chooseMaterial, earthConfig]
  · simp [createPlanet_def, earthConfig, physicalOf, orElse]
  · simp [createPlanet_def, chooseMaterial, earthConfig]
  · simp [createPlanet_def, earthConfig, physicalOf, orElse]
  · have := Real.pi_pos
    positivity

/-- C27. For every body, the atmosphere shell exists exactly when `assets.atmosphere` is
set, and its initial tilt is the body's own tilt in radians, `tilt * π / 180` (`0` when
the tilt is missing), also for the day/night-shader body. -/
theorem C27_atmosphere_tilt (name : String) (config : Config) (rnd : Nat → ℝ) :
    (createPlanet name config rnd).Atmosphere =
      if config.assets.atmosphere = true then
        some { rotationZ := config.physical.tilt.getD 0 * Real.pi / 180, spinY := 0 }
      else none := by
  obtain ⟨orElse_zero, -, -, -⟩ := orbit_geometry
  obtain ⟨-, -, -, -, createPlanet_def, -, -, -, -, -, -, -, -, -, -, -, -, -, -, -, -,
      -, -, -, -, -⟩ := unfold_lemmas
  simp only [createPlanet_def, orElse_zero]

/-- C28, as stated, fails: the core mesh of the Earth is an entry of the pick list built
from the shipped table, the Earth is registered, and `identifyPlanet` applied to the core
mesh returns `null`. -/
theorem C28_counterexample_earth_core :
    PickTarget.planet "Earth" ∈ (createPlanets (constDraws 0) planetsConfig).raycastTargets ∧
    (createPlanets (constDraws 0) planetsConfig).planets .earth =
      some (createPlanet "Earth" earthConfig (constDraws 0 3)) ∧
    identifyPlanet (createPlanets (constDraws 0) planetsConfig) (some (.planet "Earth")) =
      .null := by
  obtain ⟨createPlanets_shipped, identifyPlanet_shipped, -⟩ := shipped_lemmas
  obtain ⟨hlist, -, -, -, -, -, -, -, -, -, -, hearth⟩ := identifyPlanet_shipped (constDraws 0)
  obtain ⟨-, -, he, -, -, -, -, -, -⟩ := createPlanets_shipped (constDraws 0)
  refine ⟨?_, he, hearth⟩
  rw [hlist]
  decide

/-- C28. Of the eleven objects of the pick list built from the shipped table, the seven
core meshes of Mercury, Mars, Jupiter, Saturn, Uranus, Neptune and Pluto and the two
atmosphere shells resolve to their owner; for the core meshes of Venus and the Earth,
which lie inside their atmosphere shells, `identifyPlanet` returns `null`. -/
theorem C28_pick_list_resolves (rnd : Nat → Nat → ℝ) :
    (createPlanets rnd planetsConfig).raycastTargets =
      [.planet "Mercury", .planet "Venus", .atmosphere "Venus", .planet "Earth",
       .atmosphere "Earth", .planet "Mars", .planet "Jupiter", .planet "Saturn",
       .planet "Uranus", .planet "Neptune", .planet "Pluto"] ∧
    identifyPlanet (createPlanets rnd planetsConfig) (some (.planet "Mercury")) =
      .planet (createPlanet "Mercury" mercuryConfig (rnd 1)) 10 ∧
    identifyPlanet (createPlanets rnd planetsConfig) (some (.atmosphere "Venus")) =
      .planet (createPlanet "Venus" venusConfig (rnd 2)) 25 ∧
    identifyPlanet (createPlanets rnd planetsConfig) (some (.atmosphere "Earth")) =
      .planet (createPlanet "Earth" earthConfig (rnd 3)) 25 ∧
    identifyPlanet (createPlanets rnd planetsConfig) (some (.planet "Mars")) =
      .planet (createPlanet "Mars" marsConfig (rnd 4)) 15 ∧
    identifyPlanet (createPlanets rnd planetsConfig) (some (.planet "Jupiter")) =
      .planet (createPlanet "Jupiter" jupiterConfig (rnd 5)) 50 ∧
    identifyPlanet (createPlanets rnd planetsConfig) (some (.planet "Saturn")) =
      .planet (createPlanet "Saturn" saturnConfig (rnd 6)) 50 ∧
    identifyPlanet (createPlanets rnd planetsConfig) (some (.planet "Uranus")) =
      .planet (createPlanet "Uranus" uranusConfig (rnd 7)) 25 ∧
    identifyPlanet (createPlanets rnd planetsConfig) (some (.planet "Neptune")) =
      .planet (createPlanet "Neptune" neptuneConfig (rnd 8)) 20 ∧
    identifyPlanet (createPlanets rnd planetsConfig) (some (.planet "Pluto")) =
      .planet (createPlanet "Pluto" plutoConfig (rnd 9)) 10 ∧
    identifyPlanet (createPlanets rnd planetsConfig) (some (.planet "Venus")) = .null ∧
    identifyPlanet (createPlanets rnd planetsConfig) (some (.planet "Earth")) = .null := by
  obtain ⟨-, identifyPlanet_shipped, -⟩ := shipped_lemmas
  exact
    identifyPlanet_shipped rnd

/-- C29. For a body whose name is not `'Sun'`, with `a > 0` and `0 ≤ e < 1`: the guide-path
`createPlanet` draws has 129 points, point `i` is the orbit position at
`θ = (i / 128) * π * 2`, points 0 and 128 coincide, and every point satisfies
`((x + c) / a) ^ 2 + (z / b) ^ 2 = 1` with `y = 0` for the stored `a`, `b`, `c`; and every
position an `animate` step writes to `planet3d` of an entry with a positive `orbitPeriod`
that carries these data satisfies the same equation. -/
theorem C29_moves_on_drawn_orbit (name : String) (config : Config) (hname : name ≠ "Sun")
    (ha : 0 < config.physical.distance)
    (he0 : 0 ≤ config.physical.eccentricity.getD 0)
    (he1 : config.physical.eccentricity.getD 0 < 1) :
    (∃ points : List Vec3,
      createOrbit name config = some points ∧ points.length = 129 ∧
      points[0]? = points[128]? ∧
      (∀ i : Nat, i ≤ 128 →
        points[i]? = some (orbitPoint (ellipticalData config.physical).a
          (ellipticalData config.physical).b (ellipticalData config.physical).c
          (((i : ℝ) / 128) * Real.pi * 2))) ∧
      ∀ p ∈ points,
        ((p.x + (ellipticalData config.physical).c) / (ellipticalData config.physical).a) ^ 2 +
          (p.z / (ellipticalData config.physical).b) ^ 2 = 1 ∧ p.y = 0) ∧
    (∀ rnd : Nat → ℝ, (createPlanet name config rnd).planet.animationData.ellipse =
      some (ellipticalData config.physical)) ∧
    (∀ (rnd : PlanetKey → Nat → ℝ) (dt timeScale : ℝ) (planetsObj : PlanetsObj)
        (key : PlanetKey) (planetObj : Body) (orbitPeriod : ℝ),
      planetsObj.planets key = some planetObj →
      planetObj.config.physical.orbitPeriod = some orbitPeriod → 0 < orbitPeriod →
      planetObj.planet.animationData.ellipse = some (ellipticalData config.physical) →
      ∃ (after : Body) (p : Vec3),
        (animate rnd dt timeScale planetsObj).planets key = some after ∧
        after.planet.animationData.ellipse = some (ellipticalData config.physical) ∧
        after.planet3d.position = some p ∧
        ((p.x + (ellipticalData config.physical).c) / (ellipticalData config.physical).a) ^ 2 +
          (p.z / (ellipticalData config.physical).b) ^ 2 = 1 ∧ p.y = 0) := by
  obtain ⟨orElse_zero, -, -, -⟩ := orbit_geometry
  obtain ⟨orbitPoint_def, ellipticalData_def, ellipsePoints_def, -, createPlanet_def, -, -, -,
      keplerPosition_def, -, -, -, -, -, -, -, -, -, -, -, -, -, -, -, -, -⟩ := unfold_lemmas
  obtain ⟨animate_planets, -, -, -, -, -, -, -, -, -, -, -, -, -, -, -, -, -, -, -, -, -,
      -, -, -, -, -, -⟩ := step_lemmas
  obtain ⟨-, -, -, -, -, -, -, -, -, -, -, -, -, -, -, -, -, -, -, -, -,
      animateEntry_position_of_pos⟩ := zero_step_lemmas
  set e := config.physical.eccentricity.getD 0 with hedef
  have hda : (ellipticalData config.physical).a = config.physical.distance := rfl
  have hane : (ellipticalData config.physical).a ≠ 0 := by
    rw [hda]
    exact ne_of_gt ha
  have hbpos : 0 < (ellipticalData config.physical).b := by
    have hb : (ellipticalData config.physical).b =
        config.physical.distance * Real.sqrt (1 - e * e) := by
      simp [ellipticalData_def, orElse_zero, hedef]
    rw [hb]
    have : 0 < 1 - e * e := by nlinarith
    exact mul_pos ha (Real.sqrt_pos.2 this)
  have hbne : (ellipticalData config.physical).b ≠ 0 := ne_of_gt hbpos
  -- every orbit position is on the ellipse
  have hon : ∀ theta : ℝ,
      (((orbitPoint (ellipticalData config.physical).a (ellipticalData config.physical).b
          (ellipticalData config.physical).c theta).x + (ellipticalData config.physical).c) /
          (ellipticalData config.physical).a) ^ 2 +
        ((orbitPoint (ellipticalData config.physical).a (ellipticalData config.physical).b
          (ellipticalData config.physical).c theta).z /
          (ellipticalData config.physical).b) ^ 2 = 1 ∧
      (orbitPoint (ellipticalData config.physical).a (ellipticalData config.physical).b
          (ellipticalData config.physical).c theta).y = 0 := by
    intro theta
    refine ⟨?_, rfl⟩
    simp only [orbitPoint_def]
    rw [sub_add_cancel, mul_div_cancel_left₀ _ hane, mul_div_cancel_left₀ _ hbne]
    exact Real.cos_sq_add_sin_sq theta
  have hpoint : ∀ i : Nat, i ≤ 128 →
      (ellipsePoints (ellipticalData config.physical))[i]? =
        some (orbitPoint (ellipticalData config.physical).a (ellipticalData config.physical).b
          (ellipticalData config.physical).c (((i : ℝ) / 128) * Real.pi * 2)) := by
    intro i hi
    rw [ellipsePoints_def, List.getElem?_map, List.getElem?_range (by omega)]
    rfl
  refine ⟨⟨ellipsePoints (ellipticalData config.physical), ?_, ?_, ?_, hpoint, ?_⟩, ?_, ?_⟩
  · unfold createOrbit
    simp [hname]
  · simp [ellipsePoints_def]
  · rw [hpoint 0 (by norm_num), hpoint 128 (by norm_num)]
    have h128 : ((128 : ℕ) : ℝ) / 128 * Real.pi * 2 = 2 * Real.pi := by
      push_cast
      ring
    have h0 : ((0 : ℕ) : ℝ) / 128 * Real.pi * 2 = 0 := by simp
    rw [h128, h0]
    simp [orbitPoint_def]
  · intro p hp
    obtain ⟨i, hi⟩ := List.mem_iff_getElem?.1 hp
    have hlt : i < 129 := by
      have := (List.getElem?_eq_some_iff.1 hi).1
      simpa [ellipsePoints_def] using this
    rw [hpoint i (by omega)] at hi
    cases hi
    exact hon _
  · intro rnd
    simp [createPlanet_def, hname]
  · intro rnd dt timeScale planetsObj key planetObj orbitPeriod hkey hperiod hpos hd
    obtain ⟨h1, h2⟩ := animateEntry_position_of_pos (rnd key) (dt * timeScale) key planetObj
      orbitPeriod hperiod hpos
    refine ⟨animateEntry (rnd key) (dt * timeScale) key planetObj,
      orbitPoint (ellipticalData config.physical).a (ellipticalData config.physical).b
        (ellipticalData config.physical).c
        (planetObj.planet.animationData.angle + (dt * timeScale / orbitPeriod) * 2 * Real.pi),
      ?_, ?_, ?_, hon _⟩
    · rw [animate_planets, hkey]
      rfl
    · rw [h2]
      exact hd
    · rw [h1]
      simp only [keplerPosition_def, hd]

/-- C29 at the shipped entry `Earth` (`a = 90`, `e = 0.017`). -/
theorem C29_moves_on_drawn_orbit_witness :
    ("Earth" ≠ "Sun" ∧ 0 < earthConfig.physical.distance ∧
      0 ≤ earthConfig.physical.eccentricity.getD 0 ∧
      earthConfig.physical.eccentricity.getD 0 < 1) ∧
    (createPlanet "Earth" earthConfig (constDraws 0 3)).planet.animationData.ellipse =
      some (ellipticalData earthConfig.physical) := by
  have h1 : "Earth" ≠ "Sun" := by decide
  have h2 : 0 < earthConfig.physical.distance := by norm_num [earthConfig, physicalOf]
  have h3 : 0 ≤ earthConfig.physical.eccentricity.getD 0 := by
    norm_num [earthConfig, physicalOf]
  have h4 : earthConfig.physical.eccentricity.getD 0 < 1 := by
    norm_num [earthConfig, physicalOf]
  exact ⟨⟨h1, h2, h3, h4⟩,
    (C29_moves_on_drawn_orbit "Earth" earthConfig h1 h2 h3 h4).2.1 (constDraws 0 3)⟩

/-- C30. The asteroid update keeps `x ^ 2 + z ^ 2` and `y`, and with `timeScale = 0` it
leaves the asteroid as it is. An asteroid that `loadAsteroids` has placed, at an orbit
radius `r = randFloat(min, max)` with `min ≤ r ≤ max`, sits at height `0` and at distance
`r` from the axis of the Sun, and it does so after any run of frames. -/
theorem C30_asteroid_rotation (minOrbitRadius maxOrbitRadius r1 r2 r3 : ℝ)
    (hmin : 0 ≤ minOrbitRadius) (hle : minOrbitRadius ≤ maxOrbitRadius)
    (hr0 : 0 ≤ r1) (hr1 : r1 ≤ 1) :
    (∀ (timeScale : ℝ) (asteroid : Asteroid),
      (updateAsteroid timeScale asteroid).position.x ^ 2 +
          (updateAsteroid timeScale asteroid).position.z ^ 2 =
        asteroid.position.x ^ 2 + asteroid.position.z ^ 2 ∧
      (updateAsteroid timeScale asteroid).position.y = asteroid.position.y) ∧
    (∀ asteroid : Asteroid, updateAsteroid 0 asteroid = asteroid) ∧
    (minOrbitRadius ≤ randFloat minOrbitRadius maxOrbitRadius r1 ∧
      randFloat minOrbitRadius maxOrbitRadius r1 ≤ maxOrbitRadius) ∧
    (∀ (frames : List ((PlanetKey → Nat → ℝ) × ℝ × ℝ)) (planetsObj : PlanetsObj) (i : Nat),
      planetsObj.asteroids[i]? =
        some (placeAsteroid minOrbitRadius maxOrbitRadius r1 r2 r3) →
      ∃ after : Asteroid,
        (animateFrames frames planetsObj).asteroids[i]? = some after ∧
        Real.sqrt (after.position.x ^ 2 + after.position.z ^ 2) =
          randFloat minOrbitRadius maxOrbitRadius r1 ∧
        after.position.y = 0) := by
  obtain ⟨-, -, -, -, -, -, -, -, -, -, -, -, -, -, -, -, -, -, -, -, -, -, -, -,
      animateFrames_nil, animateFrames_cons⟩ := unfold_lemmas
  have hstep : ∀ (timeScale : ℝ) (asteroid : Asteroid),
      (updateAsteroid timeScale asteroid).position.x ^ 2 +
          (updateAsteroid timeScale asteroid).position.z ^ 2 =
        asteroid.position.x ^ 2 + asteroid.position.z ^ 2 ∧
      (updateAsteroid timeScale asteroid).position.y = asteroid.position.y := by
    intro timeScale asteroid
    refine ⟨?_, rfl⟩
    unfold updateAsteroid
    simp only
    have h := Real.cos_sq_add_sin_sq (0.0001 * timeScale)
    linear_combination (asteroid.position.x ^ 2 + asteroid.position.z ^ 2) * h
  have hlo : minOrbitRadius ≤ randFloat minOrbitRadius maxOrbitRadius r1 := by
    unfold randFloat
    have := mul_nonneg hr0 (sub_nonneg.2 hle)
    linarith
  have hhi : randFloat minOrbitRadius maxOrbitRadius r1 ≤ maxOrbitRadius := by
    unfold randFloat
    have := mul_le_mul_of_nonneg_right hr1 (sub_nonneg.2 hle)
    linarith
  have hframes : ∀ (frames : List ((PlanetKey → Nat → ℝ) × ℝ × ℝ)) (planetsObj : PlanetsObj)
      (i : Nat) (asteroid : Asteroid), planetsObj.asteroids[i]? = some asteroid →
      ∃ after : Asteroid,
        (animateFrames frames planetsObj).asteroids[i]? = some after ∧
        after.position.x ^ 2 + after.position.z ^ 2 =
          asteroid.position.x ^ 2 + asteroid.position.z ^ 2 ∧
        after.position.y = asteroid.position.y := by
    intro frames
    induction frames with
    | nil =>
      intro planetsObj i asteroid h
      exact ⟨asteroid, by rw [animateFrames_nil]; exact h, rfl, rfl⟩
    | cons frame rest ih =>
      intro planetsObj i asteroid h
      obtain ⟨rnd, dt, timeScale⟩ := frame
      have hnext : (animate rnd dt timeScale planetsObj).asteroids[i]? =
          some (updateAsteroid timeScale asteroid) := by
        show (planetsObj.asteroids.map (updateAsteroid timeScale))[i]? = _
        rw [List.getElem?_map, h]
        rfl
      obtain ⟨after, h1, h2, h3⟩ := ih _ i _ hnext
      refine ⟨after, by rw [animateFrames_cons]; exact h1, ?_, ?_⟩
      · rw [h2]
        exact (hstep timeScale asteroid).1
      · rw [h3]
        exact (hstep timeScale asteroid).2
  refine ⟨hstep, ?_, ⟨hlo, hhi⟩, ?_⟩
  · intro asteroid
    unfold updateAsteroid
    simp only [mul_zero, Real.cos_zero, Real.sin_zero, mul_one, sub_zero, zero_add, add_zero]
  · intro frames planetsObj i h
    obtain ⟨after, h1, h2, h3⟩ := hframes frames planetsObj i _ h
    refine ⟨after, h1, ?_, ?_⟩
    · rw [h2]
      have hplaced : (placeAsteroid minOrbitRadius maxOrbitRadius r1 r2 r3).position.x ^ 2 +
          (placeAsteroid minOrbitRadius maxOrbitRadius r1 r2 r3).position.z ^ 2 =
          randFloat minOrbitRadius maxOrbitRadius r1 ^ 2 := by
        unfold placeAsteroid
        simp only
        have h := Real.cos_sq_add_sin_sq (r2 * Real.pi * 2)
        linear_combination randFloat minOrbitRadius maxOrbitRadius r1 ^ 2 * h
      rw [hplaced]
      exact Real.sqrt_sq (le_trans hmin hlo)
    · rw [h3]
      rfl

/-- C30 for the first belt of `main.js` (`min = 130`, `max = 180`), with all random draws
`0.5`: the asteroid is placed at radius `155`. -/
theorem C30_asteroid_rotation_witness :
    ((0 : ℝ) ≤ 130 ∧ (130 : ℝ) ≤ 180 ∧ (0 : ℝ) ≤ 0.5 ∧ (0.5 : ℝ) ≤ 1) ∧
    (130 ≤ randFloat 130 180 0.5 ∧ randFloat 130 180 0.5 ≤ 180) := by
  have h1 : (0 : ℝ) ≤ 130 := by norm_num
  have h2 : (130 : ℝ) ≤ 180 := by norm_num
  have h3 : (0 : ℝ) ≤ 0.5 := by norm_num
  have h4 : (0.5 : ℝ) ≤ 1 := by norm_num
  exact ⟨⟨h1, h2, h3, h4⟩, (C30_asteroid_rotation 130 180 0.5 0.5 0.5 h1 h2 h3 h4).2.2.1⟩

end SolarSystem

end
